import Mathlib

/-!
# Device coordinator (`system/core/devmgr/devmgr-coordinator-v2.c`)

A shallow embedding of the coordinator's device / driver / host state machine.

* The C heap is explicit: `device_t` and `devhost_t` objects live in two lists,
  an address is an index, and `free` leaves a tombstone (`freed := true`) that
  keeps the last field values.  Dereferencing an address that was never
  allocated, or a tombstone, is undefined behaviour in C; every function below
  returns `none` at that point, as it does for a failing `MX_ASSERT`.
* Intrusive lists (`children`, `pending`, `list_drivers`, `list_pending_work`)
  are lists of addresses / records in list order.
* Everything the file calls but does not define (system calls, `calloc`,
  `do_publish`, `port_watch`, `dc_msg_pack`, ...) answers through a `Platform`
  record: one answer per call site, fixed for one handler invocation.  Every
  externally visible action is appended to `State.trace`.
* Constants and matcher of headers that are not part of this file are fields of
  `Config`.
* `log(...)` output is not modelled.
-/

namespace DevCoordinator

/-- Address of a `device_t`. -/
abbrev DevId := Nat

/-- Address of a `devhost_t`. -/
abbrev HostId := Nat

/-- Kernel handle value, `mx_handle_t`. -/
abbrev Handle := Nat

/-- The invalid handle, `MX_HANDLE_INVALID`. -/
def MX_HANDLE_INVALID : Handle := 0

/-- Status `NO_ERROR`. -/
def NO_ERROR : Int := 0
/-- Status `ERR_INTERNAL` (value of the platform header; only sign and distinctness matter). -/
def ERR_INTERNAL : Int := -1
/-- Status `ERR_NOT_SUPPORTED`. -/
def ERR_NOT_SUPPORTED : Int := -2
/-- Status `ERR_NO_MEMORY`. -/
def ERR_NO_MEMORY : Int := -4
/-- Status `ERR_INVALID_ARGS`. -/
def ERR_INVALID_ARGS : Int := -10
/-- Status `ERR_BAD_STATE`. -/
def ERR_BAD_STATE : Int := -20
/-- Status `ERR_PEER_CLOSED`. -/
def ERR_PEER_CLOSED : Int := -24
/-- Status `ERR_STOP`. -/
def ERR_STOP : Int := -60

/-- Work op `WORK_IDLE`. -/
def WORK_IDLE : Nat := 0
/-- Work op `WORK_DEVICE_ADDED`. -/
def WORK_DEVICE_ADDED : Nat := 1

/-- Modelled from the spec: the `DEV_CTX_*` bits of `device_t.flags`, whose
values are in the absent `devcoordinator.h`; "flags: subset of IMMORTAL,
BUSDEV, MULTI_BIND, SHADOW, BOUND, DEAD".  `flags & DEV_CTX_X` reads a field,
`flags |= DEV_CTX_X` sets it. -/
structure Flags where
  immortal : Bool := false
  busdev : Bool := false
  multi_bind : Bool := false
  shadow : Bool := false
  bound : Bool := false
  dead : Bool := false
deriving DecidableEq, Repr

/-- Modelled from the spec: the tag of a pending request, "a tag in PENDING_BIND, ...". -/
inductive PendingOp where
  | PENDING_BIND
deriving DecidableEq, Repr

/-- A `pending_t`: the tag; `ctx` is always `NULL` in this file. -/
structure Pending where
  op : PendingOp
deriving DecidableEq, Repr

/-- A `device_t`.  `work_op` / `work_arg` are the embedded `work_t`, `ph_handle`
is `ph.handle`; membership of `node` in a parent's list is the parent's
`children`.  `props` holds the `datalen` bytes copied from the message.
`refcount` is a signed counter (the code tests `refcount > 0` after the
decrement and prints it with `%d`); it is an `Int` here, so the wrap-around of
the machine integer after 2^31 references is outside the model.  The default
values are the zeroes `calloc` leaves. -/
structure Device where
  name : String := ""
  flags : Flags := {}
  protocol_id : Nat := 0
  prop_count : Nat := 0
  props : List Nat := []
  args : String := ""
  parent : Option DevId := none
  children : List DevId := []
  shadow : Option DevId := none
  host : Option HostId := none
  hrpc : Handle := MX_HANDLE_INVALID
  hrsrc : Handle := MX_HANDLE_INVALID
  ph_handle : Handle := MX_HANDLE_INVALID
  pending : List Pending := []
  refcount : Int := 0
  work_op : Nat := WORK_IDLE
  work_arg : Nat := 0
  freed : Bool := false
deriving DecidableEq, Repr

/-- A `devhost_t`. -/
structure Devhost where
  hrpc : Handle := MX_HANDLE_INVALID
  proc : Handle := MX_HANDLE_INVALID
  koid : Nat := 0
  refcount : Int := 0
  freed : Bool := false
deriving DecidableEq, Repr

/-- One bind instruction, `struct mx_bind_inst`. -/
structure BindInst where
  op : Nat
  arg : Nat
deriving DecidableEq, Repr

/-- A `driver_t`. -/
structure Driver where
  name : String := ""
  libname : String := ""
  binding : List BindInst := []
deriving DecidableEq, Repr

/-- Modelled from the spec: the op tag of a `dc_msg_t` (the table of the wire
protocol); the numeric `DC_OP_*` values are in the absent `devcoordinator.h`.
`other` is any value that is none of the named ones. -/
inductive Op where
  | ADD_DEVICE
  | REMOVE_DEVICE
  | BIND_DEVICE
  | REBIND_DEVICE
  | DM_COMMAND
  | STATUS
  | CREATE_DEVICE
  | BIND_DRIVER
  | other (n : Nat)
deriving DecidableEq, Repr

/-- Header of a `dc_msg_t`. -/
structure Msg where
  txid : Nat := 0
  op : Op := Op.STATUS
  protocol_id : Nat := 0
  namelen : Nat := 0
  argslen : Nat := 0
  datalen : Nat := 0
deriving DecidableEq, Repr

/-- Externally visible actions, in the order the code performs them. -/
inductive Event where
  | do_publish (parent : Option DevId) (dev : DevId)
  | do_unpublish (dev : DevId)
  | port_watch (dev : DevId) (h : Handle)
  | handle_close (h : Handle)
  | task_kill (proc : Handle)
  | launch (name : String) (hrpc : Handle)
  | write_status (h : Handle) (txid : Nat) (status : Int)
  | write_create_device (h : Handle) (libname : String) (args : String)
      (protocol_id : Nat) (handles : List Handle)
  | write_bind_driver (h : Handle) (libname : String)
  | printf (text : String)
  | acpi_reboot
  | acpi_poweroff
  | ktrace_start
  | ktrace_stop
  | ktrace_rewind
  | acpi_ps0 (arg : List Nat)
  | debug_send_command (cmd : List Nat)
  | launcher_write (cmd : List Nat)
deriving DecidableEq, Repr

/-- The coordinator's globals and heap. -/
structure State where
  devs : List Device := []
  hosts : List Devhost := []
  list_drivers : List Driver := []
  list_pending_work : List DevId := []
  trace : List Event := []
deriving DecidableEq, Repr

/-- Constants and the matcher that come from headers / files outside this one. -/
structure Config where
  MX_DEVICE_NAME_MAX : Nat
  sizeof_mx_device_prop_t : Nat
  MX_PROTOCOL_PCI : Nat
  MX_PROTOCOL_MISC_PARENT : Nat
  misc_device_binding : BindInst
  dc_is_bindable : Driver → Nat → List Nat → Nat → Bool → Bool

/-- Answers of the platform to the calls made during one handler invocation,
one field per call site: whether `calloc` / `malloc` returned memory, the
status of `do_publish`, `port_watch`, `mx_channel_create`, `launchpad_go`,
`mx_object_get_info`, `dc_msg_pack`, `mx_handle_duplicate`, `mx_channel_write`
(for `CREATE_DEVICE`, `BIND_DRIVER`, the status reply and the launcher),
`mx_channel_read`, `dc_msg_unpack` and `mx_debug_send_command`, the handles
the platform creates, and the message `mx_channel_read` delivers together
with what `dc_msg_unpack` finds in it.  A status is negative on failure. -/
structure Platform where
  calloc_device : Bool := true
  do_publish : Int := 0
  port_watch : Int := 0
  calloc_shadow : Bool := true
  calloc_devhost : Bool := true
  host_channel_create : Int := 0
  host_channel_remote : Handle := 0
  host_channel_local : Handle := 0
  launchpad_go : Int := 0
  host_proc : Handle := 0
  get_info : Int := 0
  host_koid : Nat := 0
  create_msg_pack : Int := 0
  dev_channel_create : Int := 0
  dev_channel_remote : Handle := 0
  dev_channel_local : Handle := 0
  handle_duplicate : Int := 0
  dup_handle : Handle := 0
  create_write : Int := 0
  shadow_port_watch : Int := 0
  malloc_pending : Bool := true
  bind_msg_pack : Int := 0
  bind_write : Int := 0
  channel_read : Int := 0
  msg : Msg := {}
  hin : List Handle := []
  msg_unpack : Int := 0
  data : List Nat := []
  name : String := ""
  args : String := ""
  status_write : Int := 0
  debug_send_command : Int := 0
  launcher_write : Int := 0

/-- Address of the static `root_device`. -/
def root_device : DevId := 0

/-- Address of the static `misc_device`. -/
def misc_device : DevId := 1

/-- Dereference a device pointer: `none` when it is not a live object. -/
def State.getDev (s : State) (d : DevId) : Option Device :=
  match s.devs[d]? with
  | some x => if x.freed then none else some x
  | none => none

/-- Store to the object at a device address. -/
def State.setDev (s : State) (d : DevId) (x : Device) : State :=
  { s with devs := s.devs.set d x }

/-- Dereference a host pointer: `none` when it is not a live object. -/
def State.getHost (s : State) (h : HostId) : Option Devhost :=
  match s.hosts[h]? with
  | some x => if x.freed then none else some x
  | none => none

/-- Store to the object at a host address. -/
def State.setHost (s : State) (h : HostId) (x : Devhost) : State :=
  { s with hosts := s.hosts.set h x }

/-- Append actions to the trace. -/
def State.emit (s : State) (es : List Event) : State :=
  { s with trace := s.trace ++ es }

/-- The static initialisers of `root_device` and `misc_device`, empty driver
list and work queue. -/
def init_state (cfg : Config) : State :=
  { devs :=
      [ { name := "root",
          flags := { immortal := true, busdev := true, multi_bind := true },
          refcount := 1 },
        { name := "misc",
          flags := { immortal := true, busdev := true, multi_bind := true },
          protocol_id := cfg.MX_PROTOCOL_MISC_PARENT,
          refcount := 1 } ] }

/-- `queue_work`: the slot must be idle (`MX_ASSERT`), then it is filled and
linked at the tail of `list_pending_work`. -/
def queue_work (s : State) (dev : DevId) (op arg : Nat) : Option State :=
  match s.getDev dev with
  | none => none
  | some d =>
    if d.work_op ≠ WORK_IDLE then none
    else
      some { s.setDev dev { d with work_op := op, work_arg := arg } with
             list_pending_work := s.list_pending_work ++ [dev] }

/-- Least value of an `int32_t`. -/
def INT32_MIN : Int := -2147483648

/-- Greatest value of an `int32_t`. -/
def INT32_MAX : Int := 2147483647

/-- The `int32_t` value that is congruent to `x` modulo `2^32`: what a 32-bit
two's-complement counter holds after an arithmetic step whose exact result is
`x`.  The `refcount` fields are `int32_t`; the records keep an integer
congruent to the field modulo `2^32`, and `refcount--`, whose result the code
tests, stores the wrapped value. -/
def wrap32 (x : Int) : Int := (x + 2147483648) % 4294967296 - 2147483648

/-- `dc_release_devhost`: drop one reference (`dh->refcount--` on an `int32_t`);
at zero close the channel, kill the process, close the process handle and free
the record. -/
def dc_release_devhost (s : State) (dh : HostId) : Option State :=
  match s.getHost dh with
  | none => none
  | some h =>
    let h1 : Devhost := { h with refcount := wrap32 (h.refcount - 1) }
    if h1.refcount > 0 then some (s.setHost dh h1)
    else
      some ((s.setHost dh { h1 with freed := true }).emit
        [Event.handle_close h.hrpc, Event.task_kill h.proc, Event.handle_close h.proc])

/-- The two conditional `mx_handle_close` calls of `dc_release_device`. -/
def release_closes (d : Device) : List Event :=
  (if d.hrpc ≠ MX_HANDLE_INVALID then [Event.handle_close d.hrpc] else []) ++
  (if d.hrsrc ≠ MX_HANDLE_INVALID then [Event.handle_close d.hrsrc] else [])

/-- `dc_release_device`: drop one reference (`dev->refcount--` on an
`int32_t`); a device that is left without references and is not immortal is
destroyed. -/
def dc_release_device (s : State) (dev : DevId) : Option State :=
  match s.getDev dev with
  | none => none
  | some d =>
    let d1 : Device := { d with refcount := wrap32 (d.refcount - 1) }
    if d1.refcount > 0 then some (s.setDev dev d1)
    else if d1.flags.immortal then some (s.setDev dev d1)
    else
      some ((s.setDev dev
              { d1 with hrpc := MX_HANDLE_INVALID,
                        ph_handle := if d1.hrpc ≠ MX_HANDLE_INVALID then MX_HANDLE_INVALID
                                     else d1.ph_handle,
                        hrsrc := MX_HANDLE_INVALID,
                        host := none,
                        freed := true }).emit
        (Event.do_unpublish dev :: release_closes d1))

/-- The device record `dc_add_device` builds between `calloc` and `do_publish`. -/
def new_device (cfg : Config) (parent : Device) (handle : List Handle) (msg : Msg)
    (name args : String) (data : List Nat) : Device :=
  let hrsrc : Handle := if handle.length > 1 then handle.getD 1 MX_HANDLE_INVALID
                        else MX_HANDLE_INVALID
  { name := name,
    flags := { busdev := decide (args ≠ "") || decide (hrsrc ≠ MX_HANDLE_INVALID) },
    protocol_id := msg.protocol_id,
    prop_count := msg.datalen / cfg.sizeof_mx_device_prop_t,
    props := data.take msg.datalen,
    args := args,
    hrpc := handle.getD 0 MX_HANDLE_INVALID,
    hrsrc := hrsrc,
    host := parent.host }

/-- The statement `if (dev->host) dev->host->refcount++` of `dc_add_device`. -/
def host_addref (s : State) (host : Option HostId) : Option State :=
  match host with
  | none => some s
  | some h =>
    match s.getHost h with
    | none => none
    | some hr => some (s.setHost h { hr with refcount := hr.refcount + 1 })

/-- The tail of `dc_add_device`, after `port_watch` succeeded: take the host
reference, link the device `dev` (record `d`) under `parent`, queue the work. -/
def dc_add_device_link (s : State) (dev : DevId) (d : Device) (parent : Option DevId) :
    Option (Int × State) :=
  match host_addref s d.host with
  | none => none
  | some s1 =>
    match parent with
    | none => none
    | some p =>
      let s2 := s1.setDev dev { d with refcount := 1, parent := some p }
      match s2.getDev p with
      | none => none
      | some pr =>
        let s3 := s2.setDev p { pr with children := pr.children ++ [dev],
                                        refcount := pr.refcount + 1 }
        match queue_work s3 dev WORK_DEVICE_ADDED 0 with
        | none => none
        | some s4 => some (NO_ERROR, s4)

/-- `dc_add_device`: add a new device to a parent device (same devhost). -/
def dc_add_device (cfg : Config) (pf : Platform) (s : State) (parent : DevId)
    (handle : List Handle) (msg : Msg) (name args : String) (data : List Nat) :
    Option (Int × State) :=
  if handle.length = 0 then some (ERR_INVALID_ARGS, s)
  else if msg.namelen > cfg.MX_DEVICE_NAME_MAX then some (ERR_INVALID_ARGS, s)
  else if msg.datalen % cfg.sizeof_mx_device_prop_t ≠ 0 then some (ERR_INVALID_ARGS, s)
  else if !pf.calloc_device then some (ERR_NO_MEMORY, s)
  else
    match s.getDev parent with
    | none => none
    | some pr =>
      let dev : DevId := s.devs.length
      let d := new_device cfg pr handle msg name args data
      let s1 : State := { s with devs := s.devs ++ [d] }
      let parent1 : Option DevId := if pr.flags.shadow then pr.parent else some parent
      let s2 := s1.emit [Event.do_publish parent1 dev]
      if pf.do_publish < 0 then
        some (pf.do_publish, s2.setDev dev { d with freed := true })
      else
        let d1 : Device := { d with ph_handle := handle.getD 0 MX_HANDLE_INVALID }
        let s3 := (s2.setDev dev d1).emit [Event.port_watch dev d1.ph_handle]
        if pf.port_watch < 0 then
          some (pf.port_watch,
                (s3.emit [Event.do_unpublish dev]).setDev dev { d1 with freed := true })
        else dc_add_device_link s3 dev d1 parent1

/-- The part "detach from devhost" of `dc_remove_device`: release the host of
`dev` (record `d`) and clear `dev->host`. -/
def dc_remove_device_detach (s : State) (dev : DevId) (d : Device) : Option State :=
  match d.host with
  | none => some s
  | some h =>
    match dc_release_devhost s h with
    | none => none
    | some s1 => some (s1.setDev dev { d with host := none })

/-- The part "if we have a parent, disconnect and downref it" of
`dc_remove_device`.  `list_delete(&dev->node)` unlinks the node from the list
that holds it; a device node is only ever linked by `dc_add_device`, into the
`children` of the device stored in `dev->parent`, so the unlink is the removal
of `dev` from that list. -/
def dc_remove_device_unlink (s : State) (dev : DevId) : Option State :=
  match s.getDev dev with
  | none => none
  | some d =>
    match d.parent with
    | none => some s
    | some p =>
      match s.getDev p with
      | none => none
      | some pr =>
        let s1 := if d.flags.shadow then s.setDev p { pr with shadow := none }
                  else s.setDev p { pr with children := pr.children.erase dev }
        match s1.getDev dev with
        | none => none
        | some d1 => dc_release_device (s1.setDev dev { d1 with parent := none }) p

/-- `dc_remove_device`: remove device from parent. -/
def dc_remove_device (s : State) (dev : DevId) : Option (Int × State) :=
  match s.getDev dev with
  | none => none
  | some d =>
    if d.flags.dead then some (ERR_BAD_STATE, s)
    else if d.flags.immortal then some (ERR_BAD_STATE, s)
    else
      let d1 : Device := { d with flags := { d.flags with dead := true } }
      let s1 := (s.setDev dev d1).emit [Event.do_unpublish dev]
      match dc_remove_device_detach s1 dev d1 with
      | none => none
      | some s2 =>
        match dc_remove_device_unlink s2 dev with
        | none => none
        | some s3 => some (NO_ERROR, s3)

/-- `dh_bind_driver`: ask the host of `dev` to bind the driver `libname`.  The
trace records the `mx_channel_write` call; whether it succeeded is the
platform's answer. -/
def dh_bind_driver (pf : Platform) (s : State) (dev : DevId) (libname : String) :
    Option (Int × State) :=
  if !pf.malloc_pending then some (ERR_NO_MEMORY, s)
  else if pf.bind_msg_pack < 0 then some (pf.bind_msg_pack, s)
  else
    match s.getDev dev with
    | none => none
    | some d =>
      let s1 := s.emit [Event.write_bind_driver d.hrpc libname]
      if pf.bind_write < 0 then some (pf.bind_write, s1)
      else
        some (NO_ERROR,
              s1.setDev dev { d with flags := { d.flags with bound := true },
                                     pending := d.pending ++ [{ op := PendingOp.PENDING_BIND }] })

/-- `dc_create_shadow`: give `parent` a shadow device unless it has one. -/
def dc_create_shadow (pf : Platform) (s : State) (parent : DevId) : Option (Int × State) :=
  match s.getDev parent with
  | none => none
  | some pr =>
    if pr.shadow ≠ none then some (NO_ERROR, s)
    else if !pf.calloc_shadow then some (ERR_NO_MEMORY, s)
    else
      let dev : DevId := s.devs.length
      let d : Device :=
        { name := pr.name, flags := { shadow := true }, protocol_id := pr.protocol_id,
          parent := some parent }
      let s1 : State := { s with devs := s.devs ++ [d] }
      some (NO_ERROR,
            s1.setDev parent { pr with shadow := some dev, refcount := pr.refcount + 1 })

/-- `dc_launch_devhost`: spawn the host process for the record `host`; the
launchpad calls are one `launch` action. -/
def dc_launch_devhost (pf : Platform) (s : State) (host : HostId) (name : String)
    (hrpc : Handle) : Option (Int × State) :=
  match s.getHost host with
  | none => none
  | some h =>
    let s1 := s.emit [Event.launch name hrpc]
    if pf.launchpad_go < 0 then some (pf.launchpad_go, s1)
    else
      let h1 : Devhost := { h with proc := pf.host_proc }
      let h2 : Devhost := if pf.get_info = NO_ERROR then { h1 with koid := pf.host_koid } else h1
      some (NO_ERROR, s1.setHost host h2)

/-- `dc_new_devhost`: allocate a host record, create its channel, launch it.
The third component is what is stored through `out`. -/
def dc_new_devhost (pf : Platform) (s : State) (name : String) :
    Option (Int × State × Option HostId) :=
  if !pf.calloc_devhost then some (ERR_NO_MEMORY, s, none)
  else
    let ctx : HostId := s.hosts.length
    let s1 : State := { s with hosts := s.hosts ++ [({} : Devhost)] }
    if pf.host_channel_create < 0 then
      some (pf.host_channel_create, s1.setHost ctx { freed := true }, none)
    else
      let h : Devhost := { hrpc := pf.host_channel_local }
      let s2 := s1.setHost ctx h
      match dc_launch_devhost pf s2 ctx name pf.host_channel_remote with
      | none => none
      | some (r, s3) =>
        if r < 0 then
          match s3.getHost ctx with
          | none => none
          | some h3 =>
            some (r, (s3.emit [Event.handle_close h3.hrpc]).setHost ctx { h3 with freed := true },
                  none)
        else some (NO_ERROR, s3, some ctx)

/-- `dh_create_device`: ask the host `dh` to create the device `dev`. -/
def dh_create_device (pf : Platform) (s : State) (dev : DevId) (dh : HostId)
    (libname : String) : Option (Int × State) :=
  match s.getDev dev with
  | none => none
  | some d =>
    match (if d.flags.shadow then d.parent else some dev) with
    | none => none
    | some info =>
      match s.getDev info with
      | none => none
      | some inf =>
        if pf.create_msg_pack < 0 then some (pf.create_msg_pack, s)
        else if pf.dev_channel_create < 0 then some (pf.dev_channel_create, s)
        else
          let h0 := pf.dev_channel_remote
          let hrpc := pf.dev_channel_local
          if inf.hrsrc ≠ MX_HANDLE_INVALID ∧ pf.handle_duplicate < 0 then
            some (pf.handle_duplicate,
                  s.emit [Event.handle_close h0, Event.handle_close hrpc])
          else
            match s.getHost dh with
            | none => none
            | some hr =>
              let handles : List Handle :=
                if inf.hrsrc ≠ MX_HANDLE_INVALID then [h0, pf.dup_handle] else [h0]
              let s1 := s.emit [Event.write_create_device hr.hrpc libname inf.args
                                  d.protocol_id handles]
              if pf.create_write < 0 then
                some (pf.create_write,
                      s1.emit ((if inf.hrsrc ≠ MX_HANDLE_INVALID
                                then [Event.handle_close pf.dup_handle] else []) ++
                               [Event.handle_close h0, Event.handle_close hrpc]))
              else
                let s2 := (s1.setDev dev { d with hrpc := hrpc, ph_handle := hrpc }).emit
                            [Event.port_watch dev hrpc]
                if pf.shadow_port_watch < 0 then
                  some (pf.shadow_port_watch, s2.emit [Event.handle_close hrpc])
                else some (NO_ERROR, s2)

/-- The shadow part of `dc_attempt_bind`, from `dc_create_shadow` on. -/
def dc_attempt_bind_busdev (pf : Platform) (s : State) (drv : Driver) (dev : DevId)
    (libname devhostname : String) : Option (Int × State) :=
  match dc_create_shadow pf s dev with
  | none => none
  | some (r, s1) =>
    if r < 0 then some (r, s1)
    else
      match s1.getDev dev with
      | none => none
      | some d1 =>
        match d1.shadow with
        | none => none
        | some sh =>
          match s1.getDev sh with
          | none => none
          | some shr =>
            if shr.host = none then
              match dc_new_devhost pf s1 devhostname with
              | none => none
              | some (r2, s2, out) =>
                let s2a := if r2 < 0 then s2 else s2.setDev sh { shr with host := out }
                if r2 < 0 then some (r2, s2a)
                else
                  match out with
                  | none => none
                  | some dh =>
                    match dh_create_device pf s2a sh dh libname with
                    | none => none
                    | some (r3, s3) =>
                      if r3 < 0 then some (r3, s3)
                      else dh_bind_driver pf s3 sh drv.libname
            else dh_bind_driver pf s1 sh drv.libname

/-- `dc_attempt_bind`: bind the driver `drv` to the device `dev`. -/
def dc_attempt_bind (cfg : Config) (pf : Platform) (s : State) (drv : Driver) (dev : DevId) :
    Option (Int × State) :=
  match s.getDev dev with
  | none => none
  | some d =>
    if d.flags.bound ∧ ¬ d.flags.multi_bind then some (ERR_BAD_STATE, s)
    else if ¬ d.flags.busdev then
      if d.host = none then some (ERR_BAD_STATE, s)
      else dh_bind_driver pf s dev drv.libname
    else if d.protocol_id = cfg.MX_PROTOCOL_PCI then
      dc_attempt_bind_busdev pf s drv dev "driver/bus-pci.so" "devhost:pci"
    else if d.protocol_id = cfg.MX_PROTOCOL_MISC_PARENT then
      dc_attempt_bind_busdev pf s drv dev "" "devhost:misc"
    else if dev = root_device then
      dc_attempt_bind_busdev pf s drv dev "" "devhost:root"
    else some (ERR_NOT_SUPPORTED, s)

/-- The loop of `dc_bind_device` over `list_drivers`: stop at the first driver
whose `libname` is `tmp`; the status of `dc_attempt_bind` is dropped. -/
def dc_bind_device_loop (cfg : Config) (pf : Platform) (s : State) (dev : DevId) (d : Device)
    (tmp : String) : List Driver → Option State
  | [] => some s
  | drv :: rest =>
    if drv.libname = tmp then
      if cfg.dc_is_bindable drv d.protocol_id d.props d.prop_count false then
        match dc_attempt_bind cfg pf s drv dev with
        | none => none
        | some (_, s1) => some s1
      else some s
    else dc_bind_device_loop cfg pf s dev d tmp rest

/-- `dc_bind_device`: administrative bind of the driver named `drvname`. -/
def dc_bind_device (cfg : Config) (pf : Platform) (s : State) (dev : DevId)
    (drvname : String) : Option (Int × State) :=
  let tmp : String := "driver/" ++ drvname ++ ".so"
  match s.getDev dev with
  | none => none
  | some d =>
    if d.flags.shadow then some (ERR_NOT_SUPPORTED, s)
    else
      match dc_bind_device_loop cfg pf s dev d tmp s.list_drivers with
      | none => none
      | some s1 => some (NO_ERROR, s1)

/-- `dc_rebind_device`. -/
def dc_rebind_device (s : State) (_dev : DevId) : Option (Int × State) :=
  some (ERR_NOT_SUPPORTED, s)

/-- The loop of `dc_handle_new_device` over `list_drivers`. -/
def dc_handle_new_device_loop (cfg : Config) (pf : Platform) (s : State) (dev : DevId)
    (d : Device) : List Driver → Option State
  | [] => some s
  | drv :: rest =>
    if cfg.dc_is_bindable drv d.protocol_id d.props d.prop_count true then
      match dc_attempt_bind cfg pf s drv dev with
      | none => none
      | some (_, s1) => some s1
    else dc_handle_new_device_loop cfg pf s dev d rest

/-- `dc_handle_new_device`: try the first bindable driver on a new device. -/
def dc_handle_new_device (cfg : Config) (pf : Platform) (s : State) (dev : DevId) :
    Option State :=
  match s.list_drivers with
  | [] => some s
  | drvs =>
    match s.getDev dev with
    | none => none
    | some d => dc_handle_new_device_loop cfg pf s dev d drvs

/-- `process_work`: clear the slot, then run the op. -/
def process_work (cfg : Config) (pf : Platform) (s : State) (dev : DevId) : Option State :=
  match s.getDev dev with
  | none => none
  | some d =>
    let op := d.work_op
    let s1 := s.setDev dev { d with work_op := WORK_IDLE }
    if op = WORK_DEVICE_ADDED then dc_handle_new_device cfg pf s1 dev
    else some s1

/-- The idle branch of the loop in `coordinator`: `port_dispatch` timed out
with work pending, so the head of `list_pending_work` is processed. -/
def coordinator_idle_step (cfg : Config) (pf : Platform) (s : State) : Option State :=
  match s.list_pending_work with
  | [] => some s
  | dev :: rest => process_work cfg pf { s with list_pending_work := rest } dev

/-- `is_misc_driver`: the binding is exactly the one instruction
`misc_device_binding`. -/
def is_misc_driver (cfg : Config) (drv : Driver) : Bool :=
  decide (drv.binding = [cfg.misc_device_binding])

/-- `coordinator_new_driver`: register a driver; the PCI and misc drivers are
bound to `root_device` / `misc_device` at once. -/
def coordinator_new_driver (cfg : Config) (pf : Platform) (s : State) (ctx : Driver) :
    Option State :=
  let s1 : State := { s with list_drivers := s.list_drivers ++ [ctx] }
  if ctx.name = "pci" then
    match dc_attempt_bind cfg pf s1 ctx root_device with
    | none => none
    | some (_, s2) => some s2
  else if is_misc_driver cfg ctx then
    match dc_attempt_bind cfg pf s1 ctx misc_device with
    | none => none
    | some (_, s2) => some s2
  else some s1

/-- The line `dc_dump_device` prints for one device. -/
def dump_line (d : Device) (pid : Nat) (indent : Nat) : String :=
  let pad : String := String.mk (List.replicate (indent * 3) ' ')
  if pid = 0 then pad ++ "[" ++ d.name ++ "]\n"
  else
    pad ++ "[" ++ d.name ++ "] pid=" ++ toString pid ++
      (if d.flags.busdev then " busdev" else "") ++
      (if d.flags.shadow then " shadow" else "") ++ "\n"

/-- `dc_dump_device`: the lines printed for the subtree of `dev`.  The C
function recurses over shadow and children pointers; `fuel` bounds the depth
and `none` stands for a recursion that does not end or an invalid pointer. -/
def dc_dump_device : Nat → State → DevId → Nat → Option (List String)
  | 0, _, _, _ => none
  | fuel + 1, s, dev, indent =>
    match s.getDev dev with
    | none => none
    | some d =>
      match (match d.host with
             | none => some 0
             | some h => (s.getHost h).map (fun hr => hr.koid)) with
      | none => none
      | some pid =>
        let line := dump_line d pid indent
        let indent1 := if d.shadow ≠ none then indent + 1 else indent
        let sh : Option (List String) :=
          match d.shadow with
          | none => some []
          | some x => dc_dump_device fuel s x indent1
        d.children.foldl
          (fun acc child =>
            match acc, dc_dump_device fuel s child (indent1 + 1) with
            | some out, some l => some (out ++ l)
            | _, _ => none)
          (sh.map (fun l => line :: l))

/-- `dc_dump_state`: dump `root_device` at indent 0, then `misc_device` at 1. -/
def dc_dump_state (s : State) : Option State :=
  match dc_dump_device (s.devs.length + 1) s root_device 0,
        dc_dump_device (s.devs.length + 1) s misc_device 1 with
  | some a, some b => some (s.emit ((a ++ b).map Event.printf))
  | _, _ => none

/-- The bytes of a C string literal. -/
def cbytes (lit : String) : List Nat := lit.toList.map Char.toNat

/-- The test `!memcmp(cmd, lit, n)`: the first `n` bytes of `cmd` are `lit`. -/
def memcmp_eq (cmd : List Nat) (lit : String) (n : Nat) : Bool :=
  decide (cmd.take n = cbytes lit)

/-- The text printed by the `help` command. -/
def help_text : String :=
  "dump        - dump device tree\n" ++
  "poweroff    - power off the system\n" ++
  "shutdown    - power off the system\n" ++
  "reboot      - reboot the system\n" ++
  "kerneldebug - send a command to the kernel\n" ++
  "ktraceoff   - stop kernel tracing\n" ++
  "ktraceon    - start kernel tracing\n" ++
  "acpi-ps0    - invoke the _PS0 method on an acpi object\n"

/-- `handle_dmctl_write`: the administrative text commands. -/
def handle_dmctl_write (pf : Platform) (s : State) (len : Nat) (cmd : List Nat) :
    Option (Int × State) :=
  if len = 4 ∧ memcmp_eq cmd "dump" 4 then
    match dc_dump_state s with
    | none => none
    | some s1 => some (NO_ERROR, s1)
  else if len = 4 ∧ memcmp_eq cmd "help" 4 then
    some (NO_ERROR, s.emit [Event.printf help_text])
  else if len = 6 ∧ memcmp_eq cmd "reboot" 6 then
    some (NO_ERROR, s.emit [Event.acpi_reboot])
  else if len = 8 ∧ (memcmp_eq cmd "poweroff" 8 ∨ memcmp_eq cmd "shutdown" 8) then
    some (NO_ERROR, s.emit [Event.acpi_poweroff])
  else if len = 8 ∧ memcmp_eq cmd "ktraceon" 8 then
    some (NO_ERROR, s.emit [Event.ktrace_start])
  else if len = 9 ∧ memcmp_eq cmd "ktraceoff" 9 then
    some (NO_ERROR, s.emit [Event.ktrace_stop, Event.ktrace_rewind])
  else if len > 9 ∧ memcmp_eq cmd "acpi-ps0:" 9 then
    some (NO_ERROR, s.emit [Event.acpi_ps0 ((cmd.drop 9).take (len - 9))])
  else if len > 12 ∧ memcmp_eq cmd "kerneldebug " 12 then
    some (pf.debug_send_command,
          s.emit [Event.debug_send_command ((cmd.drop 12).take (len - 12))])
  else if len > 1 ∧ cmd.head? = some ('@').toNat then
    some (pf.launcher_write, s.emit [Event.launcher_write (cmd.take len)])
  else some (ERR_NOT_SUPPORTED, s)

/-- The loop `while (hcount > 0) mx_handle_close(hin[--hcount])`. -/
def close_handles (s : State) (hin : List Handle) : State :=
  s.emit (hin.reverse.map Event.handle_close)

/-- The statement "for all other ops, silently close any passed handles" of
`dc_handle_device_read`: the state and the handles that remain. -/
def drop_handles (s : State) (msg : Msg) (hin : List Handle) : State × List Handle :=
  if hin.length ≠ 0 ∧ msg.op ≠ Op.ADD_DEVICE then (close_handles s hin, []) else (s, hin)

/-- The label `done` of `dc_handle_device_read`: write the status reply on the
channel of `dev`. -/
def reply_done (pf : Platform) (s : State) (dev : DevId) (txid : Nat) (r : Int) :
    Option (Int × State) :=
  match s.getDev dev with
  | none => none
  | some d =>
    let s1 := s.emit [Event.write_status d.hrpc txid r]
    if pf.status_write < 0 then some (pf.status_write, s1) else some (NO_ERROR, s1)

/-- `dc_handle_device_read`: read one message from the channel of `dev` and
dispatch it.  The message, its handles and the result of `dc_msg_unpack` are
the platform's answers. -/
def dc_handle_device_read (cfg : Config) (pf : Platform) (s : State) (dev : DevId) :
    Option (Int × State) :=
  match s.getDev dev with
  | none => none
  | some d =>
    if d.flags.dead then some (ERR_INTERNAL, s)
    else if pf.channel_read < 0 then some (pf.channel_read, s)
    else if pf.msg_unpack < 0 then some (ERR_INTERNAL, s)
    else
      let msg := pf.msg
      let s0 := (drop_handles s msg (pf.hin.take 2)).1
      let hin := (drop_handles s msg (pf.hin.take 2)).2
      match msg.op with
      | Op.ADD_DEVICE =>
        match dc_add_device cfg pf s0 dev hin msg pf.name pf.args pf.data with
        | none => none
        | some (r, s1) =>
          reply_done pf (if r < 0 then close_handles s1 hin else s1) dev msg.txid r
      | Op.REMOVE_DEVICE =>
        match dc_remove_device s0 dev with
        | none => none
        | some (_, s1) =>
          match s1.getDev dev with
          | none => none
          | some d1 => some (ERR_STOP, s1.emit [Event.write_status d1.hrpc msg.txid NO_ERROR])
      | Op.BIND_DEVICE =>
        match dc_bind_device cfg pf s0 dev pf.args with
        | none => none
        | some (r, s1) => reply_done pf s1 dev msg.txid r
      | Op.REBIND_DEVICE =>
        match dc_rebind_device s0 dev with
        | none => none
        | some (r, s1) => reply_done pf s1 dev msg.txid r
      | Op.DM_COMMAND =>
        match handle_dmctl_write pf s0 msg.datalen pf.data with
        | none => none
        | some (r, s1) => reply_done pf s1 dev msg.txid r
      | Op.STATUS =>
        match d.pending.getLast? with
        | none => some (NO_ERROR, s0)
        | some _ => some (NO_ERROR, s0.setDev dev { d with pending := d.pending.dropLast })
      | _ => reply_done pf s0 dev msg.txid ERR_NOT_SUPPORTED

/-- The label `detach` of `dc_handle_device`: close the channel of `dev`. -/
def detach (s : State) (dev : DevId) (r : Int) : Option (Int × State) :=
  match s.getDev dev with
  | none => none
  | some d =>
    if d.hrpc ≠ MX_HANDLE_INVALID then
      some (r, (s.emit [Event.handle_close d.hrpc]).setDev dev
                 { d with hrpc := MX_HANDLE_INVALID, ph_handle := MX_HANDLE_INVALID })
    else some (r, s)

/-- `dc_handle_device`: the port handler of a device channel; `readable` and
`peer_closed` are the two signal bits. -/
def dc_handle_device (cfg : Config) (pf : Platform) (s : State) (dev : DevId)
    (readable peer_closed : Bool) : Option (Int × State) :=
  if readable then
    match dc_handle_device_read cfg pf s dev with
    | none => none
    | some (r, s1) =>
      if r < 0 then
        if r ≠ ERR_STOP then
          match dc_remove_device s1 dev with
          | none => none
          | some (_, s2) => detach s2 dev r
        else detach s1 dev r
      else some (NO_ERROR, s1)
  else if peer_closed then detach s dev ERR_PEER_CLOSED
  else some (NO_ERROR, s)

/-- Tree invariants 1 and 2 of the device tree, over every record of the heap:
no device is its own parent, child lists have no duplicates, a device in
`children` of `q` has parent `q` and is not a shadow, and the device in
`q.shadow` has parent `q` and is a shadow. -/
def TreeInv (s : State) : Prop :=
  ∀ e ∈ s.devs.enum,
    e.2.parent ≠ some e.1 ∧
    e.2.children.Nodup ∧
    (∀ c ∈ e.2.children, ∃ cr ∈ s.devs[c]?, cr.parent = some e.1 ∧ cr.flags.shadow = false) ∧
    (∀ c ∈ e.2.shadow, ∃ cr ∈ s.devs[c]?, cr.parent = some e.1 ∧ cr.flags.shadow = true)

instance (s : State) : Decidable (TreeInv s) := by
  unfold TreeInv; infer_instance

/-- A sample configuration: the usual header values and a matcher that binds a
driver when one of its instructions names the device protocol. -/
def sample_cfg : Config :=
  { MX_DEVICE_NAME_MAX := 31,
    sizeof_mx_device_prop_t := 8,
    MX_PROTOCOL_PCI := 0x70504349,
    MX_PROTOCOL_MISC_PARENT := 0x704D5350,
    misc_device_binding := { op := 1, arg := 0x704D5350 },
    dc_is_bindable := fun drv pid _ _ _ => drv.binding.any (fun i => decide (i.arg = pid)) }

/-- A platform on which every call succeeds. -/
def ok_platform : Platform := {}

/-- A sample state as the code builds it: `root` has been bound (shadow 2 in
host 0), and the device 3 has been added through the shadow, so it hangs under
`root` and lives in host 0. -/
def sample_state : State :=
  { devs :=
      [ { name := "root",
          flags := { immortal := true, busdev := true, multi_bind := true },
          shadow := some 2, children := [3], refcount := 3 },
        { name := "misc",
          flags := { immortal := true, busdev := true, multi_bind := true },
          protocol_id := sample_cfg.MX_PROTOCOL_MISC_PARENT,
          refcount := 1 },
        { name := "root", flags := { shadow := true, bound := true }, parent := some 0,
          host := some 0, hrpc := 12, ph_handle := 12,
          pending := [{ op := PendingOp.PENDING_BIND }] },
        { name := "eth", protocol_id := 42, parent := some 0, host := some 0,
          hrpc := 20, ph_handle := 20, refcount := 1, work_op := WORK_DEVICE_ADDED } ],
    hosts := [ { hrpc := 10, proc := 11, koid := 1000, refcount := 1 } ],
    list_pending_work := [3],
    trace := [] }

/-- Add one device under `root_device`, then remove it: the two statuses and
the final state.  Afterwards every non-immortal device has been removed. -/
def add_then_remove : Option (Int × Int × State) :=
  match dc_add_device sample_cfg ok_platform (init_state sample_cfg) root_device [7]
      { op := Op.ADD_DEVICE, namelen := 2 } "a" "" [] with
  | none => none
  | some (r1, s1) =>
    match dc_remove_device s1 2 with
    | none => none
    | some (r2, s2) => some (r1, r2, s2)

/-- Every live device of `s` is live in `s'`. -/
def LiveMono (s s' : State) : Prop :=
  ∀ i x, s.getDev i = some x → ∃ x', s'.getDev i = some x'

/-- A driver named `eth` whose binding names protocol 42. -/
def eth_driver : Driver :=
  { name := "eth", libname := "driver/eth.so", binding := [{ op := 1, arg := 42 }] }

/-- The sample state with `eth_driver` registered and the device 3 already
`BOUND` (one bind pending), without `MULTI_BIND`. -/
def bound_state : State :=
  { sample_state with
    devs := sample_state.devs.set 3
      { name := "eth", flags := { bound := true }, protocol_id := 42, parent := some 0,
        host := some 0, hrpc := 20, ph_handle := 20,
        pending := [{ op := PendingOp.PENDING_BIND }], refcount := 1 },
    list_drivers := [eth_driver] }

/-- A platform that delivers the request `BIND_DEVICE("eth")` with txid 5. -/
def bind_request : Platform :=
  { msg := { txid := 5, op := Op.BIND_DEVICE }, args := "eth" }

/-- A platform on which every call succeeds and hands out distinct handles. -/
def launch_platform : Platform :=
  { host_channel_remote := 10, host_channel_local := 11, host_proc := 12, host_koid := 1000,
    dev_channel_remote := 13, dev_channel_local := 14 }

/-- The PCI bus driver of the registration scenario. -/
def pci_driver : Driver := { name := "pci", libname := "driver/bus-pci.so" }

/-- The text that the `printf` actions of a trace write, in order. -/
def printed : List Event → String
  | [] => ""
  | Event.printf text :: es => text ++ printed es
  | _ :: es => printed es

/-- Whether an action is the write of a status reply. -/
def Event.is_status_reply : Event → Bool
  | Event.write_status _ _ _ => true
  | _ => false

/-- From `s` to `s'` the trace only grows, and by no status reply. -/
def NoReply (s s' : State) : Prop :=
  ∃ es, s'.trace = s.trace ++ es ∧ es.filter Event.is_status_reply = []

/-- From `s` to `s'` live devices stay live and no status reply is written. -/
def Quiet (s s' : State) : Prop := LiveMono s s' ∧ NoReply s s'

/-- The calls that a request makes have defined behaviour. -/
def request_defined (cfg : Config) (pf : Platform) (s : State) (dev : DevId) (d : Device) : Prop :=
  match pf.msg.op with
  | Op.ADD_DEVICE =>
    (dc_add_device cfg pf (drop_handles s pf.msg (pf.hin.take 2)).1 dev
      (drop_handles s pf.msg (pf.hin.take 2)).2 pf.msg pf.name pf.args pf.data).isSome = true
  | Op.REMOVE_DEVICE =>
    (dc_remove_device (drop_handles s pf.msg (pf.hin.take 2)).1 dev).isSome = true ∧
      d.parent ≠ some dev
  | Op.BIND_DEVICE =>
    (dc_bind_device cfg pf (drop_handles s pf.msg (pf.hin.take 2)).1 dev pf.args).isSome = true
  | Op.DM_COMMAND =>
    (handle_dmctl_write pf (drop_handles s pf.msg (pf.hin.take 2)).1 pf.msg.datalen
      pf.data).isSome = true
  | _ => True

/-- A platform that delivers the request `REMOVE_DEVICE` with txid 7. -/
def remove_request : Platform :=
  { msg := { txid := 7, op := Op.REMOVE_DEVICE } }

/-- A platform that delivers a frame which `dc_msg_unpack` rejects. -/
def truncated_frame : Platform :=
  { msg := { txid := 9, op := Op.ADD_DEVICE }, hin := [30], msg_unpack := ERR_INVALID_ARGS }

/-- A platform that delivers an `ADD_DEVICE` frame whose `datalen` is not a
whole number of property triples. -/
def odd_frame : Platform :=
  { msg := { txid := 9, op := Op.ADD_DEVICE, datalen := 1 }, hin := [30] }

/-- The number of live devices whose `host` field is the host `h`. -/
def host_users (s : State) (h : HostId) : Nat :=
  (s.devs.filter (fun d => !d.freed && decide (d.host = some h))).length

/-- The start of `coordinator`: the built-in driver `driver/root.so` is bound
to `root_device` in the initial state, every platform call succeeding. -/
def root_bound : Option (Int × State) :=
  dc_attempt_bind sample_cfg launch_platform (init_state sample_cfg)
    { libname := "driver/root.so" } root_device

/-- After `root_bound`, the host of the shadow of `root` adds the device `eth`
through the shadow's channel (device 3). -/
def root_child_added : Option (Int × State) :=
  match root_bound with
  | none => none
  | some (_, s1) =>
    dc_add_device sample_cfg ok_platform s1 2 [20]
      { op := Op.ADD_DEVICE, protocol_id := 42, namelen := 3 } "eth" "" []

/-- After `root_child_added`, the device `eth` is removed again. -/
def root_child_removed : Option (Int × State) :=
  match root_child_added with
  | none => none
  | some (_, s2) => dc_remove_device s2 3

/-- After `root_child_removed`, the host of the shadow of `root` adds another
device through the shadow's channel. -/
def root_child_added_again : Option (Int × State) :=
  match root_child_removed with
  | none => none
  | some (_, s3) =>
    dc_add_device sample_cfg ok_platform s3 2 [21]
      { op := Op.ADD_DEVICE, protocol_id := 42, namelen := 3 } "eth" "" []

/-- A platform on which every call succeeds and hands out the handles of a
second host. -/
def second_launch_platform : Platform :=
  { host_channel_remote := 30, host_channel_local := 31, host_proc := 32, host_koid := 2000,
    dev_channel_remote := 33, dev_channel_local := 34 }

/-- A driver for devices of protocol `MX_PROTOCOL_PCI`. -/
def nic_driver : Driver :=
  { name := "nic", libname := "driver/nic.so",
    binding := [{ op := 1, arg := sample_cfg.MX_PROTOCOL_PCI }] }

/-- After `root_bound`, the driver `nic_driver` is registered and the host of
the shadow of `root` adds the bus device `00:01.0` (bus arguments, protocol
`MX_PROTOCOL_PCI`) through the shadow's channel: device 3, without
`MULTI_BIND`, its `DEVICE_ADDED` work queued. -/
def busdev_added : Option State :=
  match root_bound with
  | none => none
  | some (_, s1) =>
    match coordinator_new_driver sample_cfg ok_platform s1 nic_driver with
    | none => none
    | some s2 =>
      (dc_add_device sample_cfg ok_platform s2 2 [20]
        { op := Op.ADD_DEVICE, protocol_id := sample_cfg.MX_PROTOCOL_PCI, namelen := 7,
          argslen := 7 } "00:01.0" "00:01.0" []).map (fun r => r.2)

/-- After `busdev_added`, `nic_driver` is bound to the bus device 3, and then a
second driver is bound to the same device: the two statuses and the state. -/
def bound_twice : Option (Int × Int × State) :=
  match busdev_added with
  | none => none
  | some s =>
    match dc_attempt_bind sample_cfg second_launch_platform s nic_driver 3 with
    | none => none
    | some (r1, s1) =>
      match dc_attempt_bind sample_cfg ok_platform s1
          { name := "other", libname := "driver/other.so" } 3 with
      | none => none
      | some (r2, s2) => some (r1, r2, s2)

/-- After `busdev_added`, the bus device 3 is removed while its `DEVICE_ADDED`
work item is still queued. -/
def dead_with_work : Option State :=
  match busdev_added with
  | none => none
  | some s => (dc_remove_device s 3).map (fun r => r.2)

/-- After `dead_with_work`, the main loop processes the head of the work
queue. -/
def dead_processed : Option State :=
  match dead_with_work with
  | none => none
  | some s => coordinator_idle_step sample_cfg second_launch_platform s

/-- The work op stored at a device address; `WORK_IDLE` where there is no
record. -/
def work_slot (s : State) (dev : DevId) : Nat :=
  match s.devs[dev]? with
  | some d => d.work_op
  | none => WORK_IDLE

/-- From `s` to `s'` the work queue and every work slot are the same. -/
def WorkKeep (s s' : State) : Prop :=
  s'.list_pending_work = s.list_pending_work ∧ ∀ i, work_slot s' i = work_slot s i

/-- The work-queue invariant: no device is queued twice, and a device is
queued exactly when its slot is not idle. -/
def WorkInv (s : State) : Prop :=
  s.list_pending_work.Nodup ∧
  ∀ dev, dev ∈ s.list_pending_work ↔ ∃ d, s.devs[dev]? = some d ∧ d.work_op ≠ WORK_IDLE

/-- The states the coordinator reaches from the initial state by adding and
removing devices, processing the head of the work queue in the main loop,
registering drivers and binding drivers to devices. -/
inductive WorkReach (cfg : Config) : State → Prop
  | init : WorkReach cfg (init_state cfg)
  | add (pf : Platform) (s : State) (parent : DevId) (handle : List Handle) (msg : Msg)
      (name args : String) (data : List Nat) (r : Int) (s1 : State) :
      WorkReach cfg s →
      dc_add_device cfg pf s parent handle msg name args data = some (r, s1) →
      WorkReach cfg s1
  | remove (s : State) (dev : DevId) (r : Int) (s1 : State) :
      WorkReach cfg s → dc_remove_device s dev = some (r, s1) → WorkReach cfg s1
  | work (pf : Platform) (s s1 : State) :
      WorkReach cfg s → coordinator_idle_step cfg pf s = some s1 → WorkReach cfg s1
  | driver (pf : Platform) (s : State) (drv : Driver) (s1 : State) :
      WorkReach cfg s → coordinator_new_driver cfg pf s drv = some s1 → WorkReach cfg s1
  | bind (pf : Platform) (s : State) (drv : Driver) (dev : DevId) (r : Int) (s1 : State) :
      WorkReach cfg s → dc_attempt_bind cfg pf s drv dev = some (r, s1) → WorkReach cfg s1

/-- The initial state after one device has been added under `root_device`. -/
def one_queued : State :=
  ((dc_add_device sample_cfg ok_platform (init_state sample_cfg) root_device [7]
      { op := Op.ADD_DEVICE, namelen := 2 } "a" "" []).map (fun r => r.2)).getD
    (init_state sample_cfg)

/-- The fields of a device record that make the tree: parent, children,
shadow, and whether the device is a shadow. -/
structure TreeView where
  up : Option DevId
  kids : List DevId
  shd : Option DevId
  isShd : Bool
deriving DecidableEq, Repr

/-- The tree fields of a device record. -/
def tree_view (d : Device) : TreeView :=
  { up := d.parent, kids := d.children, shd := d.shadow, isShd := d.flags.shadow }

/-- The tree fields stored at each device address. -/
def tree_map (s : State) (i : DevId) : Option TreeView :=
  (s.devs[i]?).map tree_view

/-- The tree invariants over a map from addresses to tree fields. -/
def TreeInvF (T : DevId → Option TreeView) : Prop :=
  ∀ q v, T q = some v →
    v.up ≠ some q ∧ v.kids.Nodup ∧
    (∀ c ∈ v.kids, ∃ w, T c = some w ∧ w.up = some q ∧ w.isShd = false) ∧
    (∀ c, v.shd = some c → ∃ w, T c = some w ∧ w.up = some q ∧ w.isShd = true)

/-- From `s0` to `s` the tree fields at every address are the same. -/
def TreeKeep (s0 s : State) : Prop := ∀ i, tree_map s i = tree_map s0 i

/-- Every parent pointer refers to an address that holds a record. -/
def UpOk (T : DevId → Option TreeView) : Prop :=
  ∀ q v p, T q = some v → v.up = some p → (T p).isSome = true

/-- Well-formedness of the device tree of a state: the tree invariants, and no
parent pointer leaves the heap. -/
def TreeWf (s : State) : Prop := TreeInvF (tree_map s) ∧ UpOk (tree_map s)

/-! ## Heap lemmas -/

theorem getDev_lt {s : State} {d : DevId} {x : Device} (h : s.getDev d = some x) :
    d < s.devs.length := by
  unfold State.getDev at h
  by_contra hlt
  rw [List.getElem?_eq_none (Nat.le_of_not_lt hlt)] at h
  simp at h

theorem getDev_eq_some {s : State} {d : DevId} {x : Device} :
    s.getDev d = some x ↔ s.devs[d]? = some x ∧ x.freed = false := by
  unfold State.getDev
  cases hd : s.devs[d]? with
  | none => simp
  | some y =>
    by_cases hf : y.freed = true
    · simp [hf]; intro h; subst h; simpa using hf
    · simp [hf]; intro h; subst h; simpa using hf

theorem getHost_eq_some {s : State} {h : HostId} {x : Devhost} :
    s.getHost h = some x ↔ s.hosts[h]? = some x ∧ x.freed = false := by
  unfold State.getHost
  cases hd : s.hosts[h]? with
  | none => simp
  | some y =>
    by_cases hf : y.freed = true
    · simp [hf]; intro h; subst h; simpa using hf
    · simp [hf]; intro h; subst h; simpa using hf

/-! ## Argument checks of `dc_add_device` -/

/-- C1: `dc_add_device` answers `ERR_INVALID_ARGS` and returns the state it was
given (device heap, host heap, work queue and trace untouched) when no handle
is passed, when `namelen` exceeds `MX_DEVICE_NAME_MAX`, or when `datalen` is
not a multiple of `sizeof(mx_device_prop_t)`. -/
theorem dc_add_device_invalid_args (cfg : Config) (pf : Platform) (s : State)
    (parent : DevId) (handle : List Handle) (msg : Msg) (name args : String)
    (data : List Nat)
    (h : handle.length = 0 ∨ msg.namelen > cfg.MX_DEVICE_NAME_MAX ∨
         msg.datalen % cfg.sizeof_mx_device_prop_t ≠ 0) :
    dc_add_device cfg pf s parent handle msg name args data = some (ERR_INVALID_ARGS, s) := by
  unfold dc_add_device
  rcases h with h | h | h
  · simp [h]
  · by_cases h0 : handle.length = 0
    · simp [h0]
    · simp [h0, h]
  · by_cases h0 : handle.length = 0
    · simp [h0]
    · by_cases h1 : msg.namelen > cfg.MX_DEVICE_NAME_MAX
      · simp [h0, h1]
      · simp [h0, h1, h]

theorem dc_add_device_invalid_args_witness :
    dc_add_device sample_cfg ok_platform (init_state sample_cfg) root_device []
        { op := Op.ADD_DEVICE, namelen := 2 } "a" "" [] =
      some (ERR_INVALID_ARGS, init_state sample_cfg) ∧
    dc_add_device sample_cfg ok_platform (init_state sample_cfg) root_device [7]
        { op := Op.ADD_DEVICE, namelen := 40 } "a" "" [] =
      some (ERR_INVALID_ARGS, init_state sample_cfg) ∧
    dc_add_device sample_cfg ok_platform (init_state sample_cfg) root_device [7]
        { op := Op.ADD_DEVICE, namelen := 2, datalen := 12 } "a" "" [] =
      some (ERR_INVALID_ARGS, init_state sample_cfg) :=
  ⟨dc_add_device_invalid_args _ _ _ _ _ _ _ _ _ (Or.inl rfl),
   dc_add_device_invalid_args _ _ _ _ _ _ _ _ _ (Or.inr (Or.inl (by decide))),
   dc_add_device_invalid_args _ _ _ _ _ _ _ _ _ (Or.inr (Or.inr (by decide)))⟩

/-! ## `dc_remove_device` -/

/-- C3: on a device that is `DEAD` or `IMMORTAL`, `dc_remove_device` answers
`ERR_BAD_STATE` and returns the state unchanged. -/
theorem dc_remove_device_bad_state (s : State) (dev : DevId) (d : Device)
    (hd : s.getDev dev = some d)
    (h : d.flags.dead = true ∨ d.flags.immortal = true) :
    dc_remove_device s dev = some (ERR_BAD_STATE, s) := by
  unfold dc_remove_device
  rw [hd]
  rcases h with h | h
  · simp [h]
  · by_cases hdead : d.flags.dead = true
    · simp [hdead]
    · simp [hdead, h]

theorem dc_remove_device_bad_state_witness :
    dc_remove_device (init_state sample_cfg) misc_device =
      some (ERR_BAD_STATE, init_state sample_cfg) :=
  dc_remove_device_bad_state (init_state sample_cfg) misc_device
    { name := "misc",
      flags := { immortal := true, busdev := true, multi_bind := true },
      protocol_id := sample_cfg.MX_PROTOCOL_MISC_PARENT,
      refcount := 1 } rfl (Or.inr rfl)

/-! ## `dc_release_device` -/

theorem devs_setDev_self {s : State} {d : DevId} (x : Device) (h : d < s.devs.length) :
    (s.setDev d x).devs[d]? = some x := by
  simp [State.setDev, List.getElem?_set, h]

theorem devs_setDev_ne {s : State} {d e : DevId} (x : Device) (h : e ≠ d) :
    (s.setDev e x).devs[d]? = s.devs[d]? := by
  simp [State.setDev, List.getElem?_set, h]

theorem wrap32_of_range {x : Int} (h1 : INT32_MIN ≤ x) (h2 : x ≤ INT32_MAX) : wrap32 x = x := by
  unfold wrap32
  unfold INT32_MIN at h1
  unfold INT32_MAX at h2
  omega

theorem wrap32_range (x : Int) : INT32_MIN ≤ wrap32 x ∧ wrap32 x ≤ INT32_MAX := by
  unfold wrap32 INT32_MIN INT32_MAX
  omega

theorem dc_release_device_cases (s : State) (dev : DevId) (d : Device)
    (hd : s.getDev dev = some d) :
    ∃ s' d', dc_release_device s dev = some s' ∧ s'.devs[dev]? = some d' ∧
      d'.refcount = wrap32 (d.refcount - 1) ∧
      (d'.freed = true ↔ (wrap32 (d.refcount - 1) ≤ 0 ∧ d.flags.immortal = false)) ∧
      (d.flags.immortal = true → d'.freed = false) ∧
      (d'.freed = false → s' = s.setDev dev { d with refcount := wrap32 (d.refcount - 1) }) ∧
      (d'.freed = true →
        s'.trace = s.trace ++ [Event.do_unpublish dev] ++
          (if d.hrpc ≠ MX_HANDLE_INVALID then [Event.handle_close d.hrpc] else []) ++
          (if d.hrsrc ≠ MX_HANDLE_INVALID then [Event.handle_close d.hrsrc] else []) ∧
        d'.host = none ∧ d'.hrpc = MX_HANDLE_INVALID ∧ d'.hrsrc = MX_HANDLE_INVALID) ∧
      (∀ e, e ≠ dev → s'.devs[e]? = s.devs[e]?) ∧
      s'.hosts = s.hosts ∧ s'.list_pending_work = s.list_pending_work := by
  have hlt := getDev_lt hd
  have hfr : d.freed = false := (getDev_eq_some.1 hd).2
  by_cases hpos : wrap32 (d.refcount - 1) > 0
  · have hrun : dc_release_device s dev =
        some (s.setDev dev { d with refcount := wrap32 (d.refcount - 1) }) := by
      unfold dc_release_device; rw [hd]; simp only [hpos, if_true]
    refine ⟨_, _, hrun, devs_setDev_self _ hlt, rfl, ?_, ?_, ?_, ?_,
      fun e he => devs_setDev_ne _ (Ne.symm he), rfl, rfl⟩
    · simp [hfr]; omega
    · intro _; exact hfr
    · intro _; rfl
    · intro h; simp [hfr] at h
  · by_cases him : d.flags.immortal = true
    · have hrun : dc_release_device s dev =
          some (s.setDev dev { d with refcount := wrap32 (d.refcount - 1) }) := by
        unfold dc_release_device; rw [hd]; simp only [hpos, if_false, him, if_true]
      refine ⟨_, _, hrun, devs_setDev_self _ hlt,
        rfl, ?_, ?_, ?_, ?_, fun e he => devs_setDev_ne _ (Ne.symm he), rfl, rfl⟩
      · simp [hfr, him]
      · intro _; exact hfr
      · intro _; rfl
      · intro h; simp [hfr] at h
    · have hrun : dc_release_device s dev =
          some ((s.setDev dev
              { d with refcount := wrap32 (d.refcount - 1),
                       hrpc := MX_HANDLE_INVALID,
                       ph_handle := if d.hrpc ≠ MX_HANDLE_INVALID then MX_HANDLE_INVALID
                                    else d.ph_handle,
                       hrsrc := MX_HANDLE_INVALID,
                       host := none,
                       freed := true }).emit
            (Event.do_unpublish dev :: release_closes { d with refcount := wrap32 (d.refcount - 1) })) := by
        unfold dc_release_device; rw [hd]; simp [hpos, him]
      refine ⟨_, _, hrun, devs_setDev_self _ hlt, ?_, ?_, ?_, ?_, ?_, ?_, rfl, rfl⟩
      · rfl
      · simp at him; simp [him]; omega
      · intro h; exact absurd h him
      · intro h; simp at h
      · intro _
        refine ⟨?_, rfl, rfl, rfl⟩
        simp [State.emit, State.setDev, release_closes, List.append_assoc]
      · intro e he
        exact devs_setDev_ne _ (Ne.symm he)

/-- C5: `dc_release_device` lowers the refcount of a live device by exactly
one, in the arithmetic of its `int32_t` field: the new count is the old count
minus one whenever that is an `int32_t` value, and `INT32_MAX` when the old
count is `INT32_MIN`.  The device is freed if and only if the lowered count is
not positive and the device is not `IMMORTAL`.  When it is freed the device is
unpublished, its valid RPC and resource handles are closed and `host` is
cleared; when it is not freed the refcount is the only change. -/
theorem dc_release_device_spec (s : State) (dev : DevId) (d : Device)
    (hd : s.getDev dev = some d) :
    ∃ s' d', dc_release_device s dev = some s' ∧ s'.devs[dev]? = some d' ∧
      d'.refcount = wrap32 (d.refcount - 1) ∧
      (d'.freed = true ↔ (d'.refcount ≤ 0 ∧ d.flags.immortal = false)) ∧
      (d.flags.immortal = true → d'.freed = false) ∧
      (d'.freed = false → s' = s.setDev dev { d with refcount := wrap32 (d.refcount - 1) }) ∧
      (d'.freed = true →
        s'.trace = s.trace ++ [Event.do_unpublish dev] ++
          (if d.hrpc ≠ MX_HANDLE_INVALID then [Event.handle_close d.hrpc] else []) ++
          (if d.hrsrc ≠ MX_HANDLE_INVALID then [Event.handle_close d.hrsrc] else []) ∧
        d'.host = none ∧ d'.hrpc = MX_HANDLE_INVALID ∧ d'.hrsrc = MX_HANDLE_INVALID) ∧
      (∀ e, e ≠ dev → s'.devs[e]? = s.devs[e]?) ∧
      s'.hosts = s.hosts ∧ s'.list_pending_work = s.list_pending_work ∧
      (INT32_MIN < d.refcount → d.refcount ≤ INT32_MAX → d'.refcount = d.refcount - 1) ∧
      (d.refcount = INT32_MIN → d'.refcount = INT32_MAX ∧ d'.freed = false) := by
  obtain ⟨s', d', h1, h2, h3, h4, h5, h6, h7, h8, h9, h10⟩ := dc_release_device_cases s dev d hd
  refine ⟨s', d', h1, h2, h3, ?_, h5, h6, h7, h8, h9, h10, ?_, ?_⟩
  · rw [h3]; exact h4
  · intro hlo hhi
    rw [h3]
    apply wrap32_of_range
    · unfold INT32_MIN at hlo ⊢; omega
    · omega
  · intro hmin
    have hrc : d'.refcount = INT32_MAX := by rw [h3, hmin]; decide
    refine ⟨hrc, ?_⟩
    cases hf : d'.freed with
    | false => rfl
    | true =>
      have hle := (h4.1 hf).1
      rw [← h3, hrc] at hle
      exact absurd hle (by decide)

/-- The edge of the `int32_t` counter: released at `INT32_MIN`, the device 3 of
`sample_state` gets the count `INT32_MAX`, which is positive, and is kept. -/
theorem dc_release_device_at_int32_min :
    (dc_release_device
        (sample_state.setDev 3
          { name := "eth", protocol_id := 42, parent := some 0, host := some 0,
            hrpc := 20, ph_handle := 20, refcount := INT32_MIN,
            work_op := WORK_DEVICE_ADDED }) 3).map
      (fun s => (s.devs[3]?).map (fun d => (d.refcount, d.freed))) =
      some (some (INT32_MAX, false)) := by
  rfl

theorem dc_release_device_spec_witness :
    ∃ s' d', dc_release_device sample_state 3 = some s' ∧ s'.devs[3]? = some d' ∧
      d'.refcount = 0 ∧ d'.freed = true :=
  match dc_release_device_spec sample_state 3
      { name := "eth", protocol_id := 42, parent := some 0, host := some 0,
        hrpc := 20, ph_handle := 20, refcount := 1, work_op := WORK_DEVICE_ADDED } rfl with
  | ⟨s', d', h1, h2, h3, h4, _⟩ =>
    ⟨s', d', h1, h2, h3, h4.2 ⟨by rw [h3]; decide, rfl⟩⟩

/-! ## Refusals of `dc_attempt_bind` and `dc_bind_device` -/

/-- C7: `dc_attempt_bind` answers `ERR_BAD_STATE` and returns the state
unchanged (nothing written, no shadow or host created, no pending entry, flags
as before) when the device is `BOUND` without `MULTI_BIND`, or when it is not a
`BUSDEV` and has no host. -/
theorem dc_attempt_bind_bad_state (cfg : Config) (pf : Platform) (s : State)
    (drv : Driver) (dev : DevId) (d : Device)
    (hd : s.getDev dev = some d)
    (h : (d.flags.bound = true ∧ d.flags.multi_bind = false) ∨
         (d.flags.busdev = false ∧ d.host = none)) :
    dc_attempt_bind cfg pf s drv dev = some (ERR_BAD_STATE, s) := by
  unfold dc_attempt_bind
  rw [hd]
  rcases h with ⟨hb, hm⟩ | ⟨hb, hh⟩
  · simp [hb, hm]
  · by_cases hc : d.flags.bound = true ∧ ¬ d.flags.multi_bind = true
    · simp [hc]
    · simp only [if_neg hc]
      simp [hb, hh]

theorem dc_attempt_bind_bad_state_witness :
    dc_attempt_bind sample_cfg ok_platform sample_state { libname := "driver/eth.so" } 2 =
      some (ERR_BAD_STATE, sample_state) :=
  dc_attempt_bind_bad_state sample_cfg ok_platform sample_state _ 2
    { name := "root", flags := { shadow := true, bound := true }, parent := some 0,
      host := some 0, hrpc := 12, ph_handle := 12,
      pending := [{ op := PendingOp.PENDING_BIND }] } rfl (Or.inl ⟨rfl, rfl⟩)

/-- C8: on a `SHADOW` device `dc_bind_device` answers `ERR_NOT_SUPPORTED` and
returns the state unchanged, whatever the driver list and the platform are. -/
theorem dc_bind_device_shadow (cfg : Config) (pf : Platform) (s : State) (dev : DevId)
    (d : Device) (drvname : String)
    (hd : s.getDev dev = some d) (hs : d.flags.shadow = true) :
    dc_bind_device cfg pf s dev drvname = some (ERR_NOT_SUPPORTED, s) := by
  unfold dc_bind_device
  simp [hd, hs]

theorem dc_bind_device_shadow_witness :
    dc_bind_device sample_cfg ok_platform sample_state 2 "eth" =
      some (ERR_NOT_SUPPORTED, sample_state) :=
  dc_bind_device_shadow sample_cfg ok_platform sample_state 2
    { name := "root", flags := { shadow := true, bound := true }, parent := some 0,
      host := some 0, hrpc := 12, ph_handle := 12,
      pending := [{ op := PendingOp.PENDING_BIND }] } "eth" rfl rfl

theorem dc_bind_device_loop_eq (cfg : Config) (pf : Platform) (s : State) (dev : DevId)
    (d : Device) (tmp : String) (drvs : List Driver) :
    dc_bind_device_loop cfg pf s dev d tmp drvs =
      match drvs.find? (fun drv => decide (drv.libname = tmp)) with
      | none => some s
      | some drv =>
        if cfg.dc_is_bindable drv d.protocol_id d.props d.prop_count false then
          (dc_attempt_bind cfg pf s drv dev).map (fun r => r.2)
        else some s := by
  induction drvs with
  | nil => simp [dc_bind_device_loop]
  | cons drv rest ih =>
    unfold dc_bind_device_loop
    by_cases hl : drv.libname = tmp
    · simp only [hl, if_true, List.find?_cons, decide_True]
      by_cases hb : cfg.dc_is_bindable drv d.protocol_id d.props d.prop_count false = true
      · simp only [hb, if_true]
        cases dc_attempt_bind cfg pf s drv dev with
        | none => rfl
        | some r => rfl
      · simp [hb]
    · simp only [hl, if_false, List.find?_cons, decide_False]
      exact ih

/-- C9: on a device that is not a shadow, `dc_bind_device` looks at the first
driver of `list_drivers` whose `libname` is `driver/<drvname>.so` and at no
other one.  It calls `dc_attempt_bind` for that driver exactly when
`dc_is_bindable` holds with `autobind = false`, and answers `NO_ERROR`.  When
no driver has that `libname` it answers `NO_ERROR` with the state (and so the
trace of written messages) unchanged. -/
theorem dc_bind_device_first_match (cfg : Config) (pf : Platform) (s : State) (dev : DevId)
    (d : Device) (drvname : String)
    (hd : s.getDev dev = some d) (hs : d.flags.shadow = false) :
    dc_bind_device cfg pf s dev drvname =
      match s.list_drivers.find?
          (fun drv => decide (drv.libname = "driver/" ++ drvname ++ ".so")) with
      | none => some (NO_ERROR, s)
      | some drv =>
        if cfg.dc_is_bindable drv d.protocol_id d.props d.prop_count false then
          (dc_attempt_bind cfg pf s drv dev).map (fun r => (NO_ERROR, r.2))
        else some (NO_ERROR, s) := by
  unfold dc_bind_device
  simp only [hd, hs, Bool.false_eq_true, if_false]
  rw [dc_bind_device_loop_eq]
  cases s.list_drivers.find? (fun drv => decide (drv.libname = "driver/" ++ drvname ++ ".so")) with
  | none => rfl
  | some drv =>
    simp only
    by_cases hb : cfg.dc_is_bindable drv d.protocol_id d.props d.prop_count false = true
    · simp only [hb, if_true]
      cases dc_attempt_bind cfg pf s drv dev with
      | none => rfl
      | some r => rfl
    · simp [hb]

theorem dc_bind_device_first_match_witness :
    dc_bind_device sample_cfg ok_platform
        { sample_state with list_drivers := [{ name := "eth", libname := "driver/eth.so" }] }
        3 "xyz" =
      some (NO_ERROR,
        { sample_state with list_drivers := [{ name := "eth", libname := "driver/eth.so" }] }) :=
  dc_bind_device_first_match sample_cfg ok_platform
    { sample_state with list_drivers := [{ name := "eth", libname := "driver/eth.so" }] } 3
    { name := "eth", protocol_id := 42, parent := some 0, host := some 0,
      hrpc := 20, ph_handle := 20, refcount := 1, work_op := WORK_DEVICE_ADDED } "xyz" rfl rfl

/-! ## `dc_add_device` on a valid message -/

@[simp] theorem getDev_emit (s : State) (es : List Event) (d : DevId) :
    (s.emit es).getDev d = s.getDev d := rfl

@[simp] theorem getHost_emit (s : State) (es : List Event) (h : HostId) :
    (s.emit es).getHost h = s.getHost h := rfl

@[simp] theorem getDev_setHost (s : State) (h : HostId) (x : Devhost) (d : DevId) :
    (s.setHost h x).getDev d = s.getDev d := rfl

@[simp] theorem length_setDev (s : State) (d : DevId) (x : Device) :
    (s.setDev d x).devs.length = s.devs.length := by
  simp [State.setDev]

@[simp] theorem length_emit (s : State) (es : List Event) :
    (s.emit es).devs.length = s.devs.length := rfl

@[simp] theorem length_setHost (s : State) (h : HostId) (x : Devhost) :
    (s.setHost h x).devs.length = s.devs.length := rfl

theorem getDev_setDev_self {s : State} {d : DevId} {x : Device} (h : d < s.devs.length)
    (hx : x.freed = false) : (s.setDev d x).getDev d = some x := by
  simp [State.getDev, devs_setDev_self x h, hx]

theorem getDev_setDev_ne {s : State} {d e : DevId} (x : Device) (h : e ≠ d) :
    (s.setDev e x).getDev d = s.getDev d := by
  simp [State.getDev, devs_setDev_ne x h]

theorem getHost_lt {s : State} {h : HostId} {x : Devhost} (hh : s.getHost h = some x) :
    h < s.hosts.length := by
  unfold State.getHost at hh
  by_contra hlt
  rw [List.getElem?_eq_none (Nat.le_of_not_lt hlt)] at hh
  simp at hh

theorem queue_work_idle {s : State} {dev : DevId} {d : Device} (op arg : Nat)
    (hd : s.getDev dev = some d) (hw : d.work_op = WORK_IDLE) :
    queue_work s dev op arg =
      some { s.setDev dev { d with work_op := op, work_arg := arg } with
             list_pending_work := s.list_pending_work ++ [dev] } := by
  unfold queue_work
  simp [hd, hw]


@[simp] theorem getDev_alloc_lt {s : State} {d : DevId} (x : Device) (h : d < s.devs.length) :
    ({ s with devs := s.devs ++ [x] } : State).getDev d = s.getDev d := by
  simp [State.getDev, List.getElem?_append_left h]

theorem host_addref_getDev {s s1 : State} {host : Option HostId} (h : host_addref s host = some s1)
    (d : DevId) : s1.getDev d = s.getDev d := by
  unfold host_addref at h
  cases host with
  | none => simp at h; subst h; rfl
  | some x =>
    simp only at h
    cases hg : s.getHost x with
    | none => simp [hg] at h
    | some hr => simp [hg] at h; subst h; rfl

theorem host_addref_devs {s s1 : State} {host : Option HostId} (h : host_addref s host = some s1) :
    s1.devs = s.devs ∧ s1.list_pending_work = s.list_pending_work ∧ s1.trace = s.trace ∧
    s1.list_drivers = s.list_drivers := by
  unfold host_addref at h
  cases host with
  | none => simp at h; subst h; exact ⟨rfl, rfl, rfl, rfl⟩
  | some x =>
    simp only at h
    cases hg : s.getHost x with
    | none => simp [hg] at h
    | some hr => simp [hg] at h; subst h; exact ⟨rfl, rfl, rfl, rfl⟩

theorem host_addref_some {s : State} {host : Option HostId}
    (hhost : ∀ h, host = some h → (s.getHost h).isSome) :
    ∃ s1, host_addref s host = some s1 := by
  unfold host_addref
  cases host with
  | none => exact ⟨s, rfl⟩
  | some x =>
    have := hhost x rfl
    cases hg : s.getHost x with
    | none => simp [hg] at this
    | some hr => exact ⟨s.setHost x { hr with refcount := hr.refcount + 1 }, by simp [hg]⟩

theorem dc_add_device_link_ok (t t1 : State) (dev : DevId) (d : Device) (p : DevId) (prr : Device)
    (hlt : dev < t.devs.length) (hp : t.getDev p = some prr) (hne : p ≠ dev)
    (hfr : d.freed = false) (hidle : d.work_op = WORK_IDLE)
    (hhost : host_addref t d.host = some t1) :
    dc_add_device_link t dev d (some p) =
      some (NO_ERROR,
        { ((t1.setDev dev { d with refcount := 1, parent := some p }).setDev p
              { prr with children := prr.children ++ [dev], refcount := prr.refcount + 1 }).setDev
            dev { d with refcount := 1, parent := some p, work_op := WORK_DEVICE_ADDED,
                         work_arg := 0 } with
          list_pending_work := t.list_pending_work ++ [dev] }) := by
  have hplt := getDev_lt hp
  have hl1 : t1.devs.length = t.devs.length := by rw [(host_addref_devs hhost).1]
  unfold dc_add_device_link
  rw [hhost]
  simp only
  rw [getDev_setDev_ne _ (Ne.symm hne), host_addref_getDev hhost, hp]
  simp only
  rw [queue_work_idle (d := { d with refcount := 1, parent := some p })]
  · simp [State.setDev, (host_addref_devs hhost).2.1]
  · rw [getDev_setDev_ne _ hne]
    exact getDev_setDev_self (by rw [hl1]; exact hlt) hfr
  · exact hidle

@[simp] theorem getHost_alloc (s : State) (l : List Device) (h : HostId) :
    ({ s with devs := l } : State).getHost h = s.getHost h := rfl

theorem dc_release_devhost_run {s : State} {h : HostId} {hr : Devhost}
    (hg : s.getHost h = some hr) :
    ∃ s' hr', dc_release_devhost s h = some s' ∧ s'.devs = s.devs ∧
      s'.hosts[h]? = some hr' ∧ hr'.refcount = wrap32 (hr.refcount - 1) ∧
      (hr'.freed = true ↔ wrap32 (hr.refcount - 1) ≤ 0) := by
  have hlt := getHost_lt hg
  have hfr := (getHost_eq_some.1 hg).2
  by_cases hpos : wrap32 (hr.refcount - 1) > 0
  · have hrun : dc_release_devhost s h =
        some (s.setHost h { hr with refcount := wrap32 (hr.refcount - 1) }) := by
      unfold dc_release_devhost; rw [hg]; simp [hpos]
    refine ⟨_, { hr with refcount := wrap32 (hr.refcount - 1) }, hrun, rfl,
      by simp [State.setHost, List.getElem?_set, hlt], rfl, ?_⟩
    simp [hfr]; omega
  · have hrun : dc_release_devhost s h =
        some ((s.setHost h { hr with refcount := wrap32 (hr.refcount - 1), freed := true }).emit
          [Event.handle_close hr.hrpc, Event.task_kill hr.proc, Event.handle_close hr.proc]) := by
      unfold dc_release_devhost; rw [hg]; simp [hpos]
    refine ⟨_, { hr with refcount := wrap32 (hr.refcount - 1), freed := true }, hrun, rfl,
      by simp [State.emit, State.setHost, List.getElem?_set, hlt], rfl, ?_⟩
    simp; omega

theorem dc_release_device_run {s : State} {p : DevId} {x : Device}
    (hg : s.getDev p = some x) :
    ∃ s' x', dc_release_device s p = some s' ∧ s'.devs[p]? = some x' ∧
      x'.refcount = wrap32 (x.refcount - 1) ∧ x'.children = x.children ∧ x'.shadow = x.shadow ∧
      (∀ e, e ≠ p → s'.devs[e]? = s.devs[e]?) ∧ s'.hosts = s.hosts := by
  have hlt := getDev_lt hg
  by_cases hpos : wrap32 (x.refcount - 1) > 0
  · have hrun : dc_release_device s p = some (s.setDev p { x with refcount := wrap32 (x.refcount - 1) }) := by
      unfold dc_release_device; rw [hg]; simp [hpos]
    exact ⟨_, { x with refcount := wrap32 (x.refcount - 1) }, hrun,
      devs_setDev_self _ hlt, rfl, rfl, rfl, fun e he => devs_setDev_ne _ (Ne.symm he), rfl⟩
  · by_cases him : x.flags.immortal = true
    · have hrun : dc_release_device s p =
          some (s.setDev p { x with refcount := wrap32 (x.refcount - 1) }) := by
        unfold dc_release_device; rw [hg]; simp [hpos, him]
      exact ⟨_, { x with refcount := wrap32 (x.refcount - 1) }, hrun,
        devs_setDev_self _ hlt, rfl, rfl, rfl, fun e he => devs_setDev_ne _ (Ne.symm he), rfl⟩
    · have hrun : dc_release_device s p =
          some ((s.setDev p
              { x with refcount := wrap32 (x.refcount - 1),
                       hrpc := MX_HANDLE_INVALID,
                       ph_handle := if x.hrpc ≠ MX_HANDLE_INVALID then MX_HANDLE_INVALID
                                    else x.ph_handle,
                       hrsrc := MX_HANDLE_INVALID,
                       host := none,
                       freed := true }).emit
            (Event.do_unpublish p :: release_closes { x with refcount := wrap32 (x.refcount - 1) })) := by
        unfold dc_release_device; rw [hg]; simp [hpos, him]
      exact ⟨_, _, hrun, devs_setDev_self _ hlt, rfl, rfl, rfl,
        fun e he => devs_setDev_ne _ (Ne.symm he), rfl⟩

theorem dc_remove_device_detach_run {t : State} {dev : DevId} {x : Device}
    (hx : t.getDev dev = some x)
    (hhost : ∀ h, x.host = some h → (t.getHost h).isSome) :
    ∃ t', dc_remove_device_detach t dev x = some t' ∧
      t'.getDev dev = some { x with host := none } ∧
      (∀ e, e ≠ dev → t'.devs[e]? = t.devs[e]?) ∧
      (∀ h hr, x.host = some h → t.getHost h = some hr →
        ∃ hr', t'.hosts[h]? = some hr' ∧ hr'.refcount = wrap32 (hr.refcount - 1) ∧
          (hr'.freed = true ↔ wrap32 (hr.refcount - 1) ≤ 0)) := by
  have hlt := getDev_lt hx
  have hfr := (getDev_eq_some.1 hx).2
  unfold dc_remove_device_detach
  cases hh : x.host with
  | none =>
    refine ⟨t, rfl, ?_, fun e _ => rfl, ?_⟩
    · rw [hx]
      congr 1
      cases x
      simp at hh
      subst hh
      rfl
    · intro h hr hc; cases hc
  | some h =>
    have hsome := hhost h hh
    cases hg : t.getHost h with
    | none => simp [hg] at hsome
    | some hr =>
      obtain ⟨t1, hr', hrun, hdevs, hget, hrc, hfreed⟩ := dc_release_devhost_run hg
      simp only [hrun]
      refine ⟨_, rfl, ?_, ?_, ?_⟩
      · exact getDev_setDev_self (by rw [hdevs]; exact hlt) hfr
      · intro e he
        rw [devs_setDev_ne _ (Ne.symm he), hdevs]
      · intro h' hr2 hc hg2
        cases hc
        rw [hg] at hg2
        cases hg2
        exact ⟨hr', hget, hrc, hfreed⟩

theorem dc_remove_device_unlink_run {t : State} {dev p : DevId} {x y : Device}
    (hx : t.getDev dev = some x) (hpar : x.parent = some p) (hne : p ≠ dev)
    (hy : t.getDev p = some y) :
    ∃ t' y', dc_remove_device_unlink t dev = some t' ∧
      t'.devs[dev]? = some { x with parent := none } ∧
      t'.devs[p]? = some y' ∧ y'.refcount = wrap32 (y.refcount - 1) ∧
      y'.children = (if x.flags.shadow then y.children else y.children.erase dev) ∧
      y'.shadow = (if x.flags.shadow then none else y.shadow) ∧
      (∀ e, e ≠ dev → e ≠ p → t'.devs[e]? = t.devs[e]?) ∧ t'.hosts = t.hosts := by
  have hlt := getDev_lt hx
  have hplt := getDev_lt hy
  have hxfr := (getDev_eq_some.1 hx).2
  have hyfr := (getDev_eq_some.1 hy).2
  -- the parent record after the unlink
  let y2 : Device := if x.flags.shadow then { y with shadow := none }
                     else { y with children := y.children.erase dev }
  have hy2fr : y2.freed = false := by
    simp only [y2]; split <;> exact hyfr
  have hstep : (if x.flags.shadow then t.setDev p { y with shadow := none }
                else t.setDev p { y with children := y.children.erase dev }) = t.setDev p y2 := by
    simp only [y2]; split <;> rfl
  have h1 : (t.setDev p y2).getDev dev = some x := by
    rw [getDev_setDev_ne _ hne]; exact hx
  have h2 : ((t.setDev p y2).setDev dev { x with parent := none }).getDev p = some y2 := by
    rw [getDev_setDev_ne _ (Ne.symm hne)]
    exact getDev_setDev_self hplt hy2fr
  obtain ⟨t', y', hrun, hget, hrc, hch, hsh, hoth, hhosts⟩ := dc_release_device_run h2
  have hmain : dc_remove_device_unlink t dev = some t' := by
    unfold dc_remove_device_unlink
    simp only [hx, hpar, hy, hstep, h1]
    exact hrun
  refine ⟨t', y', hmain, ?_, hget, ?_, ?_, ?_, ?_, ?_⟩
  · rw [hoth dev (Ne.symm hne)]
    exact devs_setDev_self _ (by simpa using hlt)
  · rw [hrc]; simp only [y2]; split <;> rfl
  · rw [hch]; simp only [y2]; split <;> rfl
  · rw [hsh]; simp only [y2]; split <;> rfl
  · intro e he hep
    rw [hoth e hep, devs_setDev_ne _ (Ne.symm he), devs_setDev_ne _ (Ne.symm hep)]
  · rw [hhosts]; rfl

theorem treeInv_at {s : State} (hinv : TreeInv s) {q : DevId} {qr : Device}
    (hq : s.devs[q]? = some qr) :
    qr.parent ≠ some q ∧ qr.children.Nodup ∧
    (∀ c ∈ qr.children, ∃ cr, s.devs[c]? = some cr ∧ cr.parent = some q ∧
      cr.flags.shadow = false) ∧
    (∀ c, qr.shadow = some c → ∃ cr, s.devs[c]? = some cr ∧ cr.parent = some q ∧
      cr.flags.shadow = true) := by
  have h := hinv (q, qr) (List.mk_mem_enum_iff_getElem?.2 hq)
  obtain ⟨h1, h2, h3, h4⟩ := h
  refine ⟨h1, h2, ?_, ?_⟩
  · intro c hc
    obtain ⟨cr, hcr, hp⟩ := h3 c hc
    exact ⟨cr, hcr, hp⟩
  · intro c hc
    obtain ⟨cr, hcr, hp⟩ := h4 c hc
    exact ⟨cr, hcr, hp⟩

theorem dc_remove_device_effects (s : State) (dev p : DevId) (d pr : Device)
    (hd : s.getDev dev = some d)
    (hdead : d.flags.dead = false) (him : d.flags.immortal = false)
    (hpar : d.parent = some p) (hp : s.getDev p = some pr)
    (hhost : ∀ h, d.host = some h → (s.getHost h).isSome)
    (hinv : TreeInv s) :
    ∃ s' d' p', dc_remove_device s dev = some (NO_ERROR, s') ∧
      s'.devs[dev]? = some d' ∧
      d'.flags.dead = true ∧ d'.host = none ∧ d'.parent = none ∧
      (∀ h hr, d.host = some h → s.getHost h = some hr →
        ∃ hr', s'.hosts[h]? = some hr' ∧ hr'.refcount = wrap32 (hr.refcount - 1)) ∧
      s'.devs[p]? = some p' ∧ p'.refcount = wrap32 (pr.refcount - 1) ∧
      (if d.flags.shadow then p'.shadow = none ∧ p'.children = pr.children
       else p'.children = pr.children.filter (fun c => c != dev) ∧ p'.shadow = pr.shadow) ∧
      (∀ (q : DevId) (qr : Device), s'.devs[q]? = some qr →
        dev ∉ qr.children ∧ qr.shadow ≠ some dev) := by
  have hdlt := getDev_lt hd
  have hdfr := (getDev_eq_some.1 hd).2
  have hdget := (getDev_eq_some.1 hd).1
  have hpget := (getDev_eq_some.1 hp).1
  obtain ⟨hself, -, -, -⟩ := treeInv_at hinv hdget
  have hne : p ≠ dev := by
    intro h; apply hself; rw [hpar, h]
  obtain ⟨-, hnodup, hchildren, hshadow⟩ := treeInv_at hinv hpget
  -- state after DEAD is set and the device is unpublished
  let d1 : Device := { d with flags := { d.flags with dead := true } }
  let s1 : State := (s.setDev dev d1).emit [Event.do_unpublish dev]
  have hs1 : s1.getDev dev = some d1 := by
    simp only [s1, getDev_emit]; exact getDev_setDev_self hdlt hdfr
  obtain ⟨s2, hdet, hs2dev, hs2oth, hs2host⟩ :=
    dc_remove_device_detach_run hs1 (fun h hh => by simpa [s1] using hhost h hh)
  have hs2p : s2.getDev p = some pr := by
    rw [getDev_eq_some]
    refine ⟨?_, (getDev_eq_some.1 hp).2⟩
    rw [hs2oth p hne]
    simp only [s1, State.emit]
    rw [devs_setDev_ne _ (Ne.symm hne)]
    exact hpget
  obtain ⟨s3, p', hunl, hs3dev, hs3p, hrc, hch, hsh, hs3oth, hs3hosts⟩ :=
    dc_remove_device_unlink_run hs2dev hpar hne hs2p
  have hrun : dc_remove_device s dev = some (NO_ERROR, s3) := by
    unfold dc_remove_device
    simp only [hd, hdead, him, Bool.false_eq_true, if_false]
    have hdet2 : dc_remove_device_detach s1 dev d1 = some s2 := hdet
    simp only [s1, d1, him] at hdet2
    simp only [hdet2, hunl]
  refine ⟨s3, _, p', hrun, hs3dev, rfl, rfl, rfl, ?_, hs3p, hrc, ?_, ?_⟩
  · intro h hr hh hg
    obtain ⟨hr', h1, h2, -⟩ := hs2host h hr hh (by simpa [s1] using hg)
    exact ⟨hr', by rw [hs3hosts]; exact h1, h2⟩
  · by_cases hs : d.flags.shadow = true
    · simp only [hs, if_true]
      exact ⟨by rw [hsh]; simp [d1, hs], by rw [hch]; simp [d1, hs]⟩
    · simp only [hs, if_false]
      refine ⟨?_, by rw [hsh]; simp [d1, hs]⟩
      rw [hch]
      simp only [d1, hs, if_false]
      exact List.Nodup.erase_eq_filter hnodup dev
  · intro q qr hq
    by_cases hqd : q = dev
    · subst hqd
      rw [hs3dev] at hq
      cases hq
      obtain ⟨-, -, hc, hsd⟩ := treeInv_at hinv hdget
      constructor
      · intro hmem
        obtain ⟨cr, hcr, hcp, -⟩ := hc q hmem
        rw [hdget] at hcr; cases hcr
        exact hself hcp
      · intro hsq
        obtain ⟨cr, hcr, hcp, -⟩ := hsd q hsq
        rw [hdget] at hcr; cases hcr
        exact hself hcp
    · by_cases hqp : q = p
      · subst hqp
        rw [hs3p] at hq
        cases hq
        by_cases hs : d.flags.shadow = true
        · constructor
          · rw [hch]; simp only [d1, hs, if_true]
            intro hmem
            obtain ⟨cr, hcr, -, hfl⟩ := hchildren dev hmem
            rw [hdget] at hcr; cases hcr
            rw [hs] at hfl; cases hfl
          · rw [hsh]; simp [d1, hs]
        · constructor
          · rw [hch]; simp only [d1, hs, if_false]
            exact List.Nodup.not_mem_erase hnodup
          · rw [hsh]; simp only [d1, hs, if_false]
            intro hsq
            obtain ⟨cr, hcr, -, hfl⟩ := hshadow dev hsq
            rw [hdget] at hcr; cases hcr
            exact hs hfl
      · have hq0 : s.devs[q]? = some qr := by
          rw [hs3oth q hqd hqp, hs2oth q hqd] at hq
          simp only [s1, State.emit] at hq
          rw [devs_setDev_ne _ (Ne.symm hqd)] at hq
          exact hq
        obtain ⟨-, -, hc, hsd⟩ := treeInv_at hinv hq0
        constructor
        · intro hmem
          obtain ⟨cr, hcr, hcp, -⟩ := hc dev hmem
          rw [hdget] at hcr; cases hcr
          rw [hpar] at hcp; cases hcp
          exact hqp rfl
        · intro hsq
          obtain ⟨cr, hcr, hcp, -⟩ := hsd dev hsq
          rw [hdget] at hcr; cases hcr
          rw [hpar] at hcp; cases hcp
          exact hqp rfl

/-- C4 (amended): in a well-formed tree, for a live device `dev` that is
neither `DEAD` nor `IMMORTAL`, whose parent `p` is a live device and whose host
(if any) is a live host, `dc_remove_device` answers `NO_ERROR`.  Afterwards
`dev` is `DEAD`, its `host` and `parent` are cleared, the refcount of its
previous host and the refcount of `p` are one lower in the arithmetic of their
`int32_t` fields (exactly one lower unless the count was `INT32_MIN`),
`p.shadow` is cleared when `dev` is a `SHADOW` and otherwise `dev` is filtered
out of `p.children` (the other children keep their order), and no record of the
heap lists `dev` in `children` or `shadow`.  The tree is well-formed (`TreeInv`)
in every state that the coordinator reaches, see `workReach_treeInv`. -/
theorem dc_remove_device_ok (s : State) (dev p : DevId) (d pr : Device)
    (hd : s.getDev dev = some d)
    (hdead : d.flags.dead = false) (him : d.flags.immortal = false)
    (hpar : d.parent = some p) (hp : s.getDev p = some pr)
    (hhost : ∀ h, d.host = some h → (s.getHost h).isSome)
    (hinv : TreeInv s) :
    ∃ s' d' p', dc_remove_device s dev = some (NO_ERROR, s') ∧
      s'.devs[dev]? = some d' ∧
      d'.flags.dead = true ∧ d'.host = none ∧ d'.parent = none ∧
      (∀ h hr, d.host = some h → s.getHost h = some hr →
        ∃ hr', s'.hosts[h]? = some hr' ∧ hr'.refcount = wrap32 (hr.refcount - 1) ∧
          (INT32_MIN < hr.refcount → hr.refcount ≤ INT32_MAX →
            hr'.refcount = hr.refcount - 1)) ∧
      s'.devs[p]? = some p' ∧ p'.refcount = wrap32 (pr.refcount - 1) ∧
      (INT32_MIN < pr.refcount → pr.refcount ≤ INT32_MAX → p'.refcount = pr.refcount - 1) ∧
      (if d.flags.shadow then p'.shadow = none ∧ p'.children = pr.children
       else p'.children = pr.children.filter (fun c => c != dev) ∧ p'.shadow = pr.shadow) ∧
      (∀ (q : DevId) (qr : Device), s'.devs[q]? = some qr →
        dev ∉ qr.children ∧ qr.shadow ≠ some dev) := by
  have hdec : ∀ x : Int, INT32_MIN < x → x ≤ INT32_MAX → wrap32 (x - 1) = x - 1 := by
    intro x hlo hhi
    apply wrap32_of_range
    · unfold INT32_MIN at hlo ⊢; omega
    · omega
  obtain ⟨s', d', p', h1, h2, h3, h4, h5, h6, h7, h8, h9, h10⟩ :=
    dc_remove_device_effects s dev p d pr hd hdead him hpar hp hhost hinv
  refine ⟨s', d', p', h1, h2, h3, h4, h5, ?_, h7, h8, ?_, h9, h10⟩
  · intro h hr hh hg
    obtain ⟨hr', hget, hrc⟩ := h6 h hr hh hg
    exact ⟨hr', hget, hrc, fun hlo hhi => by rw [hrc]; exact hdec _ hlo hhi⟩
  · intro hlo hhi
    rw [h8]; exact hdec _ hlo hhi

theorem dc_remove_device_ok_witness :
    ∃ s' d' p', dc_remove_device sample_state 3 = some (NO_ERROR, s') ∧
      s'.devs[3]? = some d' ∧
      d'.flags.dead = true ∧ d'.host = none ∧ d'.parent = none ∧
      (∀ h hr, some 0 = some h → sample_state.getHost h = some hr →
        ∃ hr', s'.hosts[h]? = some hr' ∧ hr'.refcount = wrap32 (hr.refcount - 1) ∧
          (INT32_MIN < hr.refcount → hr.refcount ≤ INT32_MAX →
            hr'.refcount = hr.refcount - 1)) ∧
      s'.devs[0]? = some p' ∧ p'.refcount = 2 ∧
      (INT32_MIN < (3 : Int) → (3 : Int) ≤ INT32_MAX → p'.refcount = 3 - 1) ∧
      (p'.children = [] ∧ p'.shadow = some 2) ∧
      (∀ (q : DevId) (qr : Device), s'.devs[q]? = some qr →
        3 ∉ qr.children ∧ qr.shadow ≠ some 3) :=
  dc_remove_device_ok sample_state 3 0
    { name := "eth", protocol_id := 42, parent := some 0, host := some 0,
      hrpc := 20, ph_handle := 20, refcount := 1, work_op := WORK_DEVICE_ADDED }
    { name := "root",
      flags := { immortal := true, busdev := true, multi_bind := true },
      shadow := some 2, children := [3], refcount := 3 }
    rfl rfl rfl rfl rfl (by intro h hh; cases hh; rfl) (by decide)

/-- C4 (counterexample): after `coordinator` has bound `root`, a child was added
through the shadow of `root` and removed again, the shadow (device 2) is live,
neither `DEAD` nor `IMMORTAL`, its parent `root` is live and the tree is
well-formed, but its host 0 has been destroyed.  `dc_remove_device` on the
shadow passes the destroyed host to `dc_release_devhost`: it has no defined
result and does not answer `NO_ERROR`. -/
theorem remove_shadow_of_destroyed_host :
    root_child_removed.map (fun r =>
        ((r.2.getDev 2).map (fun d => (d.flags.dead, d.flags.immortal, d.parent, d.host)),
          (r.2.getDev 0).isSome, (r.2.getHost 0).isSome, decide (TreeInv r.2),
          dc_remove_device r.2 2)) =
      some (some (false, false, some 0, some 0), true, false, true, none) := by
  rfl

/-! ## Refcount closure -/

/-- C6 (failing input): a device is added under `root_device` and removed
again; both calls answer `NO_ERROR`.  The removed device is `DEAD` but its
record is still allocated with refcount 1, next to `root` and `misc`: the
heap holds three live devices, not the two immortals. -/
theorem add_then_remove_leaks :
    add_then_remove.map
        (fun r => (r.1, r.2.1, r.2.2.devs.map
          (fun x => (x.name, x.flags.immortal, x.flags.dead, x.freed, x.refcount)))) =
      some (NO_ERROR, NO_ERROR,
        [("root", true, false, false, 1), ("misc", true, false, false, 1),
         ("a", false, true, false, 1)]) := by
  rfl

/-! ## The reply to `BIND_DEVICE` -/


theorem LiveMono.refl (s : State) : LiveMono s s := fun _ x h => ⟨x, h⟩

theorem LiveMono.trans {a b c : State} (h1 : LiveMono a b) (h2 : LiveMono b c) :
    LiveMono a c := fun i x h => by
  obtain ⟨y, hy⟩ := h1 i x h
  exact h2 i y hy

theorem liveMono_emit (s : State) (es : List Event) : LiveMono s (s.emit es) :=
  fun _ x h => ⟨x, h⟩

theorem liveMono_setHost (s : State) (h : HostId) (x : Devhost) : LiveMono s (s.setHost h x) :=
  fun _ x h => ⟨x, h⟩

theorem liveMono_hosts (s : State) (l : List Devhost) :
    LiveMono s { s with hosts := l } :=
  fun _ x h => ⟨x, h⟩

theorem liveMono_setDev (s : State) (d : DevId) (x : Device) (hx : x.freed = false) :
    LiveMono s (s.setDev d x) := by
  intro i y hy
  by_cases hid : i = d
  · subst hid
    exact ⟨x, getDev_setDev_self (getDev_lt hy) hx⟩
  · exact ⟨y, by rw [getDev_setDev_ne _ (Ne.symm hid)]; exact hy⟩

theorem liveMono_alloc (s : State) (x : Device) :
    LiveMono s { s with devs := s.devs ++ [x] } := by
  intro i y hy
  exact ⟨y, by rw [getDev_alloc_lt _ (getDev_lt hy)]; exact hy⟩

theorem getDev_freed {s : State} {d : DevId} {x : Device} (h : s.getDev d = some x) :
    x.freed = false := (getDev_eq_some.1 h).2

theorem dh_bind_driver_live {pf : Platform} {s s1 : State} {dev : DevId} {libname : String}
    {r : Int} (h : dh_bind_driver pf s dev libname = some (r, s1)) : LiveMono s s1 := by
  unfold dh_bind_driver at h
  split at h
  · cases h; exact LiveMono.refl _
  · split at h
    · cases h; exact LiveMono.refl _
    · split at h
      · cases h
      · rename_i d hd
        simp only at h
        split at h
        · cases h; exact liveMono_emit _ _
        · cases h
          exact (liveMono_emit _ _).trans (liveMono_setDev _ _ _ (by have hfr := getDev_freed hd; exact hfr))

theorem dc_create_shadow_live {pf : Platform} {s s1 : State} {dev : DevId}
    {r : Int} (h : dc_create_shadow pf s dev = some (r, s1)) : LiveMono s s1 := by
  unfold dc_create_shadow at h
  split at h
  · cases h
  · rename_i pr hp
    split at h
    · cases h; exact LiveMono.refl _
    · split at h
      · cases h; exact LiveMono.refl _
      · cases h
        exact (liveMono_alloc _ _).trans (liveMono_setDev _ _ _ (by have hfr := getDev_freed hp; exact hfr))

theorem dc_launch_devhost_devs {pf : Platform} {s s1 : State} {host : HostId} {name : String}
    {hrpc : Handle} {r : Int} (h : dc_launch_devhost pf s host name hrpc = some (r, s1)) :
    s1.devs = s.devs := by
  unfold dc_launch_devhost at h
  split at h
  · cases h
  · simp only at h
    split at h
    · cases h; rfl
    · cases h; rfl

theorem dc_new_devhost_devs {pf : Platform} {s s1 : State} {name : String}
    {r : Int} {out : Option HostId} (h : dc_new_devhost pf s name = some (r, s1, out)) :
    s1.devs = s.devs := by
  unfold dc_new_devhost at h
  split at h
  · cases h; rfl
  · simp only at h
    split at h
    · cases h; rfl
    · split at h
      · cases h
      · rename_i r' s3 hl
        have hd := dc_launch_devhost_devs hl
        split at h
        · split at h
          · cases h
          · cases h
            simp only [State.setHost, State.emit, hd, State.setHost]
        · cases h
          simp only [hd, State.setHost]

theorem liveMono_of_devs {s s1 : State} (h : s1.devs = s.devs) : LiveMono s s1 := by
  intro i x hx
  exact ⟨x, by unfold State.getDev at hx ⊢; rw [h]; exact hx⟩

theorem dh_create_device_live {pf : Platform} {s s1 : State} {dev : DevId} {dh : HostId}
    {libname : String} {r : Int} (h : dh_create_device pf s dev dh libname = some (r, s1)) :
    LiveMono s s1 := by
  unfold dh_create_device at h
  split at h
  · cases h
  · rename_i d hd
    split at h
    · cases h
    · split at h
      · cases h
      · split at h
        · cases h; exact LiveMono.refl _
        · split at h
          · cases h; exact LiveMono.refl _
          · simp only at h
            split at h
            · cases h; exact liveMono_emit _ _
            · split at h
              · cases h
              · split at h
                · cases h
                  exact (liveMono_emit _ _).trans (liveMono_emit _ _)
                · split at h
                  · cases h
                    exact (((liveMono_emit _ _).trans
                      (liveMono_setDev _ _ _ (by have hfr := getDev_freed hd; exact hfr))).trans
                      (liveMono_emit _ _)).trans (liveMono_emit _ _)
                  · cases h
                    exact ((liveMono_emit _ _).trans
                      (liveMono_setDev _ _ _ (by have hfr := getDev_freed hd; exact hfr))).trans
                      (liveMono_emit _ _)

theorem dc_attempt_bind_busdev_live {pf : Platform} {s s1 : State} {drv : Driver} {dev : DevId}
    {libname devhostname : String} {r : Int}
    (h : dc_attempt_bind_busdev pf s drv dev libname devhostname = some (r, s1)) :
    LiveMono s s1 := by
  unfold dc_attempt_bind_busdev at h
  split at h
  · cases h
  · rename_i r1 t1 hcs
    have h1 := dc_create_shadow_live hcs
    split at h
    · cases h; exact h1
    · split at h
      · cases h
      · split at h
        · cases h
        · rename_i sh hsh
          split at h
          · cases h
          · rename_i shr hshr
            split at h
            · split at h
              · cases h
              · rename_i r2 t2 out hnd
                have h2 : LiveMono t1 t2 := liveMono_of_devs (dc_new_devhost_devs hnd)
                simp only at h
                split at h
                · cases h
                  rename_i hneg
                  exact h1.trans h2
                · rename_i hneg
                  have h3 : LiveMono t2 (t2.setDev sh { shr with host := out }) :=
                    liveMono_setDev _ _ _ (by have hfr := getDev_freed hshr; exact hfr)
                  split at h
                  · cases h
                  · split at h
                    · cases h
                    · rename_i r3 t3 hcd
                      have h4 := dh_create_device_live hcd
                      split at h
                      · cases h
                        exact ((h1.trans h2).trans h3).trans h4
                      · exact (((h1.trans h2).trans h3).trans h4).trans (dh_bind_driver_live h)
            · exact h1.trans (dh_bind_driver_live h)

theorem dc_attempt_bind_live {cfg : Config} {pf : Platform} {s s1 : State} {drv : Driver}
    {dev : DevId} {r : Int} (h : dc_attempt_bind cfg pf s drv dev = some (r, s1)) :
    LiveMono s s1 := by
  unfold dc_attempt_bind at h
  split at h
  · cases h
  · split at h
    · cases h; exact LiveMono.refl _
    · split at h
      · split at h
        · cases h; exact LiveMono.refl _
        · exact dh_bind_driver_live h
      · split at h
        · exact dc_attempt_bind_busdev_live h
        · split at h
          · exact dc_attempt_bind_busdev_live h
          · split at h
            · exact dc_attempt_bind_busdev_live h
            · cases h; exact LiveMono.refl _

theorem drop_handles_getDev (s : State) (msg : Msg) (hin : List Handle) (d : DevId) :
    (drop_handles s msg hin).1.getDev d = s.getDev d := by
  unfold drop_handles
  split <;> rfl

theorem drop_handles_drivers (s : State) (msg : Msg) (hin : List Handle) :
    (drop_handles s msg hin).1.list_drivers = s.list_drivers := by
  unfold drop_handles
  split <;> rfl

/-- C10 (amended): a `BIND_DEVICE` request read on the channel of a live device
that is not a shadow, naming a registered driver that is bindable to it, is
answered with a status reply that carries `NO_ERROR`, whatever status `e`
`dc_attempt_bind` returned: `dc_bind_device` drops `e`.  The reply is the last
action of the handler, written on the channel of the device with the txid of
the request. -/
theorem dc_bind_device_reply (cfg : Config) (pf : Platform) (s s1 : State) (dev : DevId)
    (d : Device) (drv : Driver) (e : Int)
    (hd : s.getDev dev = some d) (hlive : d.flags.dead = false)
    (hns : d.flags.shadow = false)
    (hread : 0 ≤ pf.channel_read) (hunp : 0 ≤ pf.msg_unpack)
    (hop : pf.msg.op = Op.BIND_DEVICE)
    (hfind : s.list_drivers.find?
        (fun x => decide (x.libname = "driver/" ++ pf.args ++ ".so")) = some drv)
    (hbind : cfg.dc_is_bindable drv d.protocol_id d.props d.prop_count false = true)
    (hatt : dc_attempt_bind cfg pf (drop_handles s pf.msg (pf.hin.take 2)).1 drv dev =
      some (e, s1)) :
    ∃ d1, s1.getDev dev = some d1 ∧
      dc_handle_device_read cfg pf s dev =
        some (if pf.status_write < 0 then pf.status_write else NO_ERROR,
              s1.emit [Event.write_status d1.hrpc pf.msg.txid NO_ERROR]) := by
  have hd0 : (drop_handles s pf.msg (pf.hin.take 2)).1.getDev dev = some d := by
    rw [drop_handles_getDev]; exact hd
  obtain ⟨d1, hd1⟩ := dc_attempt_bind_live hatt dev d hd0
  have hbd : dc_bind_device cfg pf (drop_handles s pf.msg (pf.hin.take 2)).1 dev pf.args =
      some (NO_ERROR, s1) := by
    unfold dc_bind_device
    simp only [hd0, hns, Bool.false_eq_true, if_false]
    rw [dc_bind_device_loop_eq, drop_handles_drivers, hfind]
    simp only [hbind, if_true, hatt, Option.map_some']
  have hreply : reply_done pf s1 dev pf.msg.txid NO_ERROR =
      some (if pf.status_write < 0 then pf.status_write else NO_ERROR,
            s1.emit [Event.write_status d1.hrpc pf.msg.txid NO_ERROR]) := by
    unfold reply_done
    rw [hd1]
    simp only
    split <;> rfl
  refine ⟨d1, hd1, ?_⟩
  unfold dc_handle_device_read
  rw [hd]
  simp only [hlive, Bool.false_eq_true, if_false, not_lt.2 hread, not_lt.2 hunp, hop, hbd]
  exact hreply

theorem dc_bind_device_reply_witness :
    ∃ d1, bound_state.getDev 3 = some d1 ∧
      dc_handle_device_read sample_cfg bind_request bound_state 3 =
        some (if bind_request.status_write < 0 then bind_request.status_write else NO_ERROR,
              bound_state.emit [Event.write_status d1.hrpc bind_request.msg.txid NO_ERROR]) :=
  dc_bind_device_reply sample_cfg bind_request bound_state bound_state 3
    { name := "eth", flags := { bound := true }, protocol_id := 42, parent := some 0,
      host := some 0, hrpc := 20, ph_handle := 20,
      pending := [{ op := PendingOp.PENDING_BIND }], refcount := 1 }
    eth_driver ERR_BAD_STATE rfl rfl rfl (by decide) (by decide) rfl rfl rfl rfl

/-- C10 (counterexample): the device 3 is live, not a shadow and already
`BOUND` without `MULTI_BIND`; `eth_driver` is registered and bindable to it.
`dc_attempt_bind` fails with `ERR_BAD_STATE`, yet the status reply written for
the `BIND_DEVICE` request carries `NO_ERROR`. -/
theorem bind_error_not_in_reply :
    (bound_state.getDev 3).map (fun d => (d.flags.dead, d.flags.shadow)) =
      some (false, false) ∧
    bound_state.list_drivers.find?
      (fun x => decide (x.libname = "driver/" ++ bind_request.args ++ ".so")) =
      some eth_driver ∧
    sample_cfg.dc_is_bindable eth_driver 42 [] 0 false = true ∧
    dc_attempt_bind sample_cfg bind_request bound_state eth_driver 3 =
      some (ERR_BAD_STATE, bound_state) ∧
    dc_handle_device_read sample_cfg bind_request bound_state 3 =
      some (NO_ERROR, bound_state.emit [Event.write_status 20 5 NO_ERROR]) ∧
    ERR_BAD_STATE ≠ NO_ERROR :=
  ⟨rfl, rfl, rfl, rfl, rfl, by decide⟩

/-! ## New devices and status messages -/

theorem dc_handle_new_device_loop_eq (cfg : Config) (pf : Platform) (s : State) (dev : DevId)
    (d : Device) (drvs : List Driver) :
    dc_handle_new_device_loop cfg pf s dev d drvs =
      match drvs.find? (fun drv => cfg.dc_is_bindable drv d.protocol_id d.props d.prop_count true) with
      | none => some s
      | some drv => (dc_attempt_bind cfg pf s drv dev).map (fun r => r.2) := by
  induction drvs with
  | nil => simp [dc_handle_new_device_loop]
  | cons drv rest ih =>
    unfold dc_handle_new_device_loop
    by_cases hb : cfg.dc_is_bindable drv d.protocol_id d.props d.prop_count true = true
    · simp only [hb, if_true, List.find?_cons]
      cases dc_attempt_bind cfg pf s drv dev with
      | none => rfl
      | some r => rfl
    · simp only [hb, if_false, List.find?_cons, Bool.false_eq_true]
      exact ih

/-- C15: `dc_handle_new_device` looks for the first driver of `list_drivers`, in
registration order, for which `dc_is_bindable` holds with `autobind = true`.
It calls `dc_attempt_bind` for that driver and for no other one, whatever the
attempt answers; when no driver is bindable the state is returned unchanged. -/
theorem dc_handle_new_device_first_bindable (cfg : Config) (pf : Platform) (s : State)
    (dev : DevId) (d : Device) (hd : s.getDev dev = some d) :
    dc_handle_new_device cfg pf s dev =
      match s.list_drivers.find?
          (fun drv => cfg.dc_is_bindable drv d.protocol_id d.props d.prop_count true) with
      | none => some s
      | some drv => (dc_attempt_bind cfg pf s drv dev).map (fun r => r.2) := by
  unfold dc_handle_new_device
  cases hl : s.list_drivers with
  | nil => simp
  | cons drv rest =>
    simp only [hd]
    exact dc_handle_new_device_loop_eq cfg pf s dev d (drv :: rest)

theorem dc_handle_new_device_first_bindable_witness :
    dc_handle_new_device sample_cfg ok_platform
        { sample_state with list_drivers := [pci_driver, eth_driver] } 3 =
      (dc_attempt_bind sample_cfg ok_platform
        { sample_state with list_drivers := [pci_driver, eth_driver] } eth_driver 3).map
        (fun r => r.2) :=
  dc_handle_new_device_first_bindable sample_cfg ok_platform
    { sample_state with list_drivers := [pci_driver, eth_driver] } 3
    { name := "eth", protocol_id := 42, parent := some 0, host := some 0,
      hrpc := 20, ph_handle := 20, refcount := 1, work_op := WORK_DEVICE_ADDED } rfl

/-- C18: in the initial state `dc_dump_state` performs two `printf` calls and
nothing else; together they write exactly `[root]\n   [misc]\n`. -/
theorem dc_dump_state_init (cfg : Config) :
    dc_dump_state (init_state cfg) =
      some ((init_state cfg).emit [Event.printf "[root]\n", Event.printf "   [misc]\n"]) ∧
    printed [Event.printf "[root]\n", Event.printf "   [misc]\n"] = "[root]\n   [misc]\n" := by
  constructor
  · rfl
  · decide

/-- C17: a command (the first `len` bytes of `cmd`) that is none of `dump`,
`help`, `reboot`, `poweroff`, `shutdown`, `ktraceon`, `ktraceoff` and is not
`acpi-ps0:`, `kerneldebug ` or `@` followed by at least one byte is answered
with `ERR_NOT_SUPPORTED`, and the state (so the trace of platform actions) is
returned unchanged. -/
theorem handle_dmctl_write_unknown (pf : Platform) (s : State) (len : Nat) (cmd : List Nat)
    (hlen : len ≤ cmd.length)
    (h1 : cmd.take len ≠ cbytes "dump") (h2 : cmd.take len ≠ cbytes "help")
    (h3 : cmd.take len ≠ cbytes "reboot") (h4 : cmd.take len ≠ cbytes "poweroff")
    (h5 : cmd.take len ≠ cbytes "shutdown") (h6 : cmd.take len ≠ cbytes "ktraceon")
    (h7 : cmd.take len ≠ cbytes "ktraceoff")
    (h8 : ¬ (∃ t, t ≠ [] ∧ cmd.take len = cbytes "acpi-ps0:" ++ t))
    (h9 : ¬ (∃ t, t ≠ [] ∧ cmd.take len = cbytes "kerneldebug " ++ t))
    (h10 : ¬ (∃ t, t ≠ [] ∧ cmd.take len = cbytes "@" ++ t)) :
    handle_dmctl_write pf s len cmd = some (ERR_NOT_SUPPORTED, s) := by
  have pre : ∀ (lit : String) (n : Nat), len > n →
      cmd.take n = cbytes lit → ∃ t, t ≠ [] ∧ cmd.take len = cbytes lit ++ t := by
    intro lit n hgt htake
    refine ⟨(cmd.take len).drop n, ?_, ?_⟩
    · intro hnil
      have := congrArg List.length hnil
      simp at this
      omega
    · have h : (cmd.take len).take n = cmd.take n := by
        rw [List.take_take, Nat.min_eq_left (Nat.le_of_lt hgt)]
      rw [← htake, ← h]; exact (List.take_append_drop n (cmd.take len)).symm
  unfold handle_dmctl_write
  have c1 : ¬ (len = 4 ∧ memcmp_eq cmd "dump" 4 = true) := by
    rintro ⟨hl, hm⟩; simp only [memcmp_eq, decide_eq_true_eq] at hm
    rw [← hl] at hm; exact h1 hm
  have c2 : ¬ (len = 4 ∧ memcmp_eq cmd "help" 4 = true) := by
    rintro ⟨hl, hm⟩; simp only [memcmp_eq, decide_eq_true_eq] at hm
    rw [← hl] at hm; exact h2 hm
  have c3 : ¬ (len = 6 ∧ memcmp_eq cmd "reboot" 6 = true) := by
    rintro ⟨hl, hm⟩; simp only [memcmp_eq, decide_eq_true_eq] at hm
    rw [← hl] at hm; exact h3 hm
  have c4 : ¬ (len = 8 ∧
      (memcmp_eq cmd "poweroff" 8 = true ∨ memcmp_eq cmd "shutdown" 8 = true)) := by
    rintro ⟨hl, hm | hm⟩ <;> simp only [memcmp_eq, decide_eq_true_eq] at hm <;>
      rw [← hl] at hm
    · exact h4 hm
    · exact h5 hm
  have c5 : ¬ (len = 8 ∧ memcmp_eq cmd "ktraceon" 8 = true) := by
    rintro ⟨hl, hm⟩; simp only [memcmp_eq, decide_eq_true_eq] at hm
    rw [← hl] at hm; exact h6 hm
  have c6 : ¬ (len = 9 ∧ memcmp_eq cmd "ktraceoff" 9 = true) := by
    rintro ⟨hl, hm⟩; simp only [memcmp_eq, decide_eq_true_eq] at hm
    rw [← hl] at hm; exact h7 hm
  have c7 : ¬ (len > 9 ∧ memcmp_eq cmd "acpi-ps0:" 9 = true) := by
    rintro ⟨hl, hm⟩; simp only [memcmp_eq, decide_eq_true_eq] at hm
    exact h8 (pre "acpi-ps0:" 9 hl hm)
  have c8 : ¬ (len > 12 ∧ memcmp_eq cmd "kerneldebug " 12 = true) := by
    rintro ⟨hl, hm⟩; simp only [memcmp_eq, decide_eq_true_eq] at hm
    exact h9 (pre "kerneldebug " 12 hl hm)
  have c9 : ¬ (len > 1 ∧ cmd.head? = some ('@').toNat) := by
    rintro ⟨hl, hm⟩
    apply h10
    have h1' : cmd.take 1 = cbytes "@" := by
      cases cmd with
      | nil => simp at hm
      | cons a t =>
        simp only [List.head?_cons, Option.some.injEq] at hm
        subst hm; rfl
    exact pre "@" 1 hl h1'
  simp only [c1, c2, c3, c4, c5, c6, c7, c8, c9, if_false]

theorem handle_dmctl_write_unknown_witness :
    handle_dmctl_write ok_platform sample_state 10 (cbytes "frobnicate") =
      some (ERR_NOT_SUPPORTED, sample_state) :=
  handle_dmctl_write_unknown ok_platform sample_state 10 (cbytes "frobnicate") (by decide)
    (by decide) (by decide) (by decide) (by decide) (by decide) (by decide) (by decide)
    (by rintro ⟨t, -, h⟩
        exact absurd (show (some 102 : Option Nat) = some 97 from congrArg List.head? h)
          (by decide))
    (by rintro ⟨t, -, h⟩
        exact absurd (show (some 102 : Option Nat) = some 107 from congrArg List.head? h)
          (by decide))
    (by rintro ⟨t, -, h⟩
        exact absurd (show (some 102 : Option Nat) = some 64 from congrArg List.head? h)
          (by decide))

/-! ## Host disconnect -/

/-- C13 (failing input): `dc_handle_device` runs for the live, non-immortal
device 3 with only `PEER_CLOSED` signalled.  It answers `ERR_PEER_CLOSED` and
closes the channel, and that is all: the device is not `DEAD`, it still has its
parent and host, `root` still lists it, and the refcount of its host is still
1. -/
theorem peer_closed_does_not_remove :
    (dc_handle_device sample_cfg ok_platform sample_state 3 false true).map
        (fun r => (r.1, r.2.trace,
          r.2.devs[3]?.map (fun d => (d.flags.dead, d.parent, d.host, d.hrpc)),
          r.2.devs[0]?.map (fun d => (d.children, d.refcount)),
          r.2.hosts[0]?.map (fun h => (h.refcount, h.freed)))) =
      some (ERR_PEER_CLOSED, [Event.handle_close 20],
        some (false, some 0, some 0, MX_HANDLE_INVALID),
        some ([3], 3),
        some (1, false)) := by
  rfl

/-! ## Refcount of a shadow -/

/-- C20 (failing input): from the initial state, `dc_attempt_bind` of a driver
to `root_device` succeeds with `NO_ERROR` and creates the shadow of `root`
(device 2), which is reachable through `root.shadow`, is live, and has
refcount 0. -/
theorem shadow_has_refcount_zero :
    (dc_attempt_bind sample_cfg launch_platform (init_state sample_cfg)
        { libname := "driver/root.so" } root_device).map
        (fun r => (r.1,
          r.2.devs[0]?.map (fun d => (d.shadow, d.refcount)),
          r.2.devs[2]?.map (fun d => (d.flags.shadow, d.parent, d.freed, d.refcount)))) =
      some (NO_ERROR, some (some 2, 2), some (true, some 0, false, 0)) := by
  rfl

/-! ## Registration of the PCI driver -/

/-- C16 (amended): with protocol ids `PCI` and `MISC_PARENT` different from 0
(the protocol id of `root_device`) and every platform call succeeding,
registering the driver `pci` / `driver/bus-pci.so` in the initial state spawns
a host named `devhost:root`, sends `CREATE_DEVICE` with libname `""` to that
host, arms the shadow's channel and sends `BIND_DRIVER` with libname
`driver/bus-pci.so` to the shadow of `root`; afterwards `root.shadow` is
present and `root.refcount` is 2. -/
theorem coordinator_new_driver_pci (cfg : Config) (pf : Platform) (drv : Driver)
    (hpci : cfg.MX_PROTOCOL_PCI ≠ 0) (hmisc : cfg.MX_PROTOCOL_MISC_PARENT ≠ 0)
    (hname : drv.name = "pci") (hlib : drv.libname = "driver/bus-pci.so")
    (h1 : pf.calloc_shadow = true) (h2 : pf.calloc_devhost = true)
    (h3 : 0 ≤ pf.host_channel_create) (h4 : 0 ≤ pf.launchpad_go)
    (h5 : 0 ≤ pf.create_msg_pack) (h6 : 0 ≤ pf.dev_channel_create)
    (h7 : 0 ≤ pf.create_write) (h8 : 0 ≤ pf.shadow_port_watch)
    (h9 : pf.malloc_pending = true) (h10 : 0 ≤ pf.bind_msg_pack) (h11 : 0 ≤ pf.bind_write) :
    ∃ s', coordinator_new_driver cfg pf (init_state cfg) drv = some s' ∧
      s'.trace =
        [Event.launch "devhost:root" pf.host_channel_remote,
         Event.write_create_device pf.host_channel_local "" "" 0 [pf.dev_channel_remote],
         Event.port_watch 2 pf.dev_channel_local,
         Event.write_bind_driver pf.dev_channel_local "driver/bus-pci.so"] ∧
      (s'.getDev root_device).map (fun d => (d.shadow, d.refcount)) = some (some 2, 2) ∧
      (s'.getDev 2).map (fun d => (d.flags.shadow, d.flags.bound, d.parent, d.host, d.hrpc)) =
        some (true, true, some root_device, some 0, pf.dev_channel_local) ∧
      (s'.getHost 0).map (fun h => h.hrpc) = some pf.host_channel_local ∧
      s'.list_drivers = [drv] := by
  have e1 : ¬ (0 = cfg.MX_PROTOCOL_PCI) := fun h => hpci h.symm
  have e2 : ¬ (0 = cfg.MX_PROTOCOL_MISC_PARENT) := fun h => hmisc h.symm
  by_cases hg : pf.get_info = 0 <;>
  simp [hg, coordinator_new_driver, dc_attempt_bind, dc_attempt_bind_busdev, dc_create_shadow,
    dc_new_devhost, dc_launch_devhost, dh_create_device, dh_bind_driver, init_state,
    State.getDev, State.setDev, State.getHost, State.setHost, State.emit, root_device,
    hname, hlib, h1, h2, h9, not_lt.2 h3, not_lt.2 h4, not_lt.2 h5, not_lt.2 h6, not_lt.2 h7,
    not_lt.2 h8, not_lt.2 h10, not_lt.2 h11, e1, e2, MX_HANDLE_INVALID, NO_ERROR]

theorem coordinator_new_driver_pci_witness :
    ∃ s', coordinator_new_driver sample_cfg launch_platform (init_state sample_cfg)
        pci_driver = some s' ∧
      s'.trace =
        [Event.launch "devhost:root" 10,
         Event.write_create_device 11 "" "" 0 [13],
         Event.port_watch 2 14,
         Event.write_bind_driver 14 "driver/bus-pci.so"] ∧
      (s'.getDev root_device).map (fun d => (d.shadow, d.refcount)) = some (some 2, 2) ∧
      (s'.getDev 2).map (fun d => (d.flags.shadow, d.flags.bound, d.parent, d.host, d.hrpc)) =
        some (true, true, some root_device, some 0, 14) ∧
      (s'.getHost 0).map (fun h => h.hrpc) = some 11 ∧
      s'.list_drivers = [pci_driver] :=
  coordinator_new_driver_pci sample_cfg launch_platform pci_driver (by decide) (by decide)
    rfl rfl rfl rfl (by decide) (by decide) (by decide) (by decide) (by decide) (by decide)
    rfl (by decide) (by decide)

/-- C16 (counterexample): in the initial state, with every platform call
succeeding, registering `pci` / `driver/bus-pci.so` performs exactly four
actions.  The host that is spawned is named `devhost:root`, not `devhost:pci`,
and the `CREATE_DEVICE` message carries the libname `""`, not
`driver/bus-pci.so`. -/
theorem pci_registration_spawns_root_host :
    (coordinator_new_driver sample_cfg launch_platform (init_state sample_cfg)
        pci_driver).map (fun s => s.trace) =
      some [Event.launch "devhost:root" 10,
            Event.write_create_device 11 "" "" 0 [13],
            Event.port_watch 2 14,
            Event.write_bind_driver 14 "driver/bus-pci.so"] ∧
    Event.launch "devhost:pci" 10 ∉
      [Event.launch "devhost:root" 10,
       Event.write_create_device 11 "" "" 0 [13],
       Event.port_watch 2 14,
       Event.write_bind_driver 14 "driver/bus-pci.so"] ∧
    Event.write_create_device 11 "driver/bus-pci.so" "" 0 [13] ∉
      [Event.launch "devhost:root" 10,
       Event.write_create_device 11 "" "" 0 [13],
       Event.port_watch 2 14,
       Event.write_bind_driver 14 "driver/bus-pci.so"] :=
  ⟨rfl, by decide, by decide⟩

/-! ## Order and indentation of the dump -/

theorem dump_children_foldl (fuel : Nat) (s : State) (k : Nat) :
    ∀ (cs : List DevId) (outs : List (List String)) (acc : List String),
      List.Forall₂ (fun c o => dc_dump_device fuel s c k = some o) cs outs →
      cs.foldl
        (fun acc child =>
          match acc, dc_dump_device fuel s child k with
          | some out, some l => some (out ++ l)
          | _, _ => none)
        (some acc) = some (acc ++ outs.flatten) := by
  intro cs outs acc h
  induction h generalizing acc with
  | nil => simp
  | cons hc _ ih =>
    simp only [List.foldl_cons, hc, List.flatten_cons]
    rw [ih]
    simp [List.append_assoc]

theorem dump_line_pad (d : Device) (pid n : Nat) :
    ∃ rest, dump_line d pid n =
      String.mk (List.replicate (n * 3) ' ') ++ "[" ++ d.name ++ "]" ++ rest := by
  unfold dump_line
  by_cases h : pid = 0
  · exact ⟨"\n", by simp [h, String.append_assoc]⟩
  · have hlit : "] pid=" = "]" ++ " pid=" := by decide
    exact ⟨" pid=" ++ toString pid ++ (if d.flags.busdev then " busdev" else "") ++
      (if d.flags.shadow then " shadow" else "") ++ "\n",
      by simp only [h, if_false, hlit, String.append_assoc]⟩

/-- C19 (amended): `dc_dump_device` prints a device at indent `n` as one line
that starts with `3 * n` spaces and `[name]`, then the subtree of its shadow,
if any, at indent `n + 1`, then the subtrees of its children in list order.
The children are printed at indent `n + 1` when the device has no shadow and
at indent `n + 2` when it has one. -/
theorem dc_dump_device_order (fuel : Nat) (s : State) (dev : DevId) (n : Nat) (d : Device)
    (pid : Nat) (shl : List String) (outs : List (List String))
    (hd : s.getDev dev = some d)
    (hpid : (match d.host with
             | none => some 0
             | some h => (s.getHost h).map (fun hr => hr.koid)) = some pid)
    (hsh : match d.shadow with
           | none => shl = []
           | some x => dc_dump_device fuel s x (n + 1) = some shl)
    (hch : List.Forall₂
      (fun c o => dc_dump_device fuel s c (if d.shadow = none then n + 1 else n + 2) = some o)
      d.children outs) :
    dc_dump_device (fuel + 1) s dev n = some (dump_line d pid n :: (shl ++ outs.flatten)) ∧
    ∃ rest, dump_line d pid n =
      String.mk (List.replicate (n * 3) ' ') ++ "[" ++ d.name ++ "]" ++ rest := by
  refine ⟨?_, dump_line_pad d pid n⟩
  have hgoal : dc_dump_device (fuel + 1) s dev n =
      List.foldl
        (fun acc child =>
          match acc, dc_dump_device fuel s child ((if d.shadow ≠ none then n + 1 else n) + 1) with
          | some out, some l => some (out ++ l)
          | _, _ => none)
        (Option.map (fun l => dump_line d pid n :: l)
          (match d.shadow with
          | none => some []
          | some x => dc_dump_device fuel s x (if d.shadow ≠ none then n + 1 else n)))
        d.children := by
    rw [dc_dump_device]
    simp only [hd]
    cases hh : d.host with
    | none =>
      rw [hh] at hpid
      simp only [Option.some.injEq] at hpid
      subst hpid
      rfl
    | some h =>
      rw [hh] at hpid
      simp only at hpid
      simp only [hpid]
  rw [hgoal]
  cases hs : d.shadow with
  | none =>
    rw [hs] at hsh hch
    simp only at hsh
    subst hsh
    simp only [if_true] at hch
    simp only [ne_eq, not_true_eq_false, if_false, Option.map_some']
    rw [dump_children_foldl fuel s (n + 1) d.children outs _ hch]
    simp
  | some x =>
    rw [hs] at hsh hch
    simp only at hsh
    simp only [reduceCtorEq, if_false] at hch
    simp only [ne_eq, reduceCtorEq, not_false_eq_true, if_true, hsh, Option.map_some']
    rw [dump_children_foldl fuel s (n + 1 + 1) d.children outs _ hch]
    simp

theorem dc_dump_device_order_witness :
    dc_dump_device (1 + 1) sample_state 0 0 =
      some ["[root]\n", "   [root] pid=1000 shadow\n", "      [eth] pid=1000\n"] :=
  (dc_dump_device_order 1 sample_state 0 0
    { name := "root",
      flags := { immortal := true, busdev := true, multi_bind := true },
      shadow := some 2, children := [3], refcount := 3 }
    0 ["   [root] pid=1000 shadow\n"] [["      [eth] pid=1000\n"]]
    rfl rfl rfl (List.Forall₂.cons rfl List.Forall₂.nil)).1

/-- C19 (counterexample): `root` has the shadow 2 and the child 3.  Dumped at
indent 0, the shadow is printed at indent 1 and the child at indent 2 (six
spaces); the line of the child at indent 1 is not printed. -/
theorem dump_child_under_shadow :
    dc_dump_device 2 sample_state 0 0 =
      some ["[root]\n", "   [root] pid=1000 shadow\n", "      [eth] pid=1000\n"] ∧
    dump_line
      { name := "eth", protocol_id := 42, parent := some 0, host := some 0,
        hrpc := 20, ph_handle := 20, refcount := 1, work_op := WORK_DEVICE_ADDED } 1000 2 =
      "      [eth] pid=1000\n" ∧
    dump_line
      { name := "eth", protocol_id := 42, parent := some 0, host := some 0,
        hrpc := 20, ph_handle := 20, refcount := 1, work_op := WORK_DEVICE_ADDED } 1000 1 ∉
      ["[root]\n", "   [root] pid=1000 shadow\n", "      [eth] pid=1000\n"] :=
  ⟨rfl, rfl, by decide⟩

/-! ## Status replies -/

theorem NoReply.nrefl (s : State) : NoReply s s := ⟨[], by simp, rfl⟩

theorem NoReply.ntrans {a b c : State} (h1 : NoReply a b) (h2 : NoReply b c) : NoReply a c := by
  obtain ⟨e1, ht1, hf1⟩ := h1
  obtain ⟨e2, ht2, hf2⟩ := h2
  exact ⟨e1 ++ e2, by rw [ht2, ht1, List.append_assoc], by rw [List.filter_append, hf1, hf2]; rfl⟩

theorem noReply_of_trace {s s' : State} (h : s'.trace = s.trace) : NoReply s s' :=
  ⟨[], by simp [h], rfl⟩

theorem noReply_emit (s : State) (es : List Event)
    (h : es.filter Event.is_status_reply = []) : NoReply s (s.emit es) :=
  ⟨es, rfl, h⟩

theorem noReply_setDev (s : State) (d : DevId) (x : Device) : NoReply s (s.setDev d x) :=
  noReply_of_trace rfl

theorem noReply_setHost (s : State) (h : HostId) (x : Devhost) : NoReply s (s.setHost h x) :=
  noReply_of_trace rfl

theorem Quiet.qrefl (s : State) : Quiet s s := ⟨LiveMono.refl s, NoReply.nrefl s⟩

theorem Quiet.qtrans {a b c : State} (h1 : Quiet a b) (h2 : Quiet b c) : Quiet a c :=
  ⟨h1.1.trans h2.1, h1.2.ntrans h2.2⟩

theorem quiet_emit (s : State) (es : List Event)
    (h : es.filter Event.is_status_reply = []) : Quiet s (s.emit es) :=
  ⟨liveMono_emit s es, noReply_emit s es h⟩

theorem quiet_setDev (s : State) (d : DevId) (x : Device) (hx : x.freed = false) :
    Quiet s (s.setDev d x) :=
  ⟨liveMono_setDev s d x hx, noReply_setDev s d x⟩

theorem quiet_setHost (s : State) (h : HostId) (x : Devhost) : Quiet s (s.setHost h x) :=
  ⟨liveMono_setHost s h x, noReply_setHost s h x⟩

theorem quiet_alloc (s : State) (x : Device) : Quiet s { s with devs := s.devs ++ [x] } :=
  ⟨liveMono_alloc s x, noReply_of_trace rfl⟩

theorem quiet_of_eq {s s' : State} (hd : s'.devs = s.devs) (ht : s'.trace = s.trace) :
    Quiet s s' :=
  ⟨liveMono_of_devs hd, noReply_of_trace ht⟩

theorem dh_bind_driver_quiet {pf : Platform} {s s1 : State} {dev : DevId} {libname : String}
    {r : Int} (h : dh_bind_driver pf s dev libname = some (r, s1)) : Quiet s s1 := by
  unfold dh_bind_driver at h
  split at h
  · cases h; exact Quiet.qrefl _
  · split at h
    · cases h; exact Quiet.qrefl _
    · split at h
      · cases h
      · rename_i d hd
        simp only at h
        split at h
        · cases h; exact quiet_emit _ _ (by rfl)
        · cases h
          exact (quiet_emit _ _ (by rfl)).qtrans
            (quiet_setDev _ _ _ (by have hfr := getDev_freed hd; exact hfr))

theorem dc_create_shadow_quiet {pf : Platform} {s s1 : State} {dev : DevId}
    {r : Int} (h : dc_create_shadow pf s dev = some (r, s1)) : Quiet s s1 := by
  unfold dc_create_shadow at h
  split at h
  · cases h
  · rename_i pr hp
    split at h
    · cases h; exact Quiet.qrefl _
    · split at h
      · cases h; exact Quiet.qrefl _
      · cases h
        exact (quiet_alloc _ _).qtrans
          (quiet_setDev _ _ _ (by have hfr := getDev_freed hp; exact hfr))

theorem dc_launch_devhost_quiet {pf : Platform} {s s1 : State} {host : HostId} {name : String}
    {hrpc : Handle} {r : Int} (h : dc_launch_devhost pf s host name hrpc = some (r, s1)) :
    Quiet s s1 := by
  unfold dc_launch_devhost at h
  split at h
  · cases h
  · simp only at h
    split at h
    · cases h; exact quiet_emit _ _ (by rfl)
    · cases h; exact (quiet_emit _ _ (by rfl)).qtrans (quiet_setHost _ _ _)

theorem dc_new_devhost_quiet {pf : Platform} {s s1 : State} {name : String}
    {r : Int} {out : Option HostId} (h : dc_new_devhost pf s name = some (r, s1, out)) :
    Quiet s s1 := by
  unfold dc_new_devhost at h
  split at h
  · cases h; exact Quiet.qrefl _
  · simp only at h
    have h0 : Quiet s { s with hosts := s.hosts ++ [({} : Devhost)] } := quiet_of_eq rfl rfl
    split at h
    · cases h; exact h0.qtrans (quiet_setHost _ _ _)
    · split at h
      · cases h
      · rename_i r' s3 hl
        have h3 := (h0.qtrans (quiet_setHost _ _ _)).qtrans (dc_launch_devhost_quiet hl)
        split at h
        · split at h
          · cases h
          · cases h
            exact (h3.qtrans (quiet_emit _ _ (by rfl))).qtrans (quiet_setHost _ _ _)
        · cases h
          exact h3

theorem dh_create_device_quiet {pf : Platform} {s s1 : State} {dev : DevId} {dh : HostId}
    {libname : String} {r : Int} (h : dh_create_device pf s dev dh libname = some (r, s1)) :
    Quiet s s1 := by
  unfold dh_create_device at h
  split at h
  · cases h
  · rename_i d hd
    split at h
    · cases h
    · split at h
      · cases h
      · rename_i inf hinf
        split at h
        · cases h; exact Quiet.qrefl _
        · split at h
          · cases h; exact Quiet.qrefl _
          · simp only at h
            split at h
            · cases h; exact quiet_emit _ _ (by rfl)
            · split at h
              · cases h
              · split at h
                · cases h
                  refine (quiet_emit _ _ (by rfl)).qtrans (quiet_emit _ _ ?_)
                  split <;> rfl
                · split at h
                  · cases h
                    exact (((quiet_emit _ _ (by rfl)).qtrans
                      (quiet_setDev _ _ _ (by have hfr := getDev_freed hd; exact hfr))).qtrans
                      (quiet_emit _ _ (by rfl))).qtrans (quiet_emit _ _ (by rfl))
                  · cases h
                    exact ((quiet_emit _ _ (by rfl)).qtrans
                      (quiet_setDev _ _ _ (by have hfr := getDev_freed hd; exact hfr))).qtrans
                      (quiet_emit _ _ (by rfl))

theorem dc_attempt_bind_busdev_quiet {pf : Platform} {s s1 : State} {drv : Driver} {dev : DevId}
    {libname devhostname : String} {r : Int}
    (h : dc_attempt_bind_busdev pf s drv dev libname devhostname = some (r, s1)) :
    Quiet s s1 := by
  unfold dc_attempt_bind_busdev at h
  split at h
  · cases h
  · rename_i r1 t1 hcs
    have h1 := dc_create_shadow_quiet hcs
    split at h
    · cases h; exact h1
    · split at h
      · cases h
      · split at h
        · cases h
        · rename_i sh hsh
          split at h
          · cases h
          · rename_i shr hshr
            split at h
            · split at h
              · cases h
              · rename_i r2 t2 out hnd
                have h2 : Quiet t1 t2 := dc_new_devhost_quiet hnd
                simp only at h
                split at h
                · cases h
                  exact h1.qtrans h2
                · have h3 : Quiet t2 (t2.setDev sh { shr with host := out }) :=
                    quiet_setDev _ _ _ (by have hfr := getDev_freed hshr; exact hfr)
                  split at h
                  · cases h
                  · split at h
                    · cases h
                    · rename_i r3 t3 hcd
                      have h4 := dh_create_device_quiet hcd
                      split at h
                      · cases h
                        exact ((h1.qtrans h2).qtrans h3).qtrans h4
                      · exact (((h1.qtrans h2).qtrans h3).qtrans h4).qtrans (dh_bind_driver_quiet h)
            · exact h1.qtrans (dh_bind_driver_quiet h)

theorem dc_attempt_bind_quiet {cfg : Config} {pf : Platform} {s s1 : State} {drv : Driver}
    {dev : DevId} {r : Int} (h : dc_attempt_bind cfg pf s drv dev = some (r, s1)) :
    Quiet s s1 := by
  unfold dc_attempt_bind at h
  split at h
  · cases h
  · split at h
    · cases h; exact Quiet.qrefl _
    · split at h
      · split at h
        · cases h; exact Quiet.qrefl _
        · exact dh_bind_driver_quiet h
      · split at h
        · exact dc_attempt_bind_busdev_quiet h
        · split at h
          · exact dc_attempt_bind_busdev_quiet h
          · split at h
            · exact dc_attempt_bind_busdev_quiet h
            · cases h; exact Quiet.qrefl _

theorem dc_bind_device_loop_quiet {cfg : Config} {pf : Platform} {s s1 : State} {dev : DevId}
    {d : Device} {tmp : String} (drvs : List Driver)
    (h : dc_bind_device_loop cfg pf s dev d tmp drvs = some s1) : Quiet s s1 := by
  induction drvs with
  | nil =>
    unfold dc_bind_device_loop at h
    cases h; exact Quiet.qrefl _
  | cons drv rest ih =>
    unfold dc_bind_device_loop at h
    split at h
    · split at h
      · split at h
        · cases h
        · rename_i r t hat
          cases h
          exact dc_attempt_bind_quiet hat
      · cases h; exact Quiet.qrefl _
    · exact ih h

theorem dc_bind_device_quiet {cfg : Config} {pf : Platform} {s s1 : State} {dev : DevId}
    {drvname : String} {r : Int} (h : dc_bind_device cfg pf s dev drvname = some (r, s1)) :
    Quiet s s1 := by
  unfold dc_bind_device at h
  simp only at h
  split at h
  · cases h
  · split at h
    · cases h; exact Quiet.qrefl _
    · split at h
      · cases h
      · rename_i t hl
        cases h
        exact dc_bind_device_loop_quiet _ hl

theorem filter_reply_map_printf (l : List String) :
    (l.map Event.printf).filter Event.is_status_reply = [] := by
  induction l with
  | nil => rfl
  | cons a t ih => simp [List.filter_cons, Event.is_status_reply]

theorem filter_reply_map_close (l : List Handle) :
    (l.map Event.handle_close).filter Event.is_status_reply = [] := by
  induction l with
  | nil => rfl
  | cons a t ih => simp [List.filter_cons, Event.is_status_reply]

theorem close_handles_quiet (s : State) (hin : List Handle) : Quiet s (close_handles s hin) :=
  quiet_emit _ _ (filter_reply_map_close _)

theorem drop_handles_quiet (s : State) (msg : Msg) (hin : List Handle) :
    Quiet s (drop_handles s msg hin).1 := by
  unfold drop_handles
  split
  · exact close_handles_quiet s hin
  · exact Quiet.qrefl s

theorem handle_dmctl_write_quiet {pf : Platform} {s s1 : State} {len : Nat} {cmd : List Nat}
    {r : Int} (h : handle_dmctl_write pf s len cmd = some (r, s1)) : Quiet s s1 := by
  unfold handle_dmctl_write at h
  split at h
  · split at h
    · cases h
    · rename_i t hdump
      cases h
      unfold dc_dump_state at hdump
      split at hdump
      · cases hdump
        exact quiet_emit _ _ (filter_reply_map_printf _)
      · cases hdump
  · split at h
    · cases h; exact quiet_emit _ _ (by rfl)
    · split at h
      · cases h; exact quiet_emit _ _ (by rfl)
      · split at h
        · cases h; exact quiet_emit _ _ (by rfl)
        · split at h
          · cases h; exact quiet_emit _ _ (by rfl)
          · split at h
            · cases h; exact quiet_emit _ _ (by rfl)
            · split at h
              · cases h; exact quiet_emit _ _ (by rfl)
              · split at h
                · cases h; exact quiet_emit _ _ (by rfl)
                · split at h
                  · cases h; exact quiet_emit _ _ (by rfl)
                  · cases h; exact Quiet.qrefl _

theorem liveMono_of_below {s s' : State}
    (h : ∀ i, i < s.devs.length → s'.devs[i]? = s.devs[i]?) : LiveMono s s' := by
  intro i x hx
  refine ⟨x, ?_⟩
  unfold State.getDev at hx ⊢
  rw [h i (getDev_lt (by unfold State.getDev; exact hx))]
  exact hx

theorem host_addref_quiet {s s1 : State} {host : Option HostId}
    (h : host_addref s host = some s1) : Quiet s s1 :=
  quiet_of_eq (host_addref_devs h).1 (host_addref_devs h).2.2.1

theorem queue_work_quiet {s s1 : State} {dev : DevId} {op arg : Nat}
    (h : queue_work s dev op arg = some s1) : Quiet s s1 := by
  unfold queue_work at h
  split at h
  · cases h
  · rename_i d hd
    split at h
    · cases h
    · cases h
      exact (quiet_setDev _ _ _ (by have hfr := getDev_freed hd; exact hfr)).qtrans
        (quiet_of_eq rfl rfl)

theorem dc_add_device_link_quiet {s s1 : State} {dev : DevId} {d : Device}
    {parent : Option DevId} {r : Int} (hfr : d.freed = false)
    (h : dc_add_device_link s dev d parent = some (r, s1)) : Quiet s s1 := by
  unfold dc_add_device_link at h
  split at h
  · cases h
  · rename_i t1 ha
    have h1 := host_addref_quiet ha
    split at h
    · cases h
    · rename_i p
      simp only at h
      split at h
      · cases h
      · rename_i pr hpr
        split at h
        · cases h
        · rename_i t4 hq
          cases h
          exact ((h1.qtrans (quiet_setDev _ _ _ (by exact hfr))).qtrans
            (quiet_setDev _ _ _ (by have hfr2 := getDev_freed hpr; exact hfr2))).qtrans
            (queue_work_quiet hq)

theorem dc_add_device_quiet {cfg : Config} {pf : Platform} {s s1 : State} {parent : DevId}
    {handle : List Handle} {msg : Msg} {name args : String} {data : List Nat} {r : Int}
    (h : dc_add_device cfg pf s parent handle msg name args data = some (r, s1)) :
    Quiet s s1 := by
  unfold dc_add_device at h
  split at h
  · cases h; exact Quiet.qrefl _
  · split at h
    · cases h; exact Quiet.qrefl _
    · split at h
      · cases h; exact Quiet.qrefl _
      · split at h
        · cases h; exact Quiet.qrefl _
        · split at h
          · cases h
          · rename_i pr hpr
            simp only at h
            split at h
            · cases h
              refine ⟨liveMono_of_below ?_, ?_⟩
              · intro i hi
                simp [State.setDev, State.emit, List.getElem?_set, Nat.ne_of_gt hi,
                  List.getElem?_append_left hi]
              · exact ((noReply_of_trace rfl).ntrans (noReply_emit _ _ (by rfl))).ntrans
                  (noReply_setDev _ _ _)
            · split at h
              · cases h
                refine ⟨liveMono_of_below ?_, ?_⟩
                · intro i hi
                  simp [State.setDev, State.emit, List.getElem?_set, Nat.ne_of_gt hi,
                    List.getElem?_append_left hi]
                · exact (((((quiet_alloc s (new_device cfg pr handle msg name args data)).2.ntrans
                    (noReply_emit _ _ (by rfl))).ntrans
                    (noReply_setDev _ s.devs.length
                      { new_device cfg pr handle msg name args data with
                        ph_handle := handle.getD 0 MX_HANDLE_INVALID })).ntrans
                    (noReply_emit _ _ (by rfl))).ntrans
                    (noReply_emit _ _ (by rfl))).ntrans (noReply_setDev _ _ _)
              · exact ((((quiet_alloc s (new_device cfg pr handle msg name args data)).qtrans
                    (quiet_emit _ _ (by rfl))).qtrans
                    (quiet_setDev _ _ _ (by rfl))).qtrans (quiet_emit _ _ (by rfl))).qtrans
                    (dc_add_device_link_quiet (by rfl) h)

theorem dc_release_devhost_quiet {s s1 : State} {h : HostId}
    (hr : dc_release_devhost s h = some s1) : Quiet s s1 := by
  unfold dc_release_devhost at hr
  split at hr
  · cases hr
  · simp only at hr
    split at hr
    · cases hr; exact quiet_setHost _ _ _
    · cases hr; exact (quiet_setHost _ _ _).qtrans (quiet_emit _ _ (by rfl))

theorem filter_reply_release_closes (d : Device) :
    (release_closes d).filter Event.is_status_reply = [] := by
  unfold release_closes
  by_cases h1 : d.hrpc = MX_HANDLE_INVALID <;> by_cases h2 : d.hrsrc = MX_HANDLE_INVALID <;>
    simp [h1, h2, Event.is_status_reply]

theorem dc_release_device_noReply {s s1 : State} {p : DevId}
    (h : dc_release_device s p = some s1) : NoReply s s1 := by
  unfold dc_release_device at h
  split at h
  · cases h
  · simp only at h
    split at h
    · cases h; exact noReply_setDev _ _ _
    · split at h
      · cases h; exact noReply_setDev _ _ _
      · cases h
        refine (noReply_setDev _ _ _).ntrans (noReply_emit _ _ ?_)
        rw [List.filter_cons]
        simp only [Event.is_status_reply]
        exact filter_reply_release_closes _

theorem dc_release_device_keeps {s s1 : State} {p dev : DevId}
    (h : dc_release_device s p = some s1) (hne : p ≠ dev) :
    s1.getDev dev = s.getDev dev := by
  unfold dc_release_device at h
  split at h
  · cases h
  · simp only at h
    split at h
    · cases h; exact getDev_setDev_ne _ hne
    · split at h
      · cases h; exact getDev_setDev_ne _ hne
      · cases h; rw [getDev_emit]; exact getDev_setDev_ne _ hne

theorem dc_remove_device_detach_quiet {s s1 : State} {dev : DevId} {d : Device}
    (hfr : d.freed = false) (h : dc_remove_device_detach s dev d = some s1) : Quiet s s1 := by
  unfold dc_remove_device_detach at h
  split at h
  · cases h; exact Quiet.qrefl _
  · split at h
    · cases h
    · rename_i s2 hs2
      cases h
      exact (dc_release_devhost_quiet hs2).qtrans (quiet_setDev _ _ _ (by exact hfr))

theorem dc_remove_device_detach_getDev {s s1 : State} {dev : DevId} {d : Device}
    (hd : s.getDev dev = some d) (h : dc_remove_device_detach s dev d = some s1) :
    ∃ d1, s1.getDev dev = some d1 ∧ d1.parent = d.parent := by
  unfold dc_remove_device_detach at h
  split at h
  · cases h; exact ⟨d, hd, rfl⟩
  · split at h
    · cases h
    · rename_i s2 hs2
      cases h
      have hq := (dc_release_devhost_quiet hs2).1 dev d hd
      obtain ⟨y, hy⟩ := hq
      have hfr := getDev_freed hd
      exact ⟨_, getDev_setDev_self (getDev_lt hy) (by exact hfr), rfl⟩

theorem dc_remove_device_unlink_noReply {s s1 : State} {dev : DevId}
    (h : dc_remove_device_unlink s dev = some s1) : NoReply s s1 := by
  unfold dc_remove_device_unlink at h
  split at h
  · cases h
  · split at h
    · cases h; exact NoReply.nrefl _
    · split at h
      · cases h
      · simp only at h
        split at h
        · cases h
        · refine NoReply.ntrans ?_ (dc_release_device_noReply h)
          refine NoReply.ntrans ?_ (noReply_setDev _ _ _)
          split
          · exact noReply_setDev _ _ _
          · exact noReply_setDev _ _ _

theorem dc_remove_device_unlink_keeps {s s1 : State} {dev : DevId} {d : Device}
    (hd : s.getDev dev = some d) (hne : d.parent ≠ some dev)
    (h : dc_remove_device_unlink s dev = some s1) : (s1.getDev dev).isSome = true := by
  unfold dc_remove_device_unlink at h
  rw [hd] at h
  simp only at h
  split at h
  · cases h; rw [hd]; rfl
  · rename_i p hp
    have hpd : p ≠ dev := fun e => hne (by rw [hp, e])
    split at h
    · cases h
    · split at h
      · cases h
      · rename_i d1 hd1
        rw [dc_release_device_keeps h hpd]
        rw [getDev_setDev_self (by simpa using getDev_lt hd1)
          (by have hfr := getDev_freed hd1; exact hfr)]
        rfl

theorem dc_remove_device_noReply {s s1 : State} {dev : DevId} {r : Int}
    (h : dc_remove_device s dev = some (r, s1)) : NoReply s s1 := by
  unfold dc_remove_device at h
  split at h
  · cases h
  · rename_i d hd
    split at h
    · cases h; exact NoReply.nrefl _
    · split at h
      · cases h; exact NoReply.nrefl _
      · simp only at h
        split at h
        · cases h
        · rename_i s2 hs2
          split at h
          · cases h
          · rename_i s3 hs3
            cases h
            have hfr := getDev_freed hd
            exact ((((noReply_setDev _ _ _).ntrans (noReply_emit _ _ (by rfl))).ntrans
              (dc_remove_device_detach_quiet (by exact hfr) hs2).2).ntrans
              (dc_remove_device_unlink_noReply hs3))

theorem dc_remove_device_keeps {s s1 : State} {dev : DevId} {d : Device} {r : Int}
    (hd : s.getDev dev = some d) (hne : d.parent ≠ some dev)
    (h : dc_remove_device s dev = some (r, s1)) : (s1.getDev dev).isSome = true := by
  unfold dc_remove_device at h
  rw [hd] at h
  simp only at h
  split at h
  · cases h; rw [hd]; rfl
  · split at h
    · cases h; rw [hd]; rfl
    · split at h
      · cases h
      · rename_i s2 hs2
        split at h
        · cases h
        · rename_i s3 hs3
          cases h
          have hfr := getDev_freed hd
          have h1 : ((s.setDev dev { d with flags := { d.flags with dead := true } }).emit
              [Event.do_unpublish dev]).getDev dev =
              some { d with flags := { d.flags with dead := true } } := by
            rw [getDev_emit]
            exact getDev_setDev_self (getDev_lt hd) (by exact hfr)
          obtain ⟨d2, hd2, hpar⟩ := dc_remove_device_detach_getDev h1 hs2
          exact dc_remove_device_unlink_keeps hd2 (by rw [hpar]; exact hne) hs3

theorem reply_done_once {pf : Platform} {s s1 : State} {dev : DevId} {d : Device}
    (txid : Nat) (r : Int) (hd : s.getDev dev = some d) (hq : Quiet s s1) :
    ∃ r1 s2 es, reply_done pf s1 dev txid r = some (r1, s2) ∧ s2.trace = s.trace ++ es ∧
      ∃ d1 st, s2.getDev dev = some d1 ∧
        es.filter Event.is_status_reply = [Event.write_status d1.hrpc txid st] := by
  obtain ⟨d1, hd1⟩ := hq.1 dev d hd
  obtain ⟨es, ht, hf⟩ := hq.2
  unfold reply_done
  rw [hd1]
  simp only
  split
  · refine ⟨_, _, es ++ [Event.write_status d1.hrpc txid r], rfl, ?_, d1, r, ?_, ?_⟩
    · simp [State.emit, ht]
    · rw [getDev_emit]; exact hd1
    · rw [List.filter_append, hf]; rfl
  · refine ⟨_, _, es ++ [Event.write_status d1.hrpc txid r], rfl, ?_, d1, r, ?_, ?_⟩
    · simp [State.emit, ht]
    · rw [getDev_emit]; exact hd1
    · rw [List.filter_append, hf]; rfl

/-- C11 (amended): for a live device that is not DEAD and a message that
`mx_channel_read` delivers and `dc_msg_unpack` accepts, `dc_handle_device_read`
returns, and the actions it adds to the trace hold exactly one status reply,
written on the channel of the device and carrying the txid of the request, when
the op is not STATUS, and no status reply when the op is STATUS. -/
theorem dc_handle_device_read_one_reply (cfg : Config) (pf : Platform) (s : State)
    (dev : DevId) (d : Device)
    (hd : s.getDev dev = some d) (hlive : d.flags.dead = false)
    (hread : 0 ≤ pf.channel_read) (hunp : 0 ≤ pf.msg_unpack)
    (hdef : request_defined cfg pf s dev d) :
    ∃ r s1 es, dc_handle_device_read cfg pf s dev = some (r, s1) ∧
      s1.trace = s.trace ++ es ∧
      (pf.msg.op = Op.STATUS → es.filter Event.is_status_reply = []) ∧
      (pf.msg.op ≠ Op.STATUS → ∃ d1 st, s1.getDev dev = some d1 ∧
        es.filter Event.is_status_reply = [Event.write_status d1.hrpc pf.msg.txid st]) := by
  have hq0 := drop_handles_quiet s pf.msg (pf.hin.take 2)
  unfold dc_handle_device_read
  rw [hd]
  simp only [hlive, Bool.false_eq_true, if_false, not_lt.2 hread, not_lt.2 hunp]
  unfold request_defined at hdef
  cases hop : pf.msg.op with
  | ADD_DEVICE =>
    rw [hop] at hdef
    simp only at hdef ⊢
    obtain ⟨⟨r, s1⟩, hrun⟩ := Option.isSome_iff_exists.1 hdef
    rw [hrun]
    simp only
    have hq1 := hq0.qtrans (dc_add_device_quiet hrun)
    have hq2 : Quiet s (if r < 0 then close_handles s1
        (drop_handles s pf.msg (pf.hin.take 2)).2 else s1) := by
      split
      · exact hq1.qtrans (close_handles_quiet _ _)
      · exact hq1
    obtain ⟨r1, s2, es, h1, h2, h3⟩ := reply_done_once pf.msg.txid r hd hq2
    refine ⟨r1, s2, es, h1, h2, ?_, fun _ => h3⟩
    intro h; cases h
  | REMOVE_DEVICE =>
    rw [hop] at hdef
    simp only at hdef ⊢
    obtain ⟨⟨r, s1⟩, hrun⟩ := Option.isSome_iff_exists.1 hdef.1
    rw [hrun]
    simp only
    have hd0 : (drop_handles s pf.msg (pf.hin.take 2)).1.getDev dev = some d := by
      rw [drop_handles_getDev]; exact hd
    obtain ⟨d1, hd1⟩ := Option.isSome_iff_exists.1 (dc_remove_device_keeps hd0 hdef.2 hrun)
    obtain ⟨es, ht, hf⟩ := hq0.2.ntrans (dc_remove_device_noReply hrun)
    rw [hd1]
    refine ⟨_, _, es ++ [Event.write_status d1.hrpc pf.msg.txid NO_ERROR], rfl, ?_, ?_, ?_⟩
    · simp [State.emit, ht]
    · intro h; cases h
    · intro _
      refine ⟨d1, NO_ERROR, ?_, ?_⟩
      · rw [getDev_emit]; exact hd1
      · rw [List.filter_append, hf]; rfl
  | BIND_DEVICE =>
    rw [hop] at hdef
    simp only at hdef ⊢
    obtain ⟨⟨r, s1⟩, hrun⟩ := Option.isSome_iff_exists.1 hdef
    rw [hrun]
    simp only
    obtain ⟨r1, s2, es, h1, h2, h3⟩ :=
      reply_done_once pf.msg.txid r hd (hq0.qtrans (dc_bind_device_quiet hrun))
    refine ⟨r1, s2, es, h1, h2, ?_, fun _ => h3⟩
    intro h; cases h
  | REBIND_DEVICE =>
    simp only [dc_rebind_device]
    obtain ⟨r1, s2, es, h1, h2, h3⟩ := reply_done_once pf.msg.txid ERR_NOT_SUPPORTED hd hq0
    refine ⟨r1, s2, es, h1, h2, ?_, fun _ => h3⟩
    intro h; cases h
  | DM_COMMAND =>
    rw [hop] at hdef
    simp only at hdef ⊢
    obtain ⟨⟨r, s1⟩, hrun⟩ := Option.isSome_iff_exists.1 hdef
    rw [hrun]
    simp only
    obtain ⟨r1, s2, es, h1, h2, h3⟩ :=
      reply_done_once pf.msg.txid r hd (hq0.qtrans (handle_dmctl_write_quiet hrun))
    refine ⟨r1, s2, es, h1, h2, ?_, fun _ => h3⟩
    intro h; cases h
  | STATUS =>
    simp only
    obtain ⟨es, ht, hf⟩ := hq0.2
    split
    · exact ⟨_, _, es, rfl, ht, fun _ => hf, fun h => absurd rfl h⟩
    · exact ⟨_, _, es, rfl, ht, fun _ => hf, fun h => absurd rfl h⟩
  | CREATE_DEVICE =>
    simp only
    obtain ⟨r1, s2, es, h1, h2, h3⟩ := reply_done_once pf.msg.txid ERR_NOT_SUPPORTED hd hq0
    refine ⟨r1, s2, es, h1, h2, ?_, fun _ => h3⟩
    intro h; cases h
  | BIND_DRIVER =>
    simp only
    obtain ⟨r1, s2, es, h1, h2, h3⟩ := reply_done_once pf.msg.txid ERR_NOT_SUPPORTED hd hq0
    refine ⟨r1, s2, es, h1, h2, ?_, fun _ => h3⟩
    intro h; cases h
  | other n =>
    simp only
    obtain ⟨r1, s2, es, h1, h2, h3⟩ := reply_done_once pf.msg.txid ERR_NOT_SUPPORTED hd hq0
    refine ⟨r1, s2, es, h1, h2, ?_, fun _ => h3⟩
    intro h; cases h

theorem dc_handle_device_read_one_reply_witness :
    ∃ r s1 es, dc_handle_device_read sample_cfg remove_request sample_state 3 = some (r, s1) ∧
      s1.trace = sample_state.trace ++ es ∧
      (remove_request.msg.op = Op.STATUS → es.filter Event.is_status_reply = []) ∧
      (remove_request.msg.op ≠ Op.STATUS → ∃ d1 st, s1.getDev 3 = some d1 ∧
        es.filter Event.is_status_reply =
          [Event.write_status d1.hrpc remove_request.msg.txid st]) :=
  dc_handle_device_read_one_reply sample_cfg remove_request sample_state 3
    { name := "eth", protocol_id := 42, parent := some 0, host := some 0,
      hrpc := 20, ph_handle := 20, refcount := 1, work_op := WORK_DEVICE_ADDED }
    rfl rfl (by decide) (by decide) ⟨rfl, by decide⟩

/-- C11 (counterexample): the device 3 of `bound_state` reads a `BIND_DEVICE`
message with txid 5 that `dc_msg_unpack` rejects: `dc_handle_device_read`
returns `ERR_INTERNAL` and the state, trace included, is unchanged, so no
status reply was written for a message whose op is not STATUS. -/
theorem unpack_failure_gets_no_reply :
    dc_handle_device_read sample_cfg { bind_request with msg_unpack := -1 } bound_state 3 =
      some (ERR_INTERNAL, bound_state) ∧
    bind_request.msg.op = Op.BIND_DEVICE ∧
    bound_state.trace.filter Event.is_status_reply = [] :=
  ⟨rfl, rfl, rfl⟩

/-! ## Malformed frames -/

/-- C12 (amended): a device that is not DEAD reads a frame.  When
`dc_msg_unpack` accepts it, its op is ADD_DEVICE, its `namelen` is above the
bound or its `datalen` is not a multiple of the size of a property triple, and
the write of the reply succeeds, `dc_handle_device` closes the handles of the
frame, replies `ERR_INVALID_ARGS` and returns `NO_ERROR`; no device or host
record changes.  When `dc_msg_unpack` rejects the frame, no reply is written
and `dc_handle_device` removes the device with `dc_remove_device` and closes
its channel, returning `ERR_INTERNAL`. -/
theorem dc_handle_device_malformed (cfg : Config) (pf : Platform) (s : State) (dev : DevId)
    (d : Device) (peer_closed : Bool)
    (hd : s.getDev dev = some d) (hlive : d.flags.dead = false)
    (hread : 0 ≤ pf.channel_read) :
    (0 ≤ pf.msg_unpack → pf.msg.op = Op.ADD_DEVICE →
      (pf.msg.namelen > cfg.MX_DEVICE_NAME_MAX ∨
        pf.msg.datalen % cfg.sizeof_mx_device_prop_t ≠ 0) →
      0 ≤ pf.status_write →
      ∃ s1, dc_handle_device cfg pf s dev true peer_closed = some (NO_ERROR, s1) ∧
        s1.trace = s.trace ++ (pf.hin.take 2).reverse.map Event.handle_close ++
          [Event.write_status d.hrpc pf.msg.txid ERR_INVALID_ARGS] ∧
        s1.devs = s.devs ∧ s1.hosts = s.hosts) ∧
    (pf.msg_unpack < 0 →
      dc_handle_device cfg pf s dev true peer_closed =
        (match dc_remove_device s dev with
        | none => none
        | some (_, s2) => detach s2 dev ERR_INTERNAL) ∧
      ∀ r s1, dc_handle_device cfg pf s dev true peer_closed = some (r, s1) →
        r = ERR_INTERNAL ∧ NoReply s s1) := by
  constructor
  · intro hunp hop hbad hw
    have hadd : dc_add_device cfg pf s dev (pf.hin.take 2) pf.msg pf.name pf.args pf.data =
        some (ERR_INVALID_ARGS, s) := by
      unfold dc_add_device
      by_cases h0 : (pf.hin.take 2).length = 0
      · rw [if_pos h0]
      · rw [if_neg h0]
        by_cases h1 : pf.msg.namelen > cfg.MX_DEVICE_NAME_MAX
        · rw [if_pos h1]
        · rw [if_neg h1, if_pos (hbad.resolve_left h1)]
    have hdrop : drop_handles s pf.msg (pf.hin.take 2) = (s, pf.hin.take 2) := by
      unfold drop_handles
      simp [hop]
    refine ⟨(close_handles s (pf.hin.take 2)).emit
      [Event.write_status d.hrpc pf.msg.txid ERR_INVALID_ARGS], ?_, ?_, rfl, rfl⟩
    · unfold dc_handle_device dc_handle_device_read
      rw [hd]
      simp only [hlive, Bool.false_eq_true, if_false, not_lt.2 hread, not_lt.2 hunp, if_true,
        hop, hdrop, hadd]
      have hneg : ERR_INVALID_ARGS < 0 := by decide
      simp only [hneg, if_true]
      unfold reply_done close_handles
      rw [getDev_emit, hd]
      simp only [not_lt.2 hw, if_false]
      simp [NO_ERROR]
    · simp [close_handles, State.emit]
  · intro hunp
    have heq : dc_handle_device cfg pf s dev true peer_closed =
        (match dc_remove_device s dev with
        | none => none
        | some (_, s2) => detach s2 dev ERR_INTERNAL) := by
      unfold dc_handle_device dc_handle_device_read
      rw [hd]
      simp only [hlive, Bool.false_eq_true, if_false, not_lt.2 hread, hunp, if_true]
      have hneg : ERR_INTERNAL < 0 := by decide
      have hne : ERR_INTERNAL ≠ ERR_STOP := by decide
      simp only [hneg, hne, if_true, ne_eq, not_false_eq_true]
    refine ⟨heq, ?_⟩
    intro r s1 hrun
    rw [heq] at hrun
    cases hrm : dc_remove_device s dev with
    | none => rw [hrm] at hrun; cases hrun
    | some p =>
      rw [hrm] at hrun
      simp only at hrun
      have hq := dc_remove_device_noReply hrm
      unfold detach at hrun
      split at hrun
      · cases hrun
      · split at hrun
        · cases hrun
          exact ⟨rfl, (hq.ntrans (noReply_emit _ _ (by rfl))).ntrans (noReply_setDev _ _ _)⟩
        · cases hrun
          exact ⟨rfl, hq⟩

theorem dc_handle_device_malformed_witness :
    ∃ s1, dc_handle_device sample_cfg odd_frame sample_state 3 true false =
        some (NO_ERROR, s1) ∧
      s1.trace = sample_state.trace ++ (odd_frame.hin.take 2).reverse.map Event.handle_close ++
        [Event.write_status 20 odd_frame.msg.txid ERR_INVALID_ARGS] ∧
      s1.devs = sample_state.devs ∧ s1.hosts = sample_state.hosts :=
  (dc_handle_device_malformed sample_cfg odd_frame sample_state 3
    { name := "eth", protocol_id := 42, parent := some 0, host := some 0,
      hrpc := 20, ph_handle := 20, refcount := 1, work_op := WORK_DEVICE_ADDED }
    false rfl rfl (by decide)).1 (by decide) rfl (Or.inr (by decide)) (by decide)

/-- C12 (counterexample): the device 3 of `sample_state` reads a frame that
`dc_msg_unpack` rejects with `ERR_INVALID_ARGS`.  `dc_handle_device` returns
`ERR_INTERNAL`, writes no reply, and the device is removed: it is unpublished,
its host is destroyed, and it ends DEAD, without host, without parent and with
its channel closed. -/
theorem unpack_failure_removes_device :
    (sample_state.getDev 3).map (fun x => (x.flags.dead, x.host, x.parent, x.hrpc)) =
      some (false, some 0, some 0, 20) ∧
    (dc_handle_device sample_cfg truncated_frame sample_state 3 true false).map
      (fun r => (r.1, r.2.trace,
        (r.2.getDev 3).map (fun x => (x.flags.dead, x.host, x.parent, x.hrpc)))) =
      some (ERR_INTERNAL,
        [Event.do_unpublish 3, Event.handle_close 10, Event.task_kill 11,
         Event.handle_close 11, Event.handle_close 20],
        some (true, none, none, MX_HANDLE_INVALID)) :=
  ⟨rfl, rfl⟩

/-! ## Host references -/

/-- C21 (failing input): `coordinator` binds `driver/root.so` to `root`; the
shadow of `root` then refers to the new host 0, whose refcount is 0.  A child
added through the shadow raises the refcount to 1 while two devices refer to
the host.  Removing the child drops the refcount to 0 and destroys the host,
although the shadow still refers to it; adding a device through the shadow
afterwards dereferences the destroyed host. -/
theorem host_destroyed_under_shadow :
    root_bound.map (fun r =>
        (r.1, r.2.hosts.map (fun h => (h.refcount, h.freed)), host_users r.2 0)) =
      some (NO_ERROR, [(0, false)], 1) ∧
    root_child_added.map (fun r =>
        (r.1, r.2.hosts.map (fun h => (h.refcount, h.freed)), host_users r.2 0)) =
      some (NO_ERROR, [(1, false)], 2) ∧
    root_child_removed.map (fun r =>
        (r.1, r.2.hosts.map (fun h => (h.refcount, h.freed)), host_users r.2 0,
          (r.2.getDev 2).map (fun d => (d.flags.shadow, d.host)),
          r.2.trace.drop 7)) =
      some (NO_ERROR, [(0, true)], 1, some (true, some 0),
        [Event.handle_close 11, Event.task_kill 12, Event.handle_close 12]) ∧
    root_child_added_again = none := by
  refine ⟨?_, ?_, ?_, ?_⟩ <;> rfl

/-! ## Binding a bus device twice -/

/-- C22 (failing input): the bus device 3 has no `MULTI_BIND`.  The first
`dc_attempt_bind` on it succeeds and sends `BIND_DRIVER` to its shadow 4; a
second `dc_attempt_bind` on the same device succeeds as well and sends another
`BIND_DRIVER` to the shadow, which then has two `PENDING_BIND` entries.  The
device 3 itself never gets `BOUND`. -/
theorem busdev_bound_twice :
    busdev_added.map (fun s =>
        (s.getDev 3).map (fun d => (d.flags.busdev, d.flags.multi_bind, d.flags.bound))) =
      some (some (true, false, false)) ∧
    bound_twice.map (fun r =>
        (r.1, r.2.1, r.2.2.trace.drop 6,
          (r.2.2.getDev 3).map (fun d => (d.shadow, d.flags.multi_bind, d.flags.bound)),
          (r.2.2.getDev 4).map (fun d => (d.flags.shadow, d.flags.bound, d.pending)))) =
      some (NO_ERROR, NO_ERROR,
        [Event.launch "devhost:pci" 30,
         Event.write_create_device 31 "driver/bus-pci.so" "00:01.0"
           sample_cfg.MX_PROTOCOL_PCI [33],
         Event.port_watch 4 34,
         Event.write_bind_driver 34 "driver/nic.so",
         Event.write_bind_driver 34 "driver/other.so"],
        some (some 4, false, false),
        some (true, true,
          [{ op := PendingOp.PENDING_BIND }, { op := PendingOp.PENDING_BIND }])) := by
  refine ⟨?_, ?_⟩ <;> rfl

/-! ## Binding a dead device -/

/-- C23 (failing input): the bus device 3 is removed while its `DEVICE_ADDED`
work item is queued, so it is `DEAD` and still in the work queue.  The main
loop then processes the item: `dc_handle_new_device` finds `nic_driver`
bindable and `dc_attempt_bind` creates the shadow 4 for the dead device,
spawns the host `devhost:pci`, sends `CREATE_DEVICE` and `BIND_DRIVER`, and
sets `BOUND` on the shadow. -/
theorem dead_device_is_bound :
    dead_with_work.map (fun s =>
        ((s.getDev 3).map (fun d => (d.flags.dead, d.shadow)), s.list_pending_work,
          s.devs.length, s.hosts.length)) =
      some (some (true, none), [3], 4, 1) ∧
    dead_processed.map (fun s =>
        (s.trace.drop 10,
          (s.getDev 3).map (fun d => (d.flags.dead, d.shadow)),
          (s.getDev 4).map (fun d => (d.flags.shadow, d.flags.bound, d.parent, d.host)),
          s.hosts.length)) =
      some ([Event.launch "devhost:pci" 30,
             Event.write_create_device 31 "driver/bus-pci.so" "00:01.0"
               sample_cfg.MX_PROTOCOL_PCI [33],
             Event.port_watch 4 34,
             Event.write_bind_driver 34 "driver/nic.so"],
        some (true, some 4),
        some (true, true, some 3, some 1),
        2) := by
  refine ⟨?_, ?_⟩ <;> rfl

/-! ## The work queue -/

theorem work_slot_ne_idle {s : State} {i : DevId} :
    work_slot s i ≠ WORK_IDLE ↔ ∃ d, s.devs[i]? = some d ∧ d.work_op ≠ WORK_IDLE := by
  unfold work_slot
  cases h : s.devs[i]? with
  | none => simp
  | some d => simp

theorem workKeep_refl (s : State) : WorkKeep s s := ⟨rfl, fun _ => rfl⟩

theorem workKeep_trans {a b c : State} (h1 : WorkKeep a b) (h2 : WorkKeep b c) :
    WorkKeep a c :=
  ⟨h2.1.trans h1.1, fun i => (h2.2 i).trans (h1.2 i)⟩

theorem workKeep_of_devs {s s' : State} (hd : s'.devs = s.devs)
    (hl : s'.list_pending_work = s.list_pending_work) : WorkKeep s s' :=
  ⟨hl, fun i => by unfold work_slot; rw [hd]⟩

theorem work_slot_of_getDev {s : State} {j : DevId} {d : Device} (hd : s.getDev j = some d) :
    work_slot s j = d.work_op := by
  unfold work_slot
  rw [(getDev_eq_some.1 hd).1]

theorem work_slot_length (s : State) : work_slot s s.devs.length = WORK_IDLE := by
  unfold work_slot
  rw [List.getElem?_eq_none (Nat.le_refl _)]

theorem workKeep_emit {s0 s : State} (hk : WorkKeep s0 s) (es : List Event) :
    WorkKeep s0 (s.emit es) :=
  workKeep_trans hk (workKeep_of_devs rfl rfl)

theorem workKeep_setHost {s0 s : State} (hk : WorkKeep s0 s) (h : HostId) (x : Devhost) :
    WorkKeep s0 (s.setHost h x) :=
  workKeep_trans hk (workKeep_of_devs rfl rfl)

theorem workKeep_setDev {s0 s : State} {j : DevId} {x : Device} (hk : WorkKeep s0 s)
    (hx : x.work_op = work_slot s0 j) : WorkKeep s0 (s.setDev j x) := by
  refine ⟨hk.1, fun i => ?_⟩
  rw [← hk.2 i]
  by_cases hij : j = i
  · subst hij
    by_cases hlt : j < s.devs.length
    · have h1 : work_slot (s.setDev j x) j = x.work_op := by
        unfold work_slot State.setDev
        simp [List.getElem?_set, hlt]
      rw [h1, hx, hk.2 j]
    · have h1 : (s.setDev j x).devs[j]? = none := by
        unfold State.setDev
        simp [List.getElem?_set, hlt]
      have h2 : s.devs[j]? = none := List.getElem?_eq_none (Nat.le_of_not_lt hlt)
      unfold work_slot
      rw [h1, h2]
  · unfold work_slot State.setDev
    simp [List.getElem?_set, hij]

theorem workKeep_alloc {s0 s : State} (hk : WorkKeep s0 s) (x : Device)
    (hx : x.work_op = WORK_IDLE) : WorkKeep s0 { s with devs := s.devs ++ [x] } := by
  refine ⟨hk.1, fun i => ?_⟩
  rw [← hk.2 i]
  unfold work_slot
  simp only
  rcases Nat.lt_trichotomy i s.devs.length with hlt | heq | hgt
  · rw [List.getElem?_append_left hlt]
  · subst heq
    simp [hx]
  · rw [List.getElem?_eq_none (by simp; omega), List.getElem?_eq_none (by omega)]

theorem workInv_of_keep {s s' : State} (hk : WorkKeep s s') (hi : WorkInv s) : WorkInv s' := by
  refine ⟨by rw [hk.1]; exact hi.1, fun dev => ?_⟩
  rw [hk.1, hi.2 dev, ← work_slot_ne_idle, ← work_slot_ne_idle, hk.2 dev]

theorem workInv_drivers {s : State} (l : List Driver) (hi : WorkInv s) :
    WorkInv { s with list_drivers := l } := hi

theorem dh_bind_driver_keep {pf : Platform} {s s1 : State} {dev : DevId} {libname : String}
    {r : Int} (h : dh_bind_driver pf s dev libname = some (r, s1)) : WorkKeep s s1 := by
  unfold dh_bind_driver at h
  split at h
  · cases h; exact workKeep_refl _
  · split at h
    · cases h; exact workKeep_refl _
    · split at h
      · cases h
      · rename_i d hd
        simp only at h
        split at h
        · cases h; exact workKeep_emit (workKeep_refl _) _
        · cases h
          exact workKeep_setDev (workKeep_emit (workKeep_refl _) _)
            (by rw [work_slot_of_getDev hd])

theorem dc_create_shadow_keep {pf : Platform} {s s1 : State} {dev : DevId}
    {r : Int} (h : dc_create_shadow pf s dev = some (r, s1)) : WorkKeep s s1 := by
  unfold dc_create_shadow at h
  split at h
  · cases h
  · rename_i pr hp
    split at h
    · cases h; exact workKeep_refl _
    · split at h
      · cases h; exact workKeep_refl _
      · cases h
        exact workKeep_setDev (workKeep_alloc (workKeep_refl _) _ rfl)
          (by rw [work_slot_of_getDev hp])

theorem dc_launch_devhost_keep {pf : Platform} {s s1 : State} {host : HostId} {name : String}
    {hrpc : Handle} {r : Int} (h : dc_launch_devhost pf s host name hrpc = some (r, s1)) :
    WorkKeep s s1 := by
  unfold dc_launch_devhost at h
  split at h
  · cases h
  · simp only at h
    split at h
    · cases h; exact workKeep_emit (workKeep_refl _) _
    · cases h; exact workKeep_setHost (workKeep_emit (workKeep_refl _) _) _ _

theorem dc_new_devhost_keep {pf : Platform} {s s1 : State} {name : String}
    {r : Int} {out : Option HostId} (h : dc_new_devhost pf s name = some (r, s1, out)) :
    WorkKeep s s1 := by
  unfold dc_new_devhost at h
  split at h
  · cases h; exact workKeep_refl _
  · simp only at h
    have h0 : WorkKeep s { s with hosts := s.hosts ++ [({} : Devhost)] } :=
      workKeep_of_devs rfl rfl
    split at h
    · cases h; exact workKeep_setHost h0 _ _
    · split at h
      · cases h
      · rename_i r1 s3 hl
        have h3 := workKeep_trans (workKeep_setHost h0 _ _) (dc_launch_devhost_keep hl)
        split at h
        · split at h
          · cases h
          · cases h
            exact workKeep_setHost (workKeep_emit h3 _) _ _
        · cases h
          exact h3

theorem dh_create_device_keep {pf : Platform} {s s1 : State} {dev : DevId} {dh : HostId}
    {libname : String} {r : Int} (h : dh_create_device pf s dev dh libname = some (r, s1)) :
    WorkKeep s s1 := by
  unfold dh_create_device at h
  split at h
  · cases h
  · rename_i d hd
    have hslot : d.work_op = work_slot s dev := (work_slot_of_getDev hd).symm
    split at h
    · cases h
    · split at h
      · cases h
      · split at h
        · cases h; exact workKeep_refl _
        · split at h
          · cases h; exact workKeep_refl _
          · simp only at h
            split at h
            · cases h; exact workKeep_emit (workKeep_refl _) _
            · split at h
              · cases h
              · split at h
                · cases h
                  exact workKeep_emit (workKeep_emit (workKeep_refl _) _) _
                · split at h
                  · cases h
                    exact workKeep_emit (workKeep_emit
                      (workKeep_setDev (workKeep_emit (workKeep_refl _) _) (by exact hslot)) _) _
                  · cases h
                    exact workKeep_emit
                      (workKeep_setDev (workKeep_emit (workKeep_refl _) _) (by exact hslot)) _

theorem dc_attempt_bind_busdev_keep {pf : Platform} {s s1 : State} {drv : Driver} {dev : DevId}
    {libname devhostname : String} {r : Int}
    (h : dc_attempt_bind_busdev pf s drv dev libname devhostname = some (r, s1)) :
    WorkKeep s s1 := by
  unfold dc_attempt_bind_busdev at h
  split at h
  · cases h
  · rename_i r1 t1 hcs
    have h1 := dc_create_shadow_keep hcs
    split at h
    · cases h; exact h1
    · split at h
      · cases h
      · split at h
        · cases h
        · rename_i sh hsh
          split at h
          · cases h
          · rename_i shr hshr
            split at h
            · split at h
              · cases h
              · rename_i r2 t2 out hnd
                have h2 : WorkKeep t1 t2 := dc_new_devhost_keep hnd
                simp only at h
                split at h
                · cases h
                  exact workKeep_trans h1 h2
                · have h3 : WorkKeep t1 (t2.setDev sh { shr with host := out }) :=
                    workKeep_setDev h2 (by rw [work_slot_of_getDev hshr])
                  split at h
                  · cases h
                  · split at h
                    · cases h
                    · rename_i r3 t3 hcd
                      have h4 := dh_create_device_keep hcd
                      split at h
                      · cases h
                        exact workKeep_trans (workKeep_trans h1 h3) h4
                      · exact workKeep_trans (workKeep_trans (workKeep_trans h1 h3) h4)
                          (dh_bind_driver_keep h)
            · exact workKeep_trans h1 (dh_bind_driver_keep h)

theorem dc_attempt_bind_keep {cfg : Config} {pf : Platform} {s s1 : State} {drv : Driver}
    {dev : DevId} {r : Int} (h : dc_attempt_bind cfg pf s drv dev = some (r, s1)) :
    WorkKeep s s1 := by
  unfold dc_attempt_bind at h
  split at h
  · cases h
  · split at h
    · cases h; exact workKeep_refl _
    · split at h
      · split at h
        · cases h; exact workKeep_refl _
        · exact dh_bind_driver_keep h
      · split at h
        · exact dc_attempt_bind_busdev_keep h
        · split at h
          · exact dc_attempt_bind_busdev_keep h
          · split at h
            · exact dc_attempt_bind_busdev_keep h
            · cases h; exact workKeep_refl _

theorem dc_handle_new_device_loop_keep {cfg : Config} {pf : Platform} {s s1 : State}
    {dev : DevId} {d : Device} (l : List Driver)
    (h : dc_handle_new_device_loop cfg pf s dev d l = some s1) : WorkKeep s s1 := by
  induction l with
  | nil =>
    unfold dc_handle_new_device_loop at h
    cases h; exact workKeep_refl _
  | cons drv rest ih =>
    unfold dc_handle_new_device_loop at h
    split at h
    · split at h
      · cases h
      · rename_i r t hb
        cases h
        exact dc_attempt_bind_keep hb
    · exact ih h

theorem dc_handle_new_device_keep {cfg : Config} {pf : Platform} {s s1 : State} {dev : DevId}
    (h : dc_handle_new_device cfg pf s dev = some s1) : WorkKeep s s1 := by
  unfold dc_handle_new_device at h
  split at h
  · cases h; exact workKeep_refl _
  · split at h
    · cases h
    · exact dc_handle_new_device_loop_keep _ h

theorem coordinator_new_driver_keep {cfg : Config} {pf : Platform} {s s1 : State}
    {drv : Driver} (h : coordinator_new_driver cfg pf s drv = some s1) : WorkKeep s s1 := by
  unfold coordinator_new_driver at h
  simp only at h
  have h0 : WorkKeep s { s with list_drivers := s.list_drivers ++ [drv] } :=
    workKeep_of_devs rfl rfl
  split at h
  · split at h
    · cases h
    · rename_i r t hb
      cases h
      exact workKeep_trans h0 (dc_attempt_bind_keep hb)
  · split at h
    · split at h
      · cases h
      · rename_i r t hb
        cases h
        exact workKeep_trans h0 (dc_attempt_bind_keep hb)
    · cases h; exact h0

theorem dc_release_devhost_keep {s s1 : State} {h : HostId}
    (hr : dc_release_devhost s h = some s1) : WorkKeep s s1 := by
  unfold dc_release_devhost at hr
  split at hr
  · cases hr
  · simp only at hr
    split at hr
    · cases hr; exact workKeep_setHost (workKeep_refl _) _ _
    · cases hr; exact workKeep_emit (workKeep_setHost (workKeep_refl _) _ _) _

theorem dc_release_device_keep {s s1 : State} {p : DevId}
    (h : dc_release_device s p = some s1) : WorkKeep s s1 := by
  unfold dc_release_device at h
  split at h
  · cases h
  · rename_i d hd
    have hslot : d.work_op = work_slot s p := (work_slot_of_getDev hd).symm
    simp only at h
    split at h
    · cases h; exact workKeep_setDev (workKeep_refl _) (by exact hslot)
    · split at h
      · cases h; exact workKeep_setDev (workKeep_refl _) (by exact hslot)
      · cases h
        exact workKeep_emit (workKeep_setDev (workKeep_refl _) (by exact hslot)) _

theorem dc_remove_device_detach_keep {s s1 : State} {dev : DevId} {d : Device}
    (hslot : d.work_op = work_slot s dev)
    (h : dc_remove_device_detach s dev d = some s1) : WorkKeep s s1 := by
  unfold dc_remove_device_detach at h
  split at h
  · cases h; exact workKeep_refl _
  · split at h
    · cases h
    · rename_i s2 hs2
      cases h
      exact workKeep_setDev (dc_release_devhost_keep hs2) (by exact hslot)

theorem dc_remove_device_unlink_keep {s s1 : State} {dev : DevId}
    (h : dc_remove_device_unlink s dev = some s1) : WorkKeep s s1 := by
  unfold dc_remove_device_unlink at h
  split at h
  · cases h
  · rename_i d hd
    split at h
    · cases h; exact workKeep_refl _
    · rename_i p hp
      split at h
      · cases h
      · rename_i pr hpr
        have hps : pr.work_op = work_slot s p := (work_slot_of_getDev hpr).symm
        simp only at h
        have h1 : WorkKeep s (if d.flags.shadow = true then s.setDev p { pr with shadow := none }
            else s.setDev p { pr with children := pr.children.erase dev }) := by
          split
          · exact workKeep_setDev (workKeep_refl _) (by exact hps)
          · exact workKeep_setDev (workKeep_refl _) (by exact hps)
        split at h
        · cases h
        · rename_i d1 hd1
          have h2 := workKeep_trans h1
            (workKeep_setDev (workKeep_refl _) (x := { d1 with parent := none })
              (by rw [work_slot_of_getDev hd1]))
          exact workKeep_trans h2 (dc_release_device_keep h)

theorem dc_remove_device_keep {s s1 : State} {dev : DevId} {r : Int}
    (h : dc_remove_device s dev = some (r, s1)) : WorkKeep s s1 := by
  unfold dc_remove_device at h
  split at h
  · cases h
  · rename_i d hd
    split at h
    · cases h; exact workKeep_refl _
    · split at h
      · cases h; exact workKeep_refl _
      · simp only at h
        have h1 : WorkKeep s ((s.setDev dev
            { d with flags := { d.flags with dead := true } }).emit [Event.do_unpublish dev]) :=
          workKeep_emit (workKeep_setDev (workKeep_refl _)
            (by rw [work_slot_of_getDev hd])) _
        split at h
        · cases h
        · rename_i s2 hs2
          have h2 := dc_remove_device_detach_keep
            (by rw [h1.2 dev, work_slot_of_getDev hd]) hs2
          split at h
          · cases h
          · rename_i s3 hs3
            cases h
            exact workKeep_trans (workKeep_trans h1 h2) (dc_remove_device_unlink_keep hs3)

theorem workInv_iff {s : State} :
    WorkInv s ↔ s.list_pending_work.Nodup ∧
      ∀ i, i ∈ s.list_pending_work ↔ work_slot s i ≠ WORK_IDLE := by
  unfold WorkInv
  constructor
  · intro h
    exact ⟨h.1, fun i => (h.2 i).trans work_slot_ne_idle.symm⟩
  · intro h
    exact ⟨h.1, fun i => (h.2 i).trans work_slot_ne_idle⟩

theorem work_slot_setDev {s : State} {j : DevId} (x : Device) (hlt : j < s.devs.length)
    (i : DevId) :
    work_slot (s.setDev j x) i = if i = j then x.work_op else work_slot s i := by
  unfold work_slot State.setDev
  by_cases hij : i = j
  · subst hij
    simp [List.getElem?_set, hlt]
  · simp [List.getElem?_set, hij, Ne.symm hij]

theorem work_slot_with_work (s : State) (l : List DevId) (i : DevId) :
    work_slot { s with list_pending_work := l } i = work_slot s i := rfl

theorem workInv_queue_work {s s1 : State} {dev : DevId} {op arg : Nat} (hi : WorkInv s)
    (hop : op ≠ WORK_IDLE) (h : queue_work s dev op arg = some s1) : WorkInv s1 := by
  rw [workInv_iff] at hi ⊢
  unfold queue_work at h
  split at h
  · cases h
  · rename_i d hd
    split at h
    · cases h
    · rename_i hidle
      have hidle2 : d.work_op = WORK_IDLE := not_not.1 hidle
      cases h
      have hlt := getDev_lt hd
      have hnot : dev ∉ s.list_pending_work := by
        intro hmem
        exact (hi.2 dev).1 hmem (by rw [work_slot_of_getDev hd]; exact hidle2)
      refine ⟨?_, fun i => ?_⟩
      · show (s.list_pending_work ++ [dev]).Nodup
        rw [List.nodup_append]
        refine ⟨hi.1, List.nodup_singleton _, ?_⟩
        intro a ha hb
        rw [List.mem_singleton] at hb
        subst hb
        exact hnot ha
      · show i ∈ s.list_pending_work ++ [dev] ↔ _
        rw [work_slot_with_work, work_slot_setDev _ hlt, List.mem_append, List.mem_singleton]
        by_cases hij : i = dev
        · subst hij
          simp [hop]
        · simp only [hij, or_false, if_false]
          exact hi.2 i

theorem workInv_dequeue {s : State} {dev : DevId} {rest : List DevId} {d : Device}
    (hi : WorkInv s) (hl : s.list_pending_work = dev :: rest) (hd : s.getDev dev = some d) :
    WorkInv (({ s with list_pending_work := rest } : State).setDev dev
      { d with work_op := WORK_IDLE }) := by
  rw [workInv_iff] at hi ⊢
  have hnd : (dev :: rest).Nodup := by rw [← hl]; exact hi.1
  have hlt := getDev_lt hd
  refine ⟨(List.nodup_cons.1 hnd).2, fun i => ?_⟩
  show i ∈ rest ↔ _
  rw [work_slot_setDev (s := { s with list_pending_work := rest }) _ hlt]
  by_cases hij : i = dev
  · subst hij
    simp only [if_true]
    constructor
    · intro hmem; exact absurd hmem (List.nodup_cons.1 hnd).1
    · intro hne; exact absurd rfl hne
  · simp only [hij, if_false, work_slot_with_work]
    rw [← hi.2 i, hl, List.mem_cons]
    simp [hij]

theorem dc_add_device_link_workInv {s0 s s1 : State} {dev : DevId} {d : Device}
    {parent : Option DevId} {r : Int} (hk : WorkKeep s0 s) (hi : WorkInv s0)
    (hd : d.work_op = work_slot s0 dev)
    (h : dc_add_device_link s dev d parent = some (r, s1)) : WorkInv s1 := by
  unfold dc_add_device_link at h
  split at h
  · cases h
  · rename_i t1 ht1
    have hk1 : WorkKeep s0 t1 :=
      workKeep_trans hk (workKeep_of_devs (host_addref_devs ht1).1 (host_addref_devs ht1).2.1)
    split at h
    · cases h
    · rename_i p
      simp only at h
      have hk2 : WorkKeep s0 (t1.setDev dev { d with refcount := 1, parent := some p }) :=
        workKeep_setDev hk1 (by exact hd)
      split at h
      · cases h
      · rename_i pr hpr
        split at h
        · cases h
        · rename_i t4 hq
          cases h
          exact workInv_queue_work
            (workInv_of_keep
              (workKeep_setDev hk2 (by rw [← hk2.2 p, work_slot_of_getDev hpr])) hi)
            (by decide) hq

theorem dc_add_device_workInv {cfg : Config} {pf : Platform} {s s1 : State} {parent : DevId}
    {handle : List Handle} {msg : Msg} {name args : String} {data : List Nat} {r : Int}
    (hi : WorkInv s)
    (h : dc_add_device cfg pf s parent handle msg name args data = some (r, s1)) :
    WorkInv s1 := by
  unfold dc_add_device at h
  split at h
  · cases h; exact hi
  · split at h
    · cases h; exact hi
    · split at h
      · cases h; exact hi
      · split at h
        · cases h; exact hi
        · split at h
          · cases h
          · rename_i pr hpr
            simp only at h
            have hnew : (new_device cfg pr handle msg name args data).work_op =
                work_slot s s.devs.length := by
              rw [work_slot_length]; rfl
            have hk1 : WorkKeep s (({ s with devs := s.devs ++
                [new_device cfg pr handle msg name args data] } : State).emit
                [Event.do_publish (if pr.flags.shadow then pr.parent else some parent)
                  s.devs.length]) :=
              workKeep_emit (workKeep_alloc (workKeep_refl _) _ rfl) _
            split at h
            · cases h
              exact workInv_of_keep (workKeep_setDev hk1 (by exact hnew)) hi
            · have hk2 : WorkKeep s
                  ((((({ s with devs := s.devs ++
                    [new_device cfg pr handle msg name args data] } : State).emit
                    [Event.do_publish (if pr.flags.shadow then pr.parent else some parent)
                      s.devs.length]).setDev s.devs.length
                    { new_device cfg pr handle msg name args data with
                      ph_handle := handle.getD 0 MX_HANDLE_INVALID })).emit
                    [Event.port_watch s.devs.length (handle.getD 0 MX_HANDLE_INVALID)]) :=
                workKeep_emit (workKeep_setDev hk1 (by exact hnew)) _
              split at h
              · cases h
                exact workInv_of_keep
                  (workKeep_setDev (workKeep_emit hk2 _) (by exact hnew)) hi
              · exact dc_add_device_link_workInv hk2 hi (by exact hnew) h

theorem process_work_workInv {cfg : Config} {pf : Platform} {s s1 : State} {dev : DevId}
    {rest : List DevId} (hi : WorkInv s) (hl : s.list_pending_work = dev :: rest)
    (h : process_work cfg pf { s with list_pending_work := rest } dev = some s1) :
    WorkInv s1 := by
  unfold process_work at h
  split at h
  · cases h
  · rename_i d hd
    have hd0 : s.getDev dev = some d := hd
    have h1 := workInv_dequeue hi hl hd0
    simp only at h
    split at h
    · exact workInv_of_keep (dc_handle_new_device_keep h) h1
    · cases h; exact h1

theorem coordinator_idle_step_workInv {cfg : Config} {pf : Platform} {s s1 : State}
    (hi : WorkInv s) (h : coordinator_idle_step cfg pf s = some s1) : WorkInv s1 := by
  unfold coordinator_idle_step at h
  split at h
  · cases h; exact hi
  · rename_i dev rest hl
    exact process_work_workInv hi hl h

theorem workInv_init (cfg : Config) : WorkInv (init_state cfg) := by
  refine ⟨List.nodup_nil, fun dev => ?_⟩
  constructor
  · intro h; cases h
  · rintro ⟨d, hd, hne⟩
    exfalso
    rcases dev with _ | _ | n
    · simp [init_state] at hd
      rw [← hd] at hne
      exact hne rfl
    · simp [init_state] at hd
      rw [← hd] at hne
      exact hne rfl
    · simp [init_state] at hd

theorem dc_add_device_defined (cfg : Config) (pf : Platform) (s : State) (parent : DevId)
    (handle : List Handle) (msg : Msg) (name args : String) (data : List Nat)
    (pr prr : Device) (p : DevId)
    (hpar : s.getDev parent = some pr)
    (hreal : (if pr.flags.shadow then pr.parent else some parent) = some p)
    (hprr : s.getDev p = some prr)
    (hhost : ∀ h, pr.host = some h → (s.getHost h).isSome) :
    (dc_add_device cfg pf s parent handle msg name args data).isSome = true := by
  by_cases hh : handle.length = 0
  · unfold dc_add_device; rw [if_pos hh]; rfl
  by_cases hn : msg.namelen > cfg.MX_DEVICE_NAME_MAX
  · unfold dc_add_device; rw [if_neg hh, if_pos hn]; rfl
  by_cases hdl : msg.datalen % cfg.sizeof_mx_device_prop_t ≠ 0
  · unfold dc_add_device; rw [if_neg hh, if_neg hn, if_pos hdl]; rfl
  by_cases hc : (!pf.calloc_device) = true
  · unfold dc_add_device; rw [if_neg hh, if_neg hn, if_neg hdl, if_pos hc]; rfl
  by_cases hp : pf.do_publish < 0
  · unfold dc_add_device
    rw [if_neg hh, if_neg hn, if_neg hdl, if_neg hc, hpar]
    simp only [hp, if_true]
    rfl
  by_cases hw : pf.port_watch < 0
  · unfold dc_add_device
    rw [if_neg hh, if_neg hn, if_neg hdl, if_neg hc, hpar]
    simp only [hp, hw, if_true, if_false]
    rfl
  have hplt := getDev_lt hprr
  have hne : p ≠ s.devs.length := Nat.ne_of_lt hplt
  let d := new_device cfg pr handle msg name args data
  let d1 : Device := { d with ph_handle := handle.getD 0 MX_HANDLE_INVALID }
  let t : State :=
    (((({ s with devs := s.devs ++ [d] } : State).emit
        [Event.do_publish (some p) s.devs.length]).setDev s.devs.length d1).emit
        [Event.port_watch s.devs.length d1.ph_handle])
  have htlen : t.devs.length = s.devs.length + 1 := by simp [t]
  have htp : t.getDev p = some prr := by
    simp only [t, getDev_emit]
    rw [getDev_setDev_ne _ (Ne.symm hne), getDev_emit, getDev_alloc_lt _ hplt]
    exact hprr
  obtain ⟨t1, ht1⟩ := @host_addref_some t d1.host
    (fun h hh1 => by
      have : pr.host = some h := hh1
      simpa [t] using hhost h this)
  have hdlt : s.devs.length < t.devs.length := by rw [htlen]; exact Nat.lt_succ_self _
  have hlink := dc_add_device_link_ok t t1 s.devs.length d1 p prr hdlt htp hne rfl rfl ht1
  have hrun : dc_add_device cfg pf s parent handle msg name args data =
      dc_add_device_link t s.devs.length d1 (some p) := by
    unfold dc_add_device
    rw [if_neg hh, if_neg hn, if_neg hdl, if_neg hc, hpar]
    simp only [hp, hw, if_false, hreal]
  rw [hrun, hlink]
  rfl

theorem workReach_workInv {cfg : Config} {s : State} (hr : WorkReach cfg s) : WorkInv s := by
  induction hr with
  | init => exact workInv_init cfg
  | add pf s parent handle msg name args data r s1 _ h ih => exact dc_add_device_workInv ih h
  | remove s dev r s1 _ h ih => exact workInv_of_keep (dc_remove_device_keep h) ih
  | work pf s s1 _ h ih => exact coordinator_idle_step_workInv ih h
  | driver pf s drv s1 _ h ih => exact workInv_of_keep (coordinator_new_driver_keep h) ih
  | bind pf s drv dev r s1 _ h ih => exact workInv_of_keep (dc_attempt_bind_keep h) ih

theorem process_work_clears_first (cfg : Config) (pf : Platform) (s : State) (dev : DevId)
    (d : Device) (hd : s.getDev dev = some d) :
    process_work cfg pf s dev =
      (if d.work_op = WORK_DEVICE_ADDED then
        dc_handle_new_device cfg pf (s.setDev dev { d with work_op := WORK_IDLE }) dev
      else some (s.setDev dev { d with work_op := WORK_IDLE })) ∧
    ((s.setDev dev { d with work_op := WORK_IDLE }).getDev dev).map (fun x => x.work_op) =
      some WORK_IDLE := by
  constructor
  · unfold process_work
    rw [hd]
  · rw [getDev_setDev_self (getDev_lt hd) (by have hfr := getDev_freed hd; exact hfr)]
    rfl

/-- C24: in every state the coordinator reaches from the initial state through
`dc_add_device`, `dc_remove_device`, the work step of the main loop, and the
registration and binding of drivers, no device occurs twice in
`list_pending_work`, and a device is in the list exactly when the op of its work
slot is not `WORK_IDLE`.  A `dc_add_device` whose pointers are valid returns, so
the assertion of `queue_work` holds where it is called; and `process_work`
stores `WORK_IDLE` in the slot before it runs the handler of the op. -/
theorem work_queue_invariant (cfg : Config) (s : State) (hr : WorkReach cfg s) :
    s.list_pending_work.Nodup ∧
    (∀ dev, dev ∈ s.list_pending_work ↔
      ∃ d, s.devs[dev]? = some d ∧ d.work_op ≠ WORK_IDLE) ∧
    (∀ (pf : Platform) (parent : DevId) (handle : List Handle) (msg : Msg)
        (name args : String) (data : List Nat) (pr prr : Device) (p : DevId),
      s.getDev parent = some pr →
      (if pr.flags.shadow then pr.parent else some parent) = some p →
      s.getDev p = some prr →
      (∀ h, pr.host = some h → (s.getHost h).isSome) →
      (dc_add_device cfg pf s parent handle msg name args data).isSome = true) ∧
    (∀ (pf : Platform) (dev : DevId) (d : Device), s.getDev dev = some d →
      process_work cfg pf s dev =
        (if d.work_op = WORK_DEVICE_ADDED then
          dc_handle_new_device cfg pf (s.setDev dev { d with work_op := WORK_IDLE }) dev
        else some (s.setDev dev { d with work_op := WORK_IDLE })) ∧
      ((s.setDev dev { d with work_op := WORK_IDLE }).getDev dev).map (fun x => x.work_op) =
        some WORK_IDLE) := by
  have hi := workReach_workInv hr
  refine ⟨hi.1, hi.2, ?_, ?_⟩
  · intro pf parent handle msg name args data pr prr p hpar hreal hprr hhost
    exact dc_add_device_defined cfg pf s parent handle msg name args data pr prr p
      hpar hreal hprr hhost
  · intro pf dev d hd
    exact process_work_clears_first cfg pf s dev d hd

theorem work_queue_invariant_witness :
    one_queued.list_pending_work = [2] ∧
    one_queued.list_pending_work.Nodup ∧
    (∀ dev, dev ∈ one_queued.list_pending_work ↔
      ∃ d, one_queued.devs[dev]? = some d ∧ d.work_op ≠ WORK_IDLE) :=
  ⟨rfl,
   (work_queue_invariant sample_cfg one_queued
     (WorkReach.add ok_platform (init_state sample_cfg) root_device [7]
       { op := Op.ADD_DEVICE, namelen := 2 } "a" "" [] NO_ERROR one_queued
       WorkReach.init rfl)).1,
   (work_queue_invariant sample_cfg one_queued
     (WorkReach.add ok_platform (init_state sample_cfg) root_device [7]
       { op := Op.ADD_DEVICE, namelen := 2 } "a" "" [] NO_ERROR one_queued
       WorkReach.init rfl)).2.1⟩

/-! ## The device tree in reachable states -/

theorem treeInv_iff_map {s : State} : TreeInv s ↔ TreeInvF (tree_map s) := by
  constructor
  · intro hinv q v hv
    unfold tree_map at hv
    cases hq : s.devs[q]? with
    | none => rw [hq] at hv; cases hv
    | some qr =>
      rw [hq] at hv
      simp only [Option.map_some'] at hv
      cases hv
      obtain ⟨h1, h2, h3, h4⟩ := treeInv_at hinv hq
      refine ⟨h1, h2, ?_, ?_⟩
      · intro c hc
        obtain ⟨cr, hcr, hp, hs⟩ := h3 c hc
        exact ⟨tree_view cr, by unfold tree_map; rw [hcr]; rfl, hp, hs⟩
      · intro c hc
        obtain ⟨cr, hcr, hp, hs⟩ := h4 c hc
        exact ⟨tree_view cr, by unfold tree_map; rw [hcr]; rfl, hp, hs⟩
  · intro hF e he
    have hq : s.devs[e.1]? = some e.2 := List.mk_mem_enum_iff_getElem?.1 he
    have hv : tree_map s e.1 = some (tree_view e.2) := by unfold tree_map; rw [hq]; rfl
    obtain ⟨h1, h2, h3, h4⟩ := hF e.1 _ hv
    refine ⟨h1, h2, ?_, ?_⟩
    · intro c hc
      obtain ⟨w, hw, hp, hs⟩ := h3 c hc
      unfold tree_map at hw
      cases hcr : s.devs[c]? with
      | none => rw [hcr] at hw; cases hw
      | some cr =>
        rw [hcr] at hw
        simp only [Option.map_some'] at hw
        cases hw
        exact ⟨cr, rfl, hp, hs⟩
    · intro c hc
      obtain ⟨w, hw, hp, hs⟩ := h4 c hc
      unfold tree_map at hw
      cases hcr : s.devs[c]? with
      | none => rw [hcr] at hw; cases hw
      | some cr =>
        rw [hcr] at hw
        simp only [Option.map_some'] at hw
        cases hw
        exact ⟨cr, rfl, hp, hs⟩

theorem treeInvF_congr {T T1 : DevId → Option TreeView} (h : ∀ i, T1 i = T i)
    (hi : TreeInvF T) : TreeInvF T1 := by
  have : T1 = T := funext h
  rw [this]; exact hi

theorem treeInvF_leaf {T : DevId → Option TreeView} {n : DevId} (b : Bool)
    (hi : TreeInvF T) (hn : T n = none) :
    TreeInvF (Function.update T n (some { up := none, kids := [], shd := none, isShd := b })) := by
  intro q v hv
  by_cases hq : q = n
  · subst hq
    rw [Function.update_same] at hv
    cases hv
    refine ⟨by simp, List.nodup_nil, ?_, ?_⟩
    · intro c hc; cases hc
    · intro c hc; cases hc
  · rw [Function.update_noteq hq] at hv
    obtain ⟨h1, h2, h3, h4⟩ := hi q v hv
    refine ⟨h1, h2, ?_, ?_⟩
    · intro c hc
      obtain ⟨w, hw, hp⟩ := h3 c hc
      have hcn : c ≠ n := fun e => by rw [e, hn] at hw; cases hw
      exact ⟨w, by rw [Function.update_noteq hcn]; exact hw, hp⟩
    · intro c hc
      obtain ⟨w, hw, hp⟩ := h4 c hc
      have hcn : c ≠ n := fun e => by rw [e, hn] at hw; cases hw
      exact ⟨w, by rw [Function.update_noteq hcn]; exact hw, hp⟩

theorem treeInvF_link_child {T : DevId → Option TreeView} {n p : DevId} {vp : TreeView}
    (hi : TreeInvF T) (hn : T n = none) (hp : T p = some vp) :
    TreeInvF (Function.update
      (Function.update T n (some { up := some p, kids := [], shd := none, isShd := false }))
      p (some { vp with kids := vp.kids ++ [n] })) := by
  have hpn : p ≠ n := fun e => by rw [e, hn] at hp; cases hp
  have hlisted : ∀ q v c, T q = some v → (c ∈ v.kids ∨ v.shd = some c) → c ≠ n := by
    intro q v c hv hc e
    obtain ⟨_, _, h3, h4⟩ := hi q v hv
    rcases hc with hc | hc
    · obtain ⟨w, hw, _⟩ := h3 c hc
      rw [e, hn] at hw; cases hw
    · obtain ⟨w, hw, _⟩ := h4 c hc
      rw [e, hn] at hw; cases hw
  obtain ⟨p1, p2, p3, p4⟩ := hi p vp hp
  -- the value the new map has at an address listed by an old record
  have hval : ∀ c w, T c = some w → c ≠ n →
      ∃ w1, Function.update
        (Function.update T n (some { up := some p, kids := [], shd := none, isShd := false }))
        p (some { vp with kids := vp.kids ++ [n] }) c = some w1 ∧ w1.up = w.up ∧
        w1.isShd = w.isShd := by
    intro c w hw hcn
    by_cases hcp : c = p
    · subst hcp
      rw [Function.update_same]
      rw [hp] at hw; cases hw
      exact ⟨_, rfl, rfl, rfl⟩
    · rw [Function.update_noteq hcp, Function.update_noteq hcn]
      exact ⟨w, hw, rfl, rfl⟩
  intro q v hv
  by_cases hq : q = p
  · subst hq
    rw [Function.update_same] at hv
    cases hv
    refine ⟨p1, ?_, ?_, ?_⟩
    · show (vp.kids ++ [n]).Nodup
      rw [List.nodup_append]
      refine ⟨p2, List.nodup_singleton _, ?_⟩
      intro a ha hb
      rw [List.mem_singleton] at hb
      exact hlisted q vp a hp (Or.inl ha) hb
    · intro c hc
      have hc1 : c ∈ vp.kids ++ [n] := hc
      rw [List.mem_append, List.mem_singleton] at hc1
      rcases hc1 with hc1 | hc1
      · obtain ⟨w, hw, hwp, hws⟩ := p3 c hc1
        obtain ⟨w1, hw1, hu, hs⟩ := hval c w hw (hlisted q vp c hp (Or.inl hc1))
        exact ⟨w1, hw1, by rw [hu]; exact hwp, by rw [hs]; exact hws⟩
      · subst hc1
        refine ⟨{ up := some q, kids := [], shd := none, isShd := false }, ?_, rfl, rfl⟩
        rw [Function.update_noteq (Ne.symm hpn), Function.update_same]
    · intro c hc
      have hc1 : vp.shd = some c := hc
      obtain ⟨w, hw, hwp, hws⟩ := p4 c hc1
      obtain ⟨w1, hw1, hu, hs⟩ := hval c w hw (hlisted q vp c hp (Or.inr hc1))
      exact ⟨w1, hw1, by rw [hu]; exact hwp, by rw [hs]; exact hws⟩
  · rw [Function.update_noteq hq] at hv
    by_cases hqn : q = n
    · subst hqn
      rw [Function.update_same] at hv
      cases hv
      refine ⟨fun e => hpn (Option.some.inj e), List.nodup_nil, ?_, ?_⟩
      · intro c hc; cases hc
      · intro c hc; cases hc
    · rw [Function.update_noteq hqn] at hv
      obtain ⟨h1, h2, h3, h4⟩ := hi q v hv
      refine ⟨h1, h2, ?_, ?_⟩
      · intro c hc
        obtain ⟨w, hw, hwp, hws⟩ := h3 c hc
        obtain ⟨w1, hw1, hu, hs⟩ := hval c w hw (hlisted q v c hv (Or.inl hc))
        exact ⟨w1, hw1, by rw [hu]; exact hwp, by rw [hs]; exact hws⟩
      · intro c hc
        obtain ⟨w, hw, hwp, hws⟩ := h4 c hc
        obtain ⟨w1, hw1, hu, hs⟩ := hval c w hw (hlisted q v c hv (Or.inr hc))
        exact ⟨w1, hw1, by rw [hu]; exact hwp, by rw [hs]; exact hws⟩

theorem treeInvF_link_shadow {T : DevId → Option TreeView} {n p : DevId} {vp : TreeView}
    (hi : TreeInvF T) (hn : T n = none) (hp : T p = some vp) :
    TreeInvF (Function.update
      (Function.update T n (some { up := some p, kids := [], shd := none, isShd := true }))
      p (some { vp with shd := some n })) := by
  have hpn : p ≠ n := fun e => by rw [e, hn] at hp; cases hp
  have hlisted : ∀ q v c, T q = some v → (c ∈ v.kids ∨ v.shd = some c) → c ≠ n := by
    intro q v c hv hc e
    obtain ⟨_, _, h3, h4⟩ := hi q v hv
    rcases hc with hc | hc
    · obtain ⟨w, hw, _⟩ := h3 c hc
      rw [e, hn] at hw; cases hw
    · obtain ⟨w, hw, _⟩ := h4 c hc
      rw [e, hn] at hw; cases hw
  obtain ⟨p1, p2, p3, p4⟩ := hi p vp hp
  have hval : ∀ c w, T c = some w → c ≠ n →
      ∃ w1, Function.update
        (Function.update T n (some { up := some p, kids := [], shd := none, isShd := true }))
        p (some { vp with shd := some n }) c = some w1 ∧ w1.up = w.up ∧
        w1.isShd = w.isShd := by
    intro c w hw hcn
    by_cases hcp : c = p
    · subst hcp
      rw [Function.update_same]
      rw [hp] at hw; cases hw
      exact ⟨_, rfl, rfl, rfl⟩
    · rw [Function.update_noteq hcp, Function.update_noteq hcn]
      exact ⟨w, hw, rfl, rfl⟩
  intro q v hv
  by_cases hq : q = p
  · subst hq
    rw [Function.update_same] at hv
    cases hv
    refine ⟨p1, p2, ?_, ?_⟩
    · intro c hc
      have hc1 : c ∈ vp.kids := hc
      obtain ⟨w, hw, hwp, hws⟩ := p3 c hc1
      obtain ⟨w1, hw1, hu, hs⟩ := hval c w hw (hlisted q vp c hp (Or.inl hc1))
      exact ⟨w1, hw1, by rw [hu]; exact hwp, by rw [hs]; exact hws⟩
    · intro c hc
      have hc1 : some n = some c := hc
      cases hc1
      refine ⟨{ up := some q, kids := [], shd := none, isShd := true }, ?_, rfl, rfl⟩
      rw [Function.update_noteq (Ne.symm hpn), Function.update_same]
  · rw [Function.update_noteq hq] at hv
    by_cases hqn : q = n
    · subst hqn
      rw [Function.update_same] at hv
      cases hv
      refine ⟨fun e => hpn (Option.some.inj e), List.nodup_nil, ?_, ?_⟩
      · intro c hc; cases hc
      · intro c hc; cases hc
    · rw [Function.update_noteq hqn] at hv
      obtain ⟨h1, h2, h3, h4⟩ := hi q v hv
      refine ⟨h1, h2, ?_, ?_⟩
      · intro c hc
        obtain ⟨w, hw, hwp, hws⟩ := h3 c hc
        obtain ⟨w1, hw1, hu, hs⟩ := hval c w hw (hlisted q v c hv (Or.inl hc))
        exact ⟨w1, hw1, by rw [hu]; exact hwp, by rw [hs]; exact hws⟩
      · intro c hc
        obtain ⟨w, hw, hwp, hws⟩ := h4 c hc
        obtain ⟨w1, hw1, hu, hs⟩ := hval c w hw (hlisted q v c hv (Or.inr hc))
        exact ⟨w1, hw1, by rw [hu]; exact hwp, by rw [hs]; exact hws⟩

theorem treeInvF_unlink {T : DevId → Option TreeView} {dev p : DevId} {vd vp : TreeView}
    (hi : TreeInvF T) (hd : T dev = some vd) (hup : vd.up = some p) (hp : T p = some vp) :
    TreeInvF (Function.update
      (Function.update T p
        (some (if vd.isShd then { vp with shd := none }
               else { vp with kids := vp.kids.erase dev })))
      dev (some { vd with up := none })) := by
  obtain ⟨d1, d2, d3, d4⟩ := hi dev vd hd
  obtain ⟨p1, p2, p3, p4⟩ := hi p vp hp
  have hpd : p ≠ dev := fun e => d1 (by rw [hup, e])
  -- an address that an old record lists as child or shadow is not `dev`,
  -- unless the record is the one at `p`
  have hnotdev : ∀ q v c w, T q = some v → T c = some w → w.up = some q → q ≠ p →
      c ≠ dev := by
    intro q v c w _ hw hwp hqp e
    subst e
    rw [hd] at hw; cases hw
    rw [hup] at hwp
    exact hqp (Option.some.inj hwp).symm
  have hval : ∀ c w, T c = some w → c ≠ dev →
      ∃ w1, Function.update
        (Function.update T p
          (some (if vd.isShd then { vp with shd := none }
                 else { vp with kids := vp.kids.erase dev })))
        dev (some { vd with up := none }) c = some w1 ∧ w1.up = w.up ∧
        w1.isShd = w.isShd := by
    intro c w hw hcd
    rw [Function.update_noteq hcd]
    by_cases hcp : c = p
    · subst hcp
      rw [Function.update_same]
      rw [hp] at hw; cases hw
      refine ⟨_, rfl, ?_, ?_⟩ <;> split <;> rfl
    · rw [Function.update_noteq hcp]
      exact ⟨w, hw, rfl, rfl⟩
  have key :
      (if vd.isShd then { vp with shd := none }
        else { vp with kids := vp.kids.erase dev } : TreeView).up = vp.up ∧
      (if vd.isShd then { vp with shd := none }
        else { vp with kids := vp.kids.erase dev } : TreeView).kids.Nodup ∧
      (∀ c ∈ (if vd.isShd then { vp with shd := none }
        else { vp with kids := vp.kids.erase dev } : TreeView).kids,
        c ∈ vp.kids ∧ c ≠ dev) ∧
      (∀ c, (if vd.isShd then { vp with shd := none }
        else { vp with kids := vp.kids.erase dev } : TreeView).shd = some c →
        vp.shd = some c ∧ c ≠ dev) := by
    by_cases hs : vd.isShd = true
    · rw [if_pos hs]
      refine ⟨rfl, p2, ?_, ?_⟩
      · intro c hc
        refine ⟨hc, fun e => ?_⟩
        obtain ⟨w, hw, _, hws⟩ := p3 c hc
        rw [e, hd] at hw; cases hw
        rw [hs] at hws; cases hws
      · intro c hc; cases hc
    · rw [if_neg hs]
      refine ⟨rfl, p2.erase dev, ?_, ?_⟩
      · intro c hc
        refine ⟨List.mem_of_mem_erase hc, fun e => ?_⟩
        rw [e] at hc
        exact (List.Nodup.not_mem_erase p2) hc
      · intro c hc
        refine ⟨hc, fun e => ?_⟩
        obtain ⟨w, hw, _, hws⟩ := p4 c hc
        rw [e, hd] at hw; cases hw
        rw [hws] at hs; exact hs rfl
  intro q v hv
  by_cases hq : q = dev
  · subst hq
    rw [Function.update_same] at hv
    cases hv
    refine ⟨by simp, d2, ?_, ?_⟩
    · intro c hc
      have hc1 : c ∈ vd.kids := hc
      obtain ⟨w, hw, hwp, hws⟩ := d3 c hc1
      have hcd : c ≠ q := fun e => by
        subst e
        rw [hd] at hw; cases hw
        exact d1 hwp
      obtain ⟨w1, hw1, hu, hs⟩ := hval c w hw hcd
      exact ⟨w1, hw1, by rw [hu]; exact hwp, by rw [hs]; exact hws⟩
    · intro c hc
      have hc1 : vd.shd = some c := hc
      obtain ⟨w, hw, hwp, hws⟩ := d4 c hc1
      have hcd : c ≠ q := fun e => by
        subst e
        rw [hd] at hw; cases hw
        exact d1 hwp
      obtain ⟨w1, hw1, hu, hs⟩ := hval c w hw hcd
      exact ⟨w1, hw1, by rw [hu]; exact hwp, by rw [hs]; exact hws⟩
  · rw [Function.update_noteq hq] at hv
    by_cases hqp : q = p
    · subst hqp
      rw [Function.update_same] at hv
      cases hv
      obtain ⟨k1, k2, k3, k4⟩ := key
      refine ⟨by rw [k1]; exact p1, k2, ?_, ?_⟩
      · intro c hc
        obtain ⟨hmem, hcd⟩ := k3 c hc
        obtain ⟨w, hw, hwp, hws⟩ := p3 c hmem
        obtain ⟨w1, hw1, hu, hs1⟩ := hval c w hw hcd
        exact ⟨w1, hw1, by rw [hu]; exact hwp, by rw [hs1]; exact hws⟩
      · intro c hc
        obtain ⟨hsh, hcd⟩ := k4 c hc
        obtain ⟨w, hw, hwp, hws⟩ := p4 c hsh
        obtain ⟨w1, hw1, hu, hs1⟩ := hval c w hw hcd
        exact ⟨w1, hw1, by rw [hu]; exact hwp, by rw [hs1]; exact hws⟩
    · rw [Function.update_noteq hqp] at hv
      obtain ⟨h1, h2, h3, h4⟩ := hi q v hv
      refine ⟨h1, h2, ?_, ?_⟩
      · intro c hc
        obtain ⟨w, hw, hwp, hws⟩ := h3 c hc
        obtain ⟨w1, hw1, hu, hs⟩ := hval c w hw (hnotdev q v c w hv hw hwp hqp)
        exact ⟨w1, hw1, by rw [hu]; exact hwp, by rw [hs]; exact hws⟩
      · intro c hc
        obtain ⟨w, hw, hwp, hws⟩ := h4 c hc
        obtain ⟨w1, hw1, hu, hs⟩ := hval c w hw (hnotdev q v c w hv hw hwp hqp)
        exact ⟨w1, hw1, by rw [hu]; exact hwp, by rw [hs]; exact hws⟩

theorem treeKeep_refl (s : State) : TreeKeep s s := fun _ => rfl

theorem treeKeep_trans {a b c : State} (h1 : TreeKeep a b) (h2 : TreeKeep b c) :
    TreeKeep a c := fun i => (h2 i).trans (h1 i)

theorem treeKeep_of_devs {s s1 : State} (hd : s1.devs = s.devs) : TreeKeep s s1 := by
  intro i
  unfold tree_map
  rw [hd]

theorem treeKeep_emit {s0 s : State} (hk : TreeKeep s0 s) (es : List Event) :
    TreeKeep s0 (s.emit es) :=
  treeKeep_trans hk (treeKeep_of_devs rfl)

theorem treeKeep_setHost {s0 s : State} (hk : TreeKeep s0 s) (h : HostId) (x : Devhost) :
    TreeKeep s0 (s.setHost h x) :=
  treeKeep_trans hk (treeKeep_of_devs rfl)

theorem tree_map_of_getDev {s : State} {j : DevId} {d : Device} (hd : s.getDev j = some d) :
    tree_map s j = some (tree_view d) := by
  unfold tree_map
  rw [(getDev_eq_some.1 hd).1]
  rfl

theorem tree_map_length (s : State) : tree_map s s.devs.length = none := by
  unfold tree_map
  rw [List.getElem?_eq_none (Nat.le_refl _)]
  rfl

theorem tree_map_lt {s : State} {j : DevId} {v : TreeView} (h : tree_map s j = some v) :
    j < s.devs.length := by
  unfold tree_map at h
  by_contra hlt
  rw [List.getElem?_eq_none (Nat.le_of_not_lt hlt)] at h
  cases h

theorem tree_map_setDev {s : State} {j : DevId} (x : Device) (hlt : j < s.devs.length) :
    tree_map (s.setDev j x) = Function.update (tree_map s) j (some (tree_view x)) := by
  funext i
  unfold tree_map State.setDev
  by_cases hij : i = j
  · subst hij
    simp [List.getElem?_set, hlt]
  · rw [Function.update_noteq hij]
    simp [List.getElem?_set, Ne.symm hij]

theorem tree_map_alloc (s : State) (x : Device) :
    tree_map { s with devs := s.devs ++ [x] } =
      Function.update (tree_map s) s.devs.length (some (tree_view x)) := by
  funext i
  unfold tree_map
  simp only
  rcases Nat.lt_trichotomy i s.devs.length with hlt | heq | hgt
  · rw [List.getElem?_append_left hlt, Function.update_noteq (Nat.ne_of_lt hlt)]
  · subst heq
    simp
  · rw [Function.update_noteq (Nat.ne_of_gt hgt), List.getElem?_eq_none (by simp; omega),
      List.getElem?_eq_none (by omega)]

theorem treeKeep_setDev {s0 s : State} {j : DevId} {x : Device} (hk : TreeKeep s0 s)
    (hx : tree_map s0 j = some (tree_view x)) : TreeKeep s0 (s.setDev j x) := by
  have hj : tree_map s j = some (tree_view x) := by rw [hk j]; exact hx
  intro i
  rw [tree_map_setDev x (tree_map_lt hj), ← hk i]
  by_cases hij : i = j
  · subst hij
    rw [Function.update_same, hj]
  · rw [Function.update_noteq hij]

theorem treeInv_of_keep {s s1 : State} (hk : TreeKeep s s1) (hi : TreeInv s) : TreeInv s1 := by
  rw [treeInv_iff_map] at hi ⊢
  exact treeInvF_congr hk hi

theorem treeInv_of_devs {s s1 : State} (hd : s1.devs = s.devs) (hi : TreeInv s) :
    TreeInv s1 :=
  treeInv_of_keep (treeKeep_of_devs hd) hi

theorem dh_bind_driver_tkeep {pf : Platform} {s s1 : State} {dev : DevId} {libname : String}
    {r : Int} (h : dh_bind_driver pf s dev libname = some (r, s1)) : TreeKeep s s1 := by
  unfold dh_bind_driver at h
  split at h
  · cases h; exact treeKeep_refl _
  · split at h
    · cases h; exact treeKeep_refl _
    · split at h
      · cases h
      · rename_i d hd
        simp only at h
        split at h
        · cases h; exact treeKeep_emit (treeKeep_refl _) _
        · cases h
          exact treeKeep_setDev (treeKeep_emit (treeKeep_refl _) _)
            (by rw [tree_map_of_getDev hd]; rfl)

theorem dc_launch_devhost_tkeep {pf : Platform} {s s1 : State} {host : HostId} {name : String}
    {hrpc : Handle} {r : Int} (h : dc_launch_devhost pf s host name hrpc = some (r, s1)) :
    TreeKeep s s1 := by
  unfold dc_launch_devhost at h
  split at h
  · cases h
  · simp only at h
    split at h
    · cases h; exact treeKeep_emit (treeKeep_refl _) _
    · cases h; exact treeKeep_setHost (treeKeep_emit (treeKeep_refl _) _) _ _

theorem dc_new_devhost_tkeep {pf : Platform} {s s1 : State} {name : String}
    {r : Int} {out : Option HostId} (h : dc_new_devhost pf s name = some (r, s1, out)) :
    TreeKeep s s1 := by
  unfold dc_new_devhost at h
  split at h
  · cases h; exact treeKeep_refl _
  · simp only at h
    have h0 : TreeKeep s { s with hosts := s.hosts ++ [({} : Devhost)] } :=
      treeKeep_of_devs rfl
    split at h
    · cases h; exact treeKeep_setHost h0 _ _
    · split at h
      · cases h
      · rename_i r1 s3 hl
        have h3 := treeKeep_trans (treeKeep_setHost h0 _ _) (dc_launch_devhost_tkeep hl)
        split at h
        · split at h
          · cases h
          · cases h
            exact treeKeep_setHost (treeKeep_emit h3 _) _ _
        · cases h
          exact h3

theorem dh_create_device_tkeep {pf : Platform} {s s1 : State} {dev : DevId} {dh : HostId}
    {libname : String} {r : Int} (h : dh_create_device pf s dev dh libname = some (r, s1)) :
    TreeKeep s s1 := by
  unfold dh_create_device at h
  split at h
  · cases h
  · rename_i d hd
    have hslot : tree_map s dev = some (tree_view d) := tree_map_of_getDev hd
    split at h
    · cases h
    · split at h
      · cases h
      · split at h
        · cases h; exact treeKeep_refl _
        · split at h
          · cases h; exact treeKeep_refl _
          · simp only at h
            split at h
            · cases h; exact treeKeep_emit (treeKeep_refl _) _
            · split at h
              · cases h
              · split at h
                · cases h
                  exact treeKeep_emit (treeKeep_emit (treeKeep_refl _) _) _
                · split at h
                  · cases h
                    exact treeKeep_emit (treeKeep_emit
                      (treeKeep_setDev (treeKeep_emit (treeKeep_refl _) _) (by exact hslot)) _) _
                  · cases h
                    exact treeKeep_emit
                      (treeKeep_setDev (treeKeep_emit (treeKeep_refl _) _) (by exact hslot)) _

theorem dc_release_devhost_tkeep {s s1 : State} {h : HostId}
    (hr : dc_release_devhost s h = some s1) : TreeKeep s s1 := by
  unfold dc_release_devhost at hr
  split at hr
  · cases hr
  · simp only at hr
    split at hr
    · cases hr; exact treeKeep_setHost (treeKeep_refl _) _ _
    · cases hr; exact treeKeep_emit (treeKeep_setHost (treeKeep_refl _) _ _) _

theorem dc_release_device_tkeep {s s1 : State} {p : DevId}
    (h : dc_release_device s p = some s1) : TreeKeep s s1 := by
  unfold dc_release_device at h
  split at h
  · cases h
  · rename_i d hd
    have hslot : tree_map s p = some (tree_view d) := tree_map_of_getDev hd
    simp only at h
    split at h
    · cases h; exact treeKeep_setDev (treeKeep_refl _) (by exact hslot)
    · split at h
      · cases h; exact treeKeep_setDev (treeKeep_refl _) (by exact hslot)
      · cases h
        exact treeKeep_emit (treeKeep_setDev (treeKeep_refl _) (by exact hslot)) _

theorem dc_remove_device_detach_tkeep {s s1 : State} {dev : DevId} {d : Device}
    (hslot : tree_map s dev = some (tree_view d))
    (h : dc_remove_device_detach s dev d = some s1) : TreeKeep s s1 := by
  unfold dc_remove_device_detach at h
  split at h
  · cases h; exact treeKeep_refl _
  · split at h
    · cases h
    · rename_i s2 hs2
      cases h
      exact treeKeep_setDev (dc_release_devhost_tkeep hs2) (by exact hslot)

theorem upOk_update {T : DevId → Option TreeView} {j : DevId} {v : TreeView}
    (hu : UpOk T) (hv : ∀ p, v.up = some p → (T p).isSome = true ∨ p = j) :
    UpOk (Function.update T j (some v)) := by
  intro q w p hq hp
  by_cases hpj : p = j
  · subst hpj
    rw [Function.update_same]; rfl
  · rw [Function.update_noteq hpj]
    by_cases hqj : q = j
    · subst hqj
      rw [Function.update_same] at hq
      cases hq
      rcases hv p hp with h | h
      · exact h
      · exact absurd h hpj
    · rw [Function.update_noteq hqj] at hq
      exact hu q w p hq hp

theorem treeWf_treeInv {s : State} (h : TreeWf s) : TreeInv s := treeInv_iff_map.2 h.1

theorem treeWf_of_keep {s s1 : State} (hk : TreeKeep s s1) (hi : TreeWf s) : TreeWf s1 := by
  have : tree_map s1 = tree_map s := funext hk
  unfold TreeWf
  rw [this]
  exact hi

theorem treeWf_of_devs {s s1 : State} (hd : s1.devs = s.devs) (hi : TreeWf s) : TreeWf s1 :=
  treeWf_of_keep (treeKeep_of_devs hd) hi

theorem treeWf_init (cfg : Config) : TreeWf (init_state cfg) := by
  have hT : ∀ q v, tree_map (init_state cfg) q = some v →
      v = { up := none, kids := [], shd := none, isShd := false } := by
    intro q v hv
    unfold tree_map at hv
    rcases q with _ | _ | n
    · simp [init_state, tree_view] at hv; exact hv.symm
    · simp [init_state, tree_view] at hv; exact hv.symm
    · simp [init_state] at hv
  constructor
  · intro q v hv
    rw [hT q v hv]
    refine ⟨by simp, List.nodup_nil, ?_, ?_⟩
    · intro c hc; cases hc
    · intro c hc; cases hc
  · intro q v p hv hp
    rw [hT q v hv] at hp
    cases hp

theorem dc_create_shadow_treeWf {pf : Platform} {s s1 : State} {dev : DevId} {r : Int}
    (hi : TreeWf s) (h : dc_create_shadow pf s dev = some (r, s1)) : TreeWf s1 := by
  unfold dc_create_shadow at h
  split at h
  · cases h
  · rename_i pr hp
    split at h
    · cases h; exact hi
    · split at h
      · cases h; exact hi
      · cases h
        have hlt : dev < s.devs.length := getDev_lt hp
        have hmap : tree_map (({ s with devs := s.devs ++
            [{ name := pr.name, flags := { shadow := true }, protocol_id := pr.protocol_id,
               parent := some dev }] } : State).setDev dev
            { pr with shadow := some s.devs.length, refcount := pr.refcount + 1 }) =
            Function.update
              (Function.update (tree_map s) s.devs.length
                (some { up := some dev, kids := [], shd := none, isShd := true }))
              dev (some { tree_view pr with shd := some s.devs.length }) := by
          have hlt2 : dev < ({ s with devs := s.devs ++
              [{ name := pr.name, flags := { shadow := true }, protocol_id := pr.protocol_id,
                 parent := some dev }] } : State).devs.length := by
            simp only [List.length_append, List.length_singleton]
            exact Nat.lt_succ_of_lt hlt
          rw [tree_map_setDev _ hlt2, tree_map_alloc]
          rfl
        unfold TreeWf
        rw [hmap]
        have hpm := tree_map_of_getDev hp
        refine ⟨treeInvF_link_shadow hi.1 (tree_map_length s) hpm, ?_⟩
        refine upOk_update (upOk_update hi.2 ?_) ?_
        · intro p hpp
          cases hpp
          left; rw [hpm]; rfl
        · intro p hpp
          left
          have h1 := hi.2 dev (tree_view pr) p hpm hpp
          by_cases hpn : p = s.devs.length
          · rw [hpn, tree_map_length] at h1; cases h1
          · rw [Function.update_noteq hpn]; exact h1

theorem dc_attempt_bind_busdev_treeWf {pf : Platform} {s s1 : State} {drv : Driver}
    {dev : DevId} {libname devhostname : String} {r : Int} (hi : TreeWf s)
    (h : dc_attempt_bind_busdev pf s drv dev libname devhostname = some (r, s1)) :
    TreeWf s1 := by
  unfold dc_attempt_bind_busdev at h
  split at h
  · cases h
  · rename_i r1 t1 hcs
    have h1 := dc_create_shadow_treeWf hi hcs
    split at h
    · cases h; exact h1
    · split at h
      · cases h
      · split at h
        · cases h
        · rename_i sh hsh
          split at h
          · cases h
          · rename_i shr hshr
            split at h
            · split at h
              · cases h
              · rename_i r2 t2 out hnd
                have h2 : TreeKeep t1 t2 := dc_new_devhost_tkeep hnd
                simp only at h
                split at h
                · cases h
                  exact treeWf_of_keep h2 h1
                · have h3 : TreeKeep t1 (t2.setDev sh { shr with host := out }) :=
                    treeKeep_setDev h2 (by rw [tree_map_of_getDev hshr]; rfl)
                  split at h
                  · cases h
                  · split at h
                    · cases h
                    · rename_i r3 t3 hcd
                      have h4 := dh_create_device_tkeep hcd
                      split at h
                      · cases h
                        exact treeWf_of_keep (treeKeep_trans h3 h4) h1
                      · exact treeWf_of_keep (treeKeep_trans (treeKeep_trans h3 h4)
                          (dh_bind_driver_tkeep h)) h1
            · exact treeWf_of_keep (dh_bind_driver_tkeep h) h1

theorem dc_attempt_bind_treeWf {cfg : Config} {pf : Platform} {s s1 : State} {drv : Driver}
    {dev : DevId} {r : Int} (hi : TreeWf s)
    (h : dc_attempt_bind cfg pf s drv dev = some (r, s1)) : TreeWf s1 := by
  unfold dc_attempt_bind at h
  split at h
  · cases h
  · split at h
    · cases h; exact hi
    · split at h
      · split at h
        · cases h; exact hi
        · exact treeWf_of_keep (dh_bind_driver_tkeep h) hi
      · split at h
        · exact dc_attempt_bind_busdev_treeWf hi h
        · split at h
          · exact dc_attempt_bind_busdev_treeWf hi h
          · split at h
            · exact dc_attempt_bind_busdev_treeWf hi h
            · cases h; exact hi

theorem dc_handle_new_device_loop_treeWf {cfg : Config} {pf : Platform} {s s1 : State}
    {dev : DevId} {d : Device} (l : List Driver) (hi : TreeWf s)
    (h : dc_handle_new_device_loop cfg pf s dev d l = some s1) : TreeWf s1 := by
  induction l with
  | nil =>
    unfold dc_handle_new_device_loop at h
    cases h; exact hi
  | cons drv rest ih =>
    unfold dc_handle_new_device_loop at h
    split at h
    · split at h
      · cases h
      · rename_i r t hb
        cases h
        exact dc_attempt_bind_treeWf hi hb
    · exact ih h

theorem dc_handle_new_device_treeWf {cfg : Config} {pf : Platform} {s s1 : State}
    {dev : DevId} (hi : TreeWf s) (h : dc_handle_new_device cfg pf s dev = some s1) :
    TreeWf s1 := by
  unfold dc_handle_new_device at h
  split at h
  · cases h; exact hi
  · split at h
    · cases h
    · exact dc_handle_new_device_loop_treeWf _ hi h

theorem coordinator_new_driver_treeWf {cfg : Config} {pf : Platform} {s s1 : State}
    {drv : Driver} (hi : TreeWf s) (h : coordinator_new_driver cfg pf s drv = some s1) :
    TreeWf s1 := by
  unfold coordinator_new_driver at h
  simp only at h
  have h0 : TreeWf { s with list_drivers := s.list_drivers ++ [drv] } :=
    treeWf_of_devs rfl hi
  split at h
  · split at h
    · cases h
    · rename_i r t hb
      cases h
      exact dc_attempt_bind_treeWf h0 hb
  · split at h
    · split at h
      · cases h
      · rename_i r t hb
        cases h
        exact dc_attempt_bind_treeWf h0 hb
    · cases h; exact h0

theorem coordinator_idle_step_treeWf {cfg : Config} {pf : Platform} {s s1 : State}
    (hi : TreeWf s) (h : coordinator_idle_step cfg pf s = some s1) : TreeWf s1 := by
  unfold coordinator_idle_step at h
  split at h
  · cases h; exact hi
  · rename_i dev rest hl
    unfold process_work at h
    split at h
    · cases h
    · rename_i d hd
      have h0 : TreeWf ({ s with list_pending_work := rest } : State) := treeWf_of_devs rfl hi
      have h1 : TreeWf (({ s with list_pending_work := rest } : State).setDev dev
          { d with work_op := WORK_IDLE }) :=
        treeWf_of_keep (treeKeep_setDev (treeKeep_refl _)
          (by rw [tree_map_of_getDev hd]; rfl)) h0
      simp only at h
      split at h
      · exact dc_handle_new_device_treeWf h1 h
      · cases h; exact h1

theorem dc_remove_device_unlink_treeWf {s s1 : State} {dev : DevId} (hi : TreeWf s)
    (h : dc_remove_device_unlink s dev = some s1) : TreeWf s1 := by
  unfold dc_remove_device_unlink at h
  split at h
  · cases h
  · rename_i d hd
    split at h
    · cases h; exact hi
    · rename_i p hpar
      split at h
      · cases h
      · rename_i pr hpr
        simp only at h
        have hdm := tree_map_of_getDev hd
        have hpm := tree_map_of_getDev hpr
        have hup : (tree_view d).up = some p := hpar
        have hpd : p ≠ dev := fun e => (hi.1 dev _ hdm).1 (by rw [hup, e])
        have hplt := getDev_lt hpr
        have hdlt := getDev_lt hd
        -- the state after the parent has been updated
        have hmid : ∀ x : Device,
            ((s.setDev p x).getDev dev = some d) ∧
            (∀ y : Device, tree_map ((s.setDev p x).setDev dev y) =
              Function.update (Function.update (tree_map s) p (some (tree_view x))) dev
                (some (tree_view y))) := by
          intro x
          refine ⟨by rw [getDev_setDev_ne _ hpd]; exact hd, fun y => ?_⟩
          rw [tree_map_setDev _ (by rw [length_setDev]; exact hdlt),
            tree_map_setDev _ hplt]
        have hU := treeInvF_unlink hi.1 hdm hup hpm
        have hO : ∀ vp1 : TreeView, vp1.up = (tree_view pr).up →
            UpOk (Function.update (Function.update (tree_map s) p (some vp1)) dev
              (some { tree_view d with up := none })) := by
          intro vp1 hvp
          refine upOk_update (upOk_update hi.2 ?_) ?_
          · intro q hq
            left
            rw [hvp] at hq
            exact hi.2 p _ q hpm hq
          · intro q hq; cases hq
        by_cases hs : d.flags.shadow = true
        · rw [if_pos hs] at h
          have hs1 : (tree_view d).isShd = true := hs
          rw [if_pos hs1] at hU
          rw [(hmid _).1] at h
          simp only at h
          refine treeWf_of_keep (dc_release_device_tkeep h) ?_
          unfold TreeWf
          rw [(hmid _).2]
          exact ⟨hU, hO _ rfl⟩
        · rw [if_neg hs] at h
          have hs1 : ¬ (tree_view d).isShd = true := hs
          rw [if_neg hs1] at hU
          rw [(hmid _).1] at h
          simp only at h
          refine treeWf_of_keep (dc_release_device_tkeep h) ?_
          unfold TreeWf
          rw [(hmid _).2]
          exact ⟨hU, hO _ rfl⟩

theorem dc_remove_device_treeWf {s s1 : State} {dev : DevId} {r : Int} (hi : TreeWf s)
    (h : dc_remove_device s dev = some (r, s1)) : TreeWf s1 := by
  unfold dc_remove_device at h
  split at h
  · cases h
  · rename_i d hd
    split at h
    · cases h; exact hi
    · split at h
      · cases h; exact hi
      · simp only at h
        have h1 : TreeKeep s ((s.setDev dev
            { d with flags := { d.flags with dead := true } }).emit [Event.do_unpublish dev]) :=
          treeKeep_emit (treeKeep_setDev (treeKeep_refl _)
            (by rw [tree_map_of_getDev hd]; rfl)) _
        split at h
        · cases h
        · rename_i s2 hs2
          have h2 := dc_remove_device_detach_tkeep
            (by rw [h1 dev, tree_map_of_getDev hd]; rfl) hs2
          split at h
          · cases h
          · rename_i s3 hs3
            cases h
            exact dc_remove_device_unlink_treeWf
              (treeWf_of_keep (treeKeep_trans h1 h2) hi) hs3

theorem queue_work_tkeep {s s1 : State} {dev : DevId} {op arg : Nat}
    (h : queue_work s dev op arg = some s1) : TreeKeep s s1 := by
  unfold queue_work at h
  split at h
  · cases h
  · rename_i d hd
    split at h
    · cases h
    · cases h
      exact treeKeep_trans
        (treeKeep_setDev (treeKeep_refl _) (by rw [tree_map_of_getDev hd]; rfl))
        (treeKeep_of_devs rfl)

theorem treeWf_leaf {T : DevId → Option TreeView} {n : DevId} (b : Bool)
    (hi : TreeInvF T ∧ UpOk T) (hn : T n = none) :
    TreeInvF (Function.update T n (some { up := none, kids := [], shd := none, isShd := b })) ∧
    UpOk (Function.update T n (some { up := none, kids := [], shd := none, isShd := b })) :=
  ⟨treeInvF_leaf b hi.1 hn, upOk_update hi.2 (fun p hp => by cases hp)⟩

theorem dc_add_device_link_treeWf {s0 t s1 : State} {dev : DevId} {d : Device}
    {parent : Option DevId} {r : Int} (hi : TreeWf s0) (hdev : dev = s0.devs.length)
    (ht : tree_map t = Function.update (tree_map s0) dev
      (some { up := none, kids := [], shd := none, isShd := false }))
    (hd : tree_view d = { up := none, kids := [], shd := none, isShd := false })
    (hpar : ∀ p, parent = some p → (tree_map s0 p).isSome = true)
    (h : dc_add_device_link t dev d parent = some (r, s1)) : TreeWf s1 := by
  have hn : tree_map s0 dev = none := by rw [hdev]; exact tree_map_length s0
  unfold dc_add_device_link at h
  split at h
  · cases h
  · rename_i t1 ht1
    have hm1 : tree_map t1 = tree_map t := funext (treeKeep_of_devs (host_addref_devs ht1).1)
    split at h
    · cases h
    · rename_i p
      simp only at h
      obtain ⟨vp, hvp⟩ := Option.isSome_iff_exists.1 (hpar p rfl)
      have hpd : p ≠ dev := fun e => by rw [e, hn] at hvp; cases hvp
      have hdlt : dev < t1.devs.length := by
        apply tree_map_lt (s := t1) (v := { up := none, kids := [], shd := none, isShd := false })
        rw [hm1, ht, Function.update_same]
      have hv2 : tree_view { d with refcount := 1, parent := some p } =
          { up := some p, kids := [], shd := none, isShd := false } := by
        have : tree_view { d with refcount := 1, parent := some p } =
            { tree_view d with up := some p } := rfl
        rw [this, hd]
      have hm2 : tree_map (t1.setDev dev { d with refcount := 1, parent := some p }) =
          Function.update (tree_map s0) dev
            (some { up := some p, kids := [], shd := none, isShd := false }) := by
        rw [tree_map_setDev _ hdlt, hm1, ht, Function.update_idem, hv2]
      split at h
      · cases h
      · rename_i pr hpr
        have hprm := tree_map_of_getDev hpr
        rw [hm2, Function.update_noteq hpd, hvp] at hprm
        have hvpr : tree_view pr = vp := (Option.some.inj hprm).symm
        have hplt : p < (t1.setDev dev { d with refcount := 1, parent := some p }).devs.length :=
          getDev_lt hpr
        have hv3 :
            tree_view { pr with children := pr.children ++ [dev], refcount := pr.refcount + 1 } =
              { vp with kids := vp.kids ++ [dev] } := by
          rw [← hvpr]; rfl
        split at h
        · cases h
        · rename_i t4 hq
          cases h
          have hk := queue_work_tkeep hq
          have hm4 : tree_map s1 = Function.update
              (Function.update (tree_map s0) dev
                (some { up := some p, kids := [], shd := none, isShd := false }))
              p (some { vp with kids := vp.kids ++ [dev] }) := by
            rw [funext hk, tree_map_setDev _ hplt, hm2, hv3]
          unfold TreeWf
          rw [hm4]
          refine ⟨treeInvF_link_child hi.1 hn hvp, ?_⟩
          refine upOk_update (upOk_update hi.2 ?_) ?_
          · intro q hq1
            cases hq1
            left; rw [hvp]; rfl
          · intro q hq1
            left
            have h1 := hi.2 p vp q hvp hq1
            by_cases hqd : q = dev
            · rw [hqd, hn] at h1; cases h1
            · rw [Function.update_noteq hqd]; exact h1

theorem tree_map_emit (s : State) (es : List Event) : tree_map (s.emit es) = tree_map s := rfl

theorem dc_add_device_treeWf {cfg : Config} {pf : Platform} {s s1 : State} {parent : DevId}
    {handle : List Handle} {msg : Msg} {name args : String} {data : List Nat} {r : Int}
    (hi : TreeWf s)
    (h : dc_add_device cfg pf s parent handle msg name args data = some (r, s1)) :
    TreeWf s1 := by
  unfold dc_add_device at h
  split at h
  · cases h; exact hi
  · split at h
    · cases h; exact hi
    · split at h
      · cases h; exact hi
      · split at h
        · cases h; exact hi
        · split at h
          · cases h
          · rename_i pr hpr
            simp only at h
            have hleaf : ∀ x : Device,
                tree_view x = tree_view (new_device cfg pr handle msg name args data) →
                tree_view x = { up := none, kids := [], shd := none, isShd := false } := by
              intro x hx; rw [hx]; rfl
            have hlen : s.devs.length < ({ s with devs := s.devs ++
                [new_device cfg pr handle msg name args data] } : State).devs.length := by
              simp only [List.length_append, List.length_singleton]
              exact Nat.lt_succ_self _
            have hset : ∀ (es1 es2 : List Event) (x : Device),
                tree_view x = tree_view (new_device cfg pr handle msg name args data) →
                tree_map (((({ s with devs := s.devs ++
                  [new_device cfg pr handle msg name args data] } : State).emit es1).setDev
                  s.devs.length x).emit es2) =
                Function.update (tree_map s) s.devs.length
                  (some { up := none, kids := [], shd := none, isShd := false }) := by
              intro es1 es2 x hx
              rw [tree_map_emit, tree_map_setDev _ (by exact hlen), tree_map_emit,
                tree_map_alloc, Function.update_idem, hleaf x hx]
            have hwf : ∀ t : State, tree_map t = Function.update (tree_map s) s.devs.length
                (some { up := none, kids := [], shd := none, isShd := false }) → TreeWf t := by
              intro t ht
              unfold TreeWf
              rw [ht]
              exact treeWf_leaf false hi (tree_map_length s)
            split at h
            · cases h
              apply hwf
              have := hset [Event.do_publish (if pr.flags.shadow then pr.parent else some parent)
                s.devs.length] [] { new_device cfg pr handle msg name args data with
                  freed := true } rfl
              rw [← this]; rfl
            · have ht := hset
                [Event.do_publish (if pr.flags.shadow then pr.parent else some parent)
                  s.devs.length]
                [Event.port_watch s.devs.length (handle.getD 0 MX_HANDLE_INVALID)]
                { new_device cfg pr handle msg name args data with
                  ph_handle := handle.getD 0 MX_HANDLE_INVALID } rfl
              have hn_lt := tree_map_lt (s := (((({ s with devs := s.devs ++
                  [new_device cfg pr handle msg name args data] } : State).emit
                  [Event.do_publish (if pr.flags.shadow then pr.parent else some parent)
                    s.devs.length]).setDev s.devs.length
                  { new_device cfg pr handle msg name args data with
                    ph_handle := handle.getD 0 MX_HANDLE_INVALID }).emit
                  [Event.port_watch s.devs.length (handle.getD 0 MX_HANDLE_INVALID)]))
                (j := s.devs.length) (by rw [ht, Function.update_same])
              split at h
              · cases h
                apply hwf
                rw [tree_map_setDev _ (by exact hn_lt), tree_map_emit, ht, Function.update_idem]
                exact congrArg
                  (fun v => Function.update (tree_map s) s.devs.length (some v))
                  (by apply hleaf; rfl)
              · refine dc_add_device_link_treeWf hi rfl ht (by apply hleaf; rfl) ?_ h
                intro p hp
                by_cases hs : pr.flags.shadow = true
                · rw [if_pos hs] at hp
                  exact hi.2 parent (tree_view pr) p (tree_map_of_getDev hpr) hp
                · rw [if_neg hs] at hp
                  cases hp
                  rw [tree_map_of_getDev hpr]; rfl

theorem workReach_treeWf {cfg : Config} {s : State} (hr : WorkReach cfg s) : TreeWf s := by
  induction hr with
  | init => exact treeWf_init cfg
  | add pf s parent handle msg name args data r s1 _ h ih => exact dc_add_device_treeWf ih h
  | remove s dev r s1 _ h ih => exact dc_remove_device_treeWf ih h
  | work pf s s1 _ h ih => exact coordinator_idle_step_treeWf ih h
  | driver pf s drv s1 _ h ih => exact coordinator_new_driver_treeWf ih h
  | bind pf s drv dev r s1 _ h ih => exact dc_attempt_bind_treeWf ih h

theorem workReach_treeInv {cfg : Config} {s : State} (hr : WorkReach cfg s) : TreeInv s :=
  treeWf_treeInv (workReach_treeWf hr)

end DevCoordinator
